import Mathlib

/-!
# SafeGuard Kids: detection-and-escalation pipeline

A shallow embedding of the service worker of the extension
(`src/src/service-worker.js`) and of the parts of the content scripts that
talk to it, followed by theorems about that embedding.

Conventions of the embedding.

* JavaScript strings are `String`; where the code scans a string the model
  scans its list of characters.
* Threat levels are `Int` (the engine may answer any number).
* A property that may be `undefined` is an `Option`; `x || d` is written with
  the `jsOr...` helpers below, which follow JavaScript truthiness.
* `async` functions are run sequentially; a rejected promise or a thrown
  error is `Except.error` carrying the error message.
* `Date.now()` is an explicit argument.
-/

namespace SafeGuard

/-! ## JavaScript helpers -/

/-- The expression `x || d` for a number that may be undefined: `0` and
`undefined` are falsy. -/
def jsOrNat (x : Option Nat) (d : Nat) : Nat :=
  match x with
  | some v => if v = 0 then d else v
  | none => d

/-- The expression `x || d` for an integer that may be undefined. -/
def jsOrInt (x : Option Int) (d : Int) : Int :=
  match x with
  | some v => if v = 0 then d else v
  | none => d

/-- The expression `x || d` for a string that may be undefined: the empty
string and `undefined` are falsy. -/
def jsOrStr (x : Option String) (d : String) : String :=
  match x with
  | some v => if v = "" then d else v
  | none => d

/-- The method `Array.prototype.slice(start)` with one argument: a negative
`start` counts from the end, and either way the index is clamped to the
array. -/
def jsSlice {α : Type} (xs : List α) (start : Int) : List α :=
  if start < 0 then xs.drop (xs.length - start.natAbs)
  else xs.drop (min start.toNat xs.length)

/-! ## ConversationMemory (service-worker.js, lines 23-63) -/

/-- The argument of `ConversationMemory.add`. -/
structure Message where
  text : String
  type : String
  timestamp : Option Nat
  platform : String
  deriving DecidableEq, Repr

/-- One stored entry of the conversation memory. -/
structure Entry where
  text : String
  type : String
  timestamp : Nat
  platform : String
  deriving DecidableEq, Repr

/-- The class `ConversationMemory`. -/
structure ConversationMemory where
  messages : List Entry
  maxMessages : Nat
  deriving DecidableEq, Repr

namespace ConversationMemory

/-- The constructor: no messages, capacity 20. -/
def new : ConversationMemory :=
  { messages := [], maxMessages := 20 }

/-- The entry that `add` builds from its argument; `now` is `Date.now()`. -/
def entryOf (now : Nat) (message : Message) : Entry :=
  { text := message.text
    type := message.type
    timestamp := jsOrNat message.timestamp now
    platform := message.platform }

/-- The method `add`: push the entry, then shift once when the length
exceeds `maxMessages`. -/
def add (m : ConversationMemory) (now : Nat) (message : Message) : ConversationMemory :=
  let pushed := m.messages ++ [entryOf now message]
  if pushed.length > m.maxMessages then
    { m with messages := pushed.tail }
  else
    { m with messages := pushed }

/-- The method `getAll`. -/
def getAll (m : ConversationMemory) : List Entry :=
  m.messages

/-- The method `getLast(count)`, which is `this.messages.slice(-count)`. -/
def getLast (m : ConversationMemory) (count : Int) : List Entry :=
  jsSlice m.messages (-count)

/-- The method `clear`. -/
def clear (m : ConversationMemory) : ConversationMemory :=
  { m with messages := [] }

/-- A sequence of `add` calls, each with the clock value it saw. -/
def addAll (m : ConversationMemory) (calls : List (Nat × Message)) : ConversationMemory :=
  calls.foldl (fun acc c => acc.add c.1 c.2) m

end ConversationMemory

/-! ## JSON values and the host's `JSON.parse`

`JSON.parse` is a built-in of the host, not code of the repository.  The
functions that call it take it as the argument `jsonParse` (the parsed value,
or `none` when it throws a `SyntaxError`), so that the general theorems hold
for every parser.  `JSON.parse` below is a reference reader for the fragment
of JSON without `\u` escapes, fractions and exponents; it is used for the
concrete examples only. -/

/-- A parsed JSON value. -/
inductive JSON where
  | null
  | bool (b : Bool)
  | num (n : Int)
  | str (s : String)
  | arr (items : List JSON)
  | obj (fields : List (String × JSON))

namespace JSON

/-- Property access `parsed.key`: `none` stands for `undefined`. -/
def get (j : JSON) (key : String) : Option JSON :=
  match j with
  | obj fields => fields.lookup key
  | _ => none

/-- JavaScript truthiness of a property that may be undefined. -/
def truthy : Option JSON → Bool
  | none => false
  | some null => false
  | some (bool b) => b
  | some (num n) => n != 0
  | some (str s) => s != ""
  | some (arr _) => true
  | some (obj _) => true

/-- A property read as a number; a value of another type is read as absent. -/
def asInt : Option JSON → Option Int
  | some (num n) => some n
  | _ => none

/-- A property read as a string; a value of another type is read as absent. -/
def asStr : Option JSON → Option String
  | some (str s) => some s
  | _ => none

/-- A property read as an array of strings; elements of another type are
dropped and a value that is no array is read as absent. -/
def asStrList : Option JSON → Option (List String)
  | some (arr items) => some (items.filterMap fun j => asStr (some j))
  | _ => none

def isWs (c : Char) : Bool :=
  c = ' ' || c = '\n' || c = '\r' || c = '\t'

def skipWs : List Char → List Char
  | [] => []
  | c :: cs => if isWs c then skipWs cs else c :: cs

/-- The body of a string literal, after the opening quote; `acc` holds the
characters read so far, last first. -/
def parseString : Nat → List Char → List Char → Option (String × List Char)
  | 0, _, _ => none
  | _ + 1, [], _ => none
  | fuel + 1, c :: cs, acc =>
    if c = '"' then some (String.mk acc.reverse, cs)
    else if c = '\\' then
      match cs with
      | [] => none
      | e :: rest =>
        if e = '"' ∨ e = '\\' ∨ e = '/' then parseString fuel rest (e :: acc)
        else if e = 'n' then parseString fuel rest ('\n' :: acc)
        else if e = 't' then parseString fuel rest ('\t' :: acc)
        else if e = 'r' then parseString fuel rest ('\r' :: acc)
        else none
    else if c.toNat < 32 then none
    else parseString fuel cs (c :: acc)

/-- The digits at the head of the input, as a number, and the rest. -/
def parseDigits : List Char → Nat → Nat × List Char
  | [], n => (n, [])
  | c :: cs, n => if c.isDigit then parseDigits cs (10 * n + (c.toNat - '0'.toNat)) else (n, c :: cs)

/-- An integer literal without sign: `0`, or digits not starting with `0`;
a following fraction or exponent is outside the fragment. -/
def parseNat (cs : List Char) : Option (Nat × List Char) :=
  match cs with
  | [] => none
  | c :: rest =>
    if ¬ c.isDigit then none
    else
      let r := if c = '0' then (0, rest) else parseDigits cs 0
      match r.2 with
      | d :: _ => if d.isDigit ∨ d = '.' ∨ d = 'e' ∨ d = 'E' then none else some r
      | [] => some r

/-- An integer literal with an optional minus sign. -/
def parseNumber (cs : List Char) : Option (Int × List Char) :=
  match cs with
  | '-' :: rest => (parseNat rest).map fun r => (-(r.1 : Int), r.2)
  | _ => (parseNat cs).map fun r => ((r.1 : Int), r.2)

mutual

/-- One JSON value at the head of the input (after white space). -/
def parseValue : Nat → List Char → Option (JSON × List Char)
  | 0, _ => none
  | fuel + 1, cs =>
    match skipWs cs with
    | [] => none
    | c :: rest =>
      if c = '{' then
        match skipWs rest with
        | '}' :: rest2 => some (obj [], rest2)
        | _ => parseMembers fuel rest []
      else if c = '[' then
        match skipWs rest with
        | ']' :: rest2 => some (arr [], rest2)
        | _ => parseElements fuel rest []
      else if c = '"' then
        (parseString fuel rest []).map fun r => (str r.1, r.2)
      else
        match c :: rest with
        | 't' :: 'r' :: 'u' :: 'e' :: rest2 => some (bool true, rest2)
        | 'f' :: 'a' :: 'l' :: 's' :: 'e' :: rest2 => some (bool false, rest2)
        | 'n' :: 'u' :: 'l' :: 'l' :: rest2 => some (null, rest2)
        | other => (parseNumber other).map fun r => (num r.1, r.2)

/-- The members of an object after `{`, up to and including `}`; `acc` holds
the members read so far, last first (a repeated key keeps its last value). -/
def parseMembers : Nat → List Char → List (String × JSON) → Option (JSON × List Char)
  | 0, _, _ => none
  | fuel + 1, cs, acc =>
    match skipWs cs with
    | '"' :: rest =>
      match parseString fuel rest [] with
      | none => none
      | some (key, rest2) =>
        match skipWs rest2 with
        | ':' :: rest3 =>
          match parseValue fuel rest3 with
          | none => none
          | some (v, rest4) =>
            match skipWs rest4 with
            | ',' :: rest5 => parseMembers fuel rest5 ((key, v) :: acc)
            | '}' :: rest5 => some (obj ((key, v) :: acc), rest5)
            | _ => none
        | _ => none
    | _ => none

/-- The elements of an array after `[`, up to and including `]`. -/
def parseElements : Nat → List Char → List JSON → Option (JSON × List Char)
  | 0, _, _ => none
  | fuel + 1, cs, acc =>
    match parseValue fuel cs with
    | none => none
    | some (v, rest) =>
      match skipWs rest with
      | ',' :: rest2 => parseElements fuel rest2 (v :: acc)
      | ']' :: rest2 => some (arr (v :: acc).reverse, rest2)
      | _ => none

end

/-- The reference reader: one value, surrounded by white space only. -/
def parse (text : String) : Option JSON :=
  match parseValue (2 * text.length + 2) text.data with
  | some (v, rest) => if skipWs rest = [] then some v else none
  | none => none

end JSON

/-- The match of the regular expression `/\{[\s\S]*\}/` (greedy, dot-all):
the text from the first `{` to the last `}` after it, or `none` when the
response has no `{` followed by a `}`. -/
def matchBraces (response : String) : Option String :=
  let fromOpen := response.data.dropWhile (fun c => c != '{')
  let upToClose := (fromOpen.reverse.dropWhile (fun c => c != '}')).reverse
  if upToClose = [] then none else some (String.mk upToClose)

/-! ## The language-model host and the agents' availability -/

/-- What one agent call observes of the host's `LanguageModel`: whether the
global is defined, what `LanguageModel.params()` gives (its `available`
field, or a rejection), and what the sequence `create`, `prompt`, `destroy`
gives (the response text, or the first rejection).  The prompt text only
influences which outcome the engine gives, so the outcome is the argument. -/
structure LanguageModelHost where
  defined : Bool
  params : Except String (Option String)
  session : Except String String

/-- The `isAvailable` flag of an agent. -/
structure Agent where
  isAvailable : Bool
  deriving DecidableEq, Repr

/-- The method `initialize` shared by the four agents: the new flag, which is
also the value returned. -/
def Agent.initialize (lm : LanguageModelHost) : Agent :=
  if !lm.defined then { isAvailable := false }
  else
    match lm.params with
    | .error _ => { isAvailable := false }
    | .ok available =>
      if available = some "no" then { isAvailable := false }
      else { isAvailable := true }

/-- The guard that opens `analyze`, `describeImage`, `assess` and
`coordinate`: initialise when the flag is off. -/
def Agent.ensure (agent : Agent) (lm : LanguageModelHost) : Agent :=
  if !agent.isAvailable then Agent.initialize lm else agent

/-! ## Agent 1: text analysis (service-worker.js, lines 66-373) -/

/-- One element of `tensorflowResult.detectedTypes`; the probability, a
float that the service worker never reads, is left out. -/
structure DetectedType where
  type : String
  level : Int
  deriving DecidableEq, Repr

/-- The local signal sent by the content script with a text event. -/
structure TensorFlowResult where
  isToxic : Bool
  level : Option Int
  detectedTypes : Option (List DetectedType)
  source : String
  deriving DecidableEq, Repr

/-- The object built by `Agent1_TextAnalysis.parseResponse` and
`getFallbackResult`. -/
structure AgentResult where
  isInappropriate : Bool
  level : Int
  category : String
  explanation : String
  redFlags : List String
  source : String
  deriving DecidableEq, Repr

/-- The object returned by `Agent1_TextAnalysis.analyze`: an agent result,
with the three properties that `combineWithTensorFlow` adds when it ran. -/
structure TextVerdict extends AgentResult where
  agentAnalysis : Option AgentResult
  tensorflowAnalysis : Option TensorFlowResult
  tensorflowIncluded : Option Bool
  deriving DecidableEq, Repr

namespace Agent1_TextAnalysis

/-- The field `this.name`. -/
def name : String := "AGENT 1"

/-- The method `getFallbackResult`. -/
def getFallbackResult : AgentResult :=
  { isInappropriate := false
    level := 0
    category := "safe"
    explanation := "Analysis unavailable"
    redFlags := []
    source := name ++ " (fallback)" }

/-- The object literal in `parseResponse`, built from the parsed value. -/
def fromParsed (parsed : JSON) : AgentResult :=
  { isInappropriate := JSON.truthy (parsed.get "isInappropriate")
    level := jsOrInt (JSON.asInt (parsed.get "level")) 0
    category := jsOrStr (JSON.asStr (parsed.get "category")) "safe"
    explanation := jsOrStr (JSON.asStr (parsed.get "explanation")) ""
    redFlags := (JSON.asStrList (parsed.get "redFlags")).getD []
    source := name }

/-- The method `parseResponse`: the regular-expression match, `JSON.parse`
on it inside `try`, and the fallback when there is no match or the parse
throws. -/
def parseResponse (jsonParse : String → Option JSON) (response : String) : AgentResult :=
  match matchBraces response with
  | some jsonMatch =>
    match jsonParse jsonMatch with
    | some parsed => fromParsed parsed
    | none => getFallbackResult
  | none => getFallbackResult

/-- The method `combineWithTensorFlow`. -/
def combineWithTensorFlow (agentResult : AgentResult) (tensorflowResult : Option TensorFlowResult) :
    TextVerdict :=
  match tensorflowResult with
  | none =>
    { toAgentResult := agentResult
      agentAnalysis := none
      tensorflowAnalysis := none
      tensorflowIncluded := some false }
  | some tf =>
    { isInappropriate := agentResult.isInappropriate || tf.isToxic
      level := max agentResult.level (jsOrInt tf.level 0)
      category := agentResult.category
      explanation := agentResult.explanation
      redFlags := agentResult.redFlags ++ ((tf.detectedTypes.map fun ts => ts.map fun t => t.type).getD [])
      source := name ++ " + TensorFlow"
      agentAnalysis := some agentResult
      tensorflowAnalysis := some tf
      tensorflowIncluded := some true }

/-- A fallback result as `analyze` returns it: no property added. -/
def fallbackVerdict : TextVerdict :=
  { toAgentResult := getFallbackResult
    agentAnalysis := none
    tensorflowAnalysis := none
    tensorflowIncluded := none }

/-- The `try` block of `analyze`: the session, then `parseResponse` and
`combineWithTensorFlow`. -/
def analyzeBody (jsonParse : String → Option JSON) (lm : LanguageModelHost)
    (tensorflowResult : Option TensorFlowResult) : Except String TextVerdict :=
  match lm.session with
  | .error e => .error e
  | .ok response => .ok (combineWithTensorFlow (parseResponse jsonParse response) tensorflowResult)

/-- The method `analyze`: the verdict and the agent's flag afterwards.  The
message and its direction only enter the prompt. -/
def analyze (jsonParse : String → Option JSON) (lm : LanguageModelHost) (agent : Agent)
    (tensorflowResult : Option TensorFlowResult) : TextVerdict × Agent :=
  let agent := agent.ensure lm
  if !agent.isAvailable then (fallbackVerdict, agent)
  else
    match analyzeBody jsonParse lm tensorflowResult with
    | .ok finalResult => (finalResult, agent)
    | .error _ => (fallbackVerdict, agent)

/-- The engine verdict in the words of the specification, for comparison
with `analyze`: what `parseResponse` makes of the response when the engine
answers, and the neutral level-0 verdict when the engine is unavailable or
its call throws. -/
def engineVerdict (jsonParse : String → Option JSON) (lm : LanguageModelHost) (agent : Agent) :
    AgentResult :=
  if !(agent.ensure lm).isAvailable then getFallbackResult
  else
    match lm.session with
    | .ok response => parseResponse jsonParse response
    | .error _ => getFallbackResult

end Agent1_TextAnalysis

/-! ## Results of the image agents -/

/-- The object returned by `Agent2_ImageDescription.describeImage`. -/
structure ImageDescription where
  description : String
  imageType : String
  source : String
  timestamp : Nat
  deriving DecidableEq, Repr

/-- The object returned by `Agent3_ImageSafetyAssessment.assess`. -/
structure ImageVerdict where
  isInappropriate : Bool
  level : Int
  category : String
  explanation : String
  concerningElements : List String
  source : String
  deriving DecidableEq, Repr

/-! ## The service worker's `conversationMemory` property -/

/-- The value held by `safeguard.conversationMemory`: the `ConversationMemory`
that the constructor installs, or the object literal
`{ messages: [], contexts: new Map() }` that the `clearAllData` action
assigns, which has no methods. -/
inductive MemoryRef where
  | ofClass (memory : ConversationMemory)
  | literal (messages : List Entry)
  deriving DecidableEq, Repr

namespace MemoryRef

/-- The property `conversationMemory.messages`. -/
def messages : MemoryRef → List Entry
  | ofClass m => m.messages
  | literal ms => ms

/-- The call `conversationMemory.add(message)`: a `TypeError` on the object
literal. -/
def add (r : MemoryRef) (now : Nat) (message : Message) : Except String MemoryRef :=
  match r with
  | ofClass m => .ok (ofClass (m.add now message))
  | literal _ => .error "this.conversationMemory.add is not a function"

/-- The call `conversationMemory.getLast(count)`: a `TypeError` on the object
literal. -/
def getLast (r : MemoryRef) (count : Int) : Except String (List Entry) :=
  match r with
  | ofClass m => .ok (m.getLast count)
  | literal _ => .error "conversationMemory.getLast is not a function"

end MemoryRef

/-! ## Agent 4: final coordinator (service-worker.js, lines 672-990) -/

/-- The argument `reporterResults` of `coordinate`: each property may be
absent. -/
structure ReporterResults where
  agent1 : Option TextVerdict
  agent2 : Option ImageDescription
  agent3 : Option ImageVerdict
  deriving DecidableEq, Repr

/-- The object returned by `Agent4_FinalCoordinator.coordinate`. -/
structure FinalVerdict where
  finalLevel : Int
  severity : String
  primaryThreat : String
  actionRequired : String
  parentGuidance : String
  childWarning : String
  source : String
  reporterResults : Option ReporterResults
  conversationContext : Option (List Entry)
  deriving DecidableEq, Repr

/-- The object that the tool `assessThreatLevel` serialises. -/
structure ThreatAssessment where
  finalLevel : Int
  severity : String
  reasoning : String
  deriving DecidableEq, Repr

namespace Agent4_FinalCoordinator

/-- The field `this.name`. -/
def name : String := "AGENT 4"

/-- The severity buckets of the tool `assessThreatLevel` (lines 757-762). -/
def severityOf (finalLevel : Int) : String :=
  if finalLevel ≥ 9 then "CRITICAL"
  else if finalLevel ≥ 7 then "HIGH"
  else if finalLevel ≥ 5 then "MEDIUM"
  else "LOW"

/-- The tool `assessThreatLevel.execute`; an absent `agent3Level` or
`conversationPatternCount` takes its default `0`. -/
def assessThreatLevel (agent1Level : Int) (agent3Level : Option Int)
    (conversationPatternCount : Option Int) : ThreatAssessment :=
  let agent3Level := agent3Level.getD 0
  let conversationPatternCount := conversationPatternCount.getD 0
  let finalLevel := max agent1Level agent3Level
  let finalLevel :=
    if conversationPatternCount ≥ 3 then min 10 (finalLevel + 2)
    else if conversationPatternCount ≥ 2 then min 10 (finalLevel + 1)
    else finalLevel
  { finalLevel := finalLevel
    severity := severityOf finalLevel
    reasoning := "Based on agent levels (A1:" ++ toString agent1Level ++ ", A3:" ++
      toString agent3Level ++ ") and " ++ toString conversationPatternCount ++
      " concerning patterns in conversation history" }

/-- The method `getFallbackResult`. -/
def getFallbackResult (reporterResults : ReporterResults) : FinalVerdict :=
  let maxLevel := max (jsOrInt (reporterResults.agent1.map fun a => a.level) 0)
    (jsOrInt (reporterResults.agent3.map fun a => a.level) 0)
  { finalLevel := maxLevel
    severity := if maxLevel ≥ 7 then "HIGH" else if maxLevel ≥ 5 then "MEDIUM" else "LOW"
    primaryThreat := jsOrStr (reporterResults.agent1.map fun a => a.category) "unknown"
    actionRequired := if maxLevel ≥ 7 then "immediate_parent_notification" else "monitor"
    parentGuidance := "Review the incident in the dashboard"
    childWarning := "This conversation may not be safe. Please talk to a parent."
    source := name ++ " (fallback)"
    reporterResults := some reporterResults
    conversationContext := none }

/-- The object literal in `parseResponse`, built from the parsed value. -/
def fromParsed (parsed : JSON) : FinalVerdict :=
  { finalLevel := jsOrInt (JSON.asInt (parsed.get "finalLevel")) 0
    severity := jsOrStr (JSON.asStr (parsed.get "severity")) "LOW"
    primaryThreat := jsOrStr (JSON.asStr (parsed.get "primaryThreat")) "safe"
    actionRequired := jsOrStr (JSON.asStr (parsed.get "actionRequired")) "log_only"
    parentGuidance := jsOrStr (JSON.asStr (parsed.get "parentGuidance")) ""
    childWarning := jsOrStr (JSON.asStr (parsed.get "childWarning")) ""
    source := name
    reporterResults := none
    conversationContext := none }

/-- The method `parseResponse`: on no match or a failed parse it returns
`this.getFallbackResult({})`. -/
def parseResponse (jsonParse : String → Option JSON) (response : String) : FinalVerdict :=
  match matchBraces response with
  | some jsonMatch =>
    match jsonParse jsonMatch with
    | some parsed => fromParsed parsed
    | none => getFallbackResult { agent1 := none, agent2 := none, agent3 := none }
  | none => getFallbackResult { agent1 := none, agent2 := none, agent3 := none }

/-- The method `buildContext`; it throws when `conversationMemory` has no
`getLast`. -/
def buildContext (reporterResults : ReporterResults) (conversationMemory : MemoryRef) :
    Except String String :=
  let part1 :=
    match reporterResults.agent1 with
    | some a =>
      "AGENT 1 (Text Analysis):\n- Inappropriate: " ++ toString a.isInappropriate ++
      "\n- Level: " ++ toString a.level ++ "/10\n- Category: " ++ a.category ++
      "\n- Explanation: " ++ a.explanation ++
      "\n- Red Flags: " ++ ", ".intercalate a.redFlags ++ "\n\n"
    | none => ""
  match conversationMemory.getLast 10 with
  | .error e => .error e
  | .ok messages =>
    let part2 :=
      "CONVERSATION CONTEXT (Last " ++ toString messages.length ++ " messages):\n" ++
      "\n".intercalate (messages.map fun m => "[" ++ m.type ++ "] " ++ m.text) ++ "\n\n"
    let part3 :=
      match reporterResults.agent2, reporterResults.agent3 with
      | some a2, some a3 =>
        "AGENT 2 (Image Description):\n" ++ a2.description ++
        "\n\nAGENT 3 (Image Safety Assessment):\n- Inappropriate: " ++ toString a3.isInappropriate ++
        "\n- Level: " ++ toString a3.level ++ "/10\n- Category: " ++ a3.category ++
        "\n- Explanation: " ++ a3.explanation ++
        "\n- Concerning Elements: " ++ ", ".intercalate a3.concerningElements ++ "\n\n"
      | _, _ => ""
    .ok (part1 ++ part2 ++ part3)

/-- The `try` block of `coordinate`. -/
def coordinateBody (jsonParse : String → Option JSON) (lm : LanguageModelHost)
    (reporterResults : ReporterResults) (conversationMemory : MemoryRef) :
    Except String FinalVerdict :=
  match buildContext reporterResults conversationMemory with
  | .error e => .error e
  | .ok _context =>
    match lm.session with
    | .error e => .error e
    | .ok response =>
      let finalAssessment := parseResponse jsonParse response
      match conversationMemory.getLast 5 with
      | .error e => .error e
      | .ok last5 =>
        .ok { finalAssessment with
              reporterResults := some reporterResults
              conversationContext := some last5 }

/-- The method `coordinate`: the verdict and the agent's flag afterwards. -/
def coordinate (jsonParse : String → Option JSON) (lm : LanguageModelHost) (agent : Agent)
    (reporterResults : ReporterResults) (conversationMemory : MemoryRef) : FinalVerdict × Agent :=
  let agent := agent.ensure lm
  if !agent.isAvailable then (getFallbackResult reporterResults, agent)
  else
    match coordinateBody jsonParse lm reporterResults conversationMemory with
    | .ok finalAssessment => (finalAssessment, agent)
    | .error _ => (getFallbackResult reporterResults, agent)

end Agent4_FinalCoordinator

/-! ## The event handlers (service-worker.js, lines 1185-1479)

The handlers call their collaborators through `this`: the four agents, the
storage manager and `takeAction`.  In the model they are the fields of
`Ops`; each may return or throw, and each may change the part of the state
it owns (an agent its availability flag, the storage manager and
`takeAction` the world outside the worker object: `chrome.storage`, the
network).  The theorems about the handlers hold for every `Ops`. -/

/-- The property `data` of an `analyzeText` request. -/
structure TextData where
  text : String
  type : String
  platform : String
  timestamp : Option Nat
  tensorflowResult : Option TensorFlowResult
  deriving DecidableEq, Repr

/-- The property `data` of an `analyzeImage` request. -/
structure ImageData where
  imageSrc : String
  imageType : String
  platform : String
  timestamp : Option Nat
  deriving DecidableEq, Repr

/-- The property `agentResults` of an incident. -/
structure AgentResults where
  agent1 : Option TextVerdict
  agent2 : Option ImageDescription
  agent3 : Option ImageVerdict
  agent4 : FinalVerdict
  deriving DecidableEq, Repr

/-- The incident object built by the handlers; `timestamp` is the instant
that `new Date().toISOString()` renders. -/
structure Incident where
  id : Nat
  timestamp : Nat
  type : String
  severity : String
  level : Int
  platform : String
  content : String
  agentResults : AgentResults
  actionTaken : String
  deriving DecidableEq, Repr

/-- The object returned by `StorageManager.storeIncident`. -/
structure StoreResult where
  success : Bool
  incidentCount : Option Nat
  error : Option String
  deriving DecidableEq, Repr

/-- The property `threat` of a response. -/
structure Threat where
  level : Int
  severity : String
  category : String
  warning : String
  explanation : String
  deriving DecidableEq, Repr

/-- The argument of `sendResponse`: `{ threat: null, level, safe: true }`,
`{ threat }` or `{ error }`. -/
inductive Response where
  | safe (level : Int)
  | threat (threat : Threat)
  | error (message : String)
  deriving DecidableEq, Repr

/-- The object `safeguard`, with the world outside it that the storage
manager and `takeAction` act on. -/
structure SafeGuardServiceWorker (σ : Type) where
  agent1 : Agent
  agent2 : Agent
  agent3 : Agent
  agent4 : Agent
  conversationMemory : MemoryRef
  world : σ

/-- The collaborators of the handlers and the three clock readings
(`Date.now()` in `ConversationMemory.add`, `Date.now()` for the incident id,
`new Date()` for the incident timestamp). -/
structure Ops (σ : Type) where
  analyze : Agent → String → String → Option TensorFlowResult → Except String TextVerdict × Agent
  describeImage : Agent → String → String → Except String ImageDescription × Agent
  assess : Agent → ImageDescription → Except String ImageVerdict × Agent
  coordinate : Agent → ReporterResults → MemoryRef → Except String FinalVerdict × Agent
  storeIncident : σ → Incident → Except String StoreResult × σ
  takeAction : σ → FinalVerdict → Incident → Except String Unit × σ
  clockAdd : Nat
  clockId : Nat
  clockTimestamp : Nat

/-- One call made by a handler, in the order made, with what it returned
where the handler reads it. -/
inductive Call where
  | memoryAdd (message : Message)
  | analyze (text type : String) (tensorflowResult : Option TensorFlowResult)
      (result : Except String TextVerdict)
  | describeImage (imageSrc imageType : String) (result : Except String ImageDescription)
  | assess (agent2Result : ImageDescription) (result : Except String ImageVerdict)
  | coordinate (reporterResults : ReporterResults) (result : Except String FinalVerdict)
  | storeIncident (incident : Incident) (result : Except String StoreResult)
  | takeAction (agent4Result : FinalVerdict) (incident : Incident)
  | sendResponse (response : Response)

/-- Whether a call is a call of `sendResponse`. -/
def Call.isSendResponse : Call → Bool
  | .sendResponse _ => true
  | _ => false

/-- Whether a call is a call of Agent 4, of the storage manager or of
`takeAction`. -/
def Call.isEscalation : Call → Bool
  | .coordinate _ _ => true
  | .storeIncident _ _ => true
  | .takeAction _ _ => true
  | _ => false

/-- The outcome of running a handler: the state afterwards, the calls made,
and the error when the handler's promise rejects. -/
structure Run (σ : Type) where
  worker : SafeGuardServiceWorker σ
  calls : List Call
  threw : Option String

/-- The `threat` response of both handlers. -/
def threatResponse (agent4Result : FinalVerdict) (explanation : String) : Response :=
  .threat
    { level := agent4Result.finalLevel
      severity := agent4Result.severity
      category := agent4Result.primaryThreat
      warning := agent4Result.childWarning
      explanation := explanation }

/-- Steps 4 and 5 of both handlers and the final response: store the
incident, take action, send the threat; a throw of either call goes to the
handler's `catch`, which sends the error. -/
def storeActRespond {σ : Type} (ops : Ops σ) (sw : SafeGuardServiceWorker σ) (calls : List Call)
    (agent4Result : FinalVerdict) (incident : Incident) (explanation : String) : Run σ :=
  match ops.storeIncident sw.world incident with
  | (.error e, world) =>
    { worker := { sw with world := world }
      calls := calls ++ [.storeIncident incident (.error e), .sendResponse (.error e)]
      threw := none }
  | (.ok storeResult, world) =>
    match ops.takeAction world agent4Result incident with
    | (.error e, world) =>
      { worker := { sw with world := world }
        calls := calls ++ [.storeIncident incident (.ok storeResult),
          .takeAction agent4Result incident, .sendResponse (.error e)]
        threw := none }
    | (.ok (), world) =>
      { worker := { sw with world := world }
        calls := calls ++ [.storeIncident incident (.ok storeResult),
          .takeAction agent4Result incident,
          .sendResponse (threatResponse agent4Result explanation)]
        threw := none }

/-- The method `handleTextAnalysis`.  `data` is `none` when the request
carries no `data`, in which case the destructuring before `try` throws. -/
def handleTextAnalysis {σ : Type} (ops : Ops σ) (sw : SafeGuardServiceWorker σ)
    (data : Option TextData) : Run σ :=
  match data with
  | none =>
    { worker := sw, calls := [], threw := some "Cannot destructure property 'text' of 'data'" }
  | some d =>
    let message : Message :=
      { text := d.text, type := d.type, platform := d.platform, timestamp := d.timestamp }
    match sw.conversationMemory.add ops.clockAdd message with
    | .error e => { worker := sw, calls := [.sendResponse (.error e)], threw := none }
    | .ok memory =>
      match ops.analyze sw.agent1 d.text d.type d.tensorflowResult with
      | (.error e, agent1) =>
        { worker := { sw with conversationMemory := memory, agent1 := agent1 }
          calls := [.memoryAdd message, .analyze d.text d.type d.tensorflowResult (.error e),
            .sendResponse (.error e)]
          threw := none }
      | (.ok agent1Result, agent1) =>
        if !agent1Result.isInappropriate then
          { worker := { sw with conversationMemory := memory, agent1 := agent1 }
            calls := [.memoryAdd message,
              .analyze d.text d.type d.tensorflowResult (.ok agent1Result),
              .sendResponse (.safe agent1Result.level)]
            threw := none }
        else
          let reporterResults : ReporterResults :=
            { agent1 := some agent1Result, agent2 := none, agent3 := none }
          match ops.coordinate sw.agent4 reporterResults memory with
          | (.error e, agent4) =>
            { worker := { sw with conversationMemory := memory, agent1 := agent1, agent4 := agent4 }
              calls := [.memoryAdd message,
                .analyze d.text d.type d.tensorflowResult (.ok agent1Result),
                .coordinate reporterResults (.error e), .sendResponse (.error e)]
              threw := none }
          | (.ok agent4Result, agent4) =>
            let incident : Incident :=
              { id := ops.clockId
                timestamp := ops.clockTimestamp
                type := "message"
                severity := agent4Result.severity
                level := agent4Result.finalLevel
                platform := d.platform
                content := d.text
                agentResults :=
                  { agent1 := some agent1Result, agent2 := none, agent3 := none,
                    agent4 := agent4Result }
                actionTaken := agent4Result.actionRequired }
            storeActRespond ops
              { sw with conversationMemory := memory, agent1 := agent1, agent4 := agent4 }
              [.memoryAdd message, .analyze d.text d.type d.tensorflowResult (.ok agent1Result),
                .coordinate reporterResults (.ok agent4Result)]
              agent4Result incident agent1Result.explanation

/-- The method `handleImageAnalysis`. -/
def handleImageAnalysis {σ : Type} (ops : Ops σ) (sw : SafeGuardServiceWorker σ)
    (data : Option ImageData) : Run σ :=
  match data with
  | none =>
    { worker := sw, calls := [], threw := some "Cannot destructure property 'imageSrc' of 'data'" }
  | some d =>
    match ops.describeImage sw.agent2 d.imageSrc d.imageType with
    | (.error e, agent2) =>
      { worker := { sw with agent2 := agent2 }
        calls := [.describeImage d.imageSrc d.imageType (.error e), .sendResponse (.error e)]
        threw := none }
    | (.ok agent2Result, agent2) =>
      match ops.assess sw.agent3 agent2Result with
      | (.error e, agent3) =>
        { worker := { sw with agent2 := agent2, agent3 := agent3 }
          calls := [.describeImage d.imageSrc d.imageType (.ok agent2Result),
            .assess agent2Result (.error e), .sendResponse (.error e)]
          threw := none }
      | (.ok agent3Result, agent3) =>
        if !agent3Result.isInappropriate then
          { worker := { sw with agent2 := agent2, agent3 := agent3 }
            calls := [.describeImage d.imageSrc d.imageType (.ok agent2Result),
              .assess agent2Result (.ok agent3Result), .sendResponse (.safe agent3Result.level)]
            threw := none }
        else
          let reporterResults : ReporterResults :=
            { agent1 := none, agent2 := some agent2Result, agent3 := some agent3Result }
          match ops.coordinate sw.agent4 reporterResults sw.conversationMemory with
          | (.error e, agent4) =>
            { worker := { sw with agent2 := agent2, agent3 := agent3, agent4 := agent4 }
              calls := [.describeImage d.imageSrc d.imageType (.ok agent2Result),
                .assess agent2Result (.ok agent3Result),
                .coordinate reporterResults (.error e), .sendResponse (.error e)]
              threw := none }
          | (.ok agent4Result, agent4) =>
            let incident : Incident :=
              { id := ops.clockId
                timestamp := ops.clockTimestamp
                type := "image"
                severity := agent4Result.severity
                level := agent4Result.finalLevel
                platform := d.platform
                content := "Image (" ++ d.imageType ++ "): " ++
                  String.mk (agent2Result.description.data.take 200)
                agentResults :=
                  { agent1 := none, agent2 := some agent2Result, agent3 := some agent3Result,
                    agent4 := agent4Result }
                actionTaken := agent4Result.actionRequired }
            storeActRespond ops
              { sw with agent2 := agent2, agent3 := agent3, agent4 := agent4 }
              [.describeImage d.imageSrc d.imageType (.ok agent2Result),
                .assess agent2Result (.ok agent3Result),
                .coordinate reporterResults (.ok agent4Result)]
              agent4Result incident agent3Result.explanation

/-- The collaborator `this.agent1.analyze` as modelled above, for a given
host: it never throws. -/
def analyzeOn (jsonParse : String → Option JSON) (lm : LanguageModelHost) (agent : Agent)
    (_text _type : String) (tensorflowResult : Option TensorFlowResult) :
    Except String TextVerdict × Agent :=
  let r := Agent1_TextAnalysis.analyze jsonParse lm agent tensorflowResult
  (.ok r.1, r.2)

/-- The collaborator `this.agent4.coordinate` as modelled above, for a given
host: it never throws. -/
def coordinateOn (jsonParse : String → Option JSON) (lm : LanguageModelHost) (agent : Agent)
    (reporterResults : ReporterResults) (conversationMemory : MemoryRef) :
    Except String FinalVerdict × Agent :=
  let r := Agent4_FinalCoordinator.coordinate jsonParse lm agent reporterResults conversationMemory
  (.ok r.1, r.2)

/-! ## Concrete inputs used in the examples -/

namespace Examples

/-- A host without the `LanguageModel` global. -/
def hostUndefined : LanguageModelHost :=
  { defined := false, params := .error "LanguageModel is not defined",
    session := .error "LanguageModel is not defined" }

/-- A ready host whose session call rejects. -/
def hostThrows : LanguageModelHost :=
  { defined := true, params := .ok (some "readily"), session := .error "The session was destroyed" }

/-- A ready host whose engine answers with the given text. -/
def hostAnswers (response : String) : LanguageModelHost :=
  { defined := true, params := .ok (some "readily"), session := .ok response }

/-- The local signal of the content script for a text classified as
`sexual_explicit`. -/
def toxicSignal : TensorFlowResult :=
  { isToxic := true, level := some 9,
    detectedTypes := some [{ type := "sexual_explicit", level := 9 }],
    source := "tensorflow-toxicity" }

/-- A flagged text verdict of level 9, as `parseResponse` and
`combineWithTensorFlow` build it from the engine response
`{"isInappropriate": true, "level": 9, "category": "grooming"}`. -/
def groomingVerdict : TextVerdict :=
  Agent1_TextAnalysis.combineWithTensorFlow
    (Agent1_TextAnalysis.parseResponse JSON.parse
      "\x7b\"isInappropriate\": true, \"level\": 9, \"category\": \"grooming\"\x7d") none

/-- The verdict of `analyze` for a toxic local signal when the engine's
answer holds no JSON: flagged by the local signal, category left at `safe`. -/
def locallyFlaggedVerdict : TextVerdict :=
  (Agent1_TextAnalysis.analyze JSON.parse (hostAnswers "I am not able to help with that.")
    { isAvailable := true } (some toxicSignal)).1

end Examples

namespace Examples

/-- A world for the examples: the list of stored incidents. -/
abbrev Store := List Incident

/-- Collaborators for the examples: Agent 1 and Agent 4 as modelled, on the
given hosts; the image agents return fixed results; the storage manager
appends the incident; `takeAction` changes nothing. -/
def ops (host1 host4 : LanguageModelHost) : Ops Store :=
  { analyze := analyzeOn JSON.parse host1
    describeImage := fun agent _ imageType =>
      (.ok { description := "A cat on a sofa", imageType := imageType, source := "AGENT 2",
             timestamp := 1700000000000 }, agent)
    assess := fun agent _ =>
      (.ok { isInappropriate := false, level := 0, category := "safe", explanation := "",
             concerningElements := [], source := "AGENT 3" }, agent)
    coordinate := coordinateOn JSON.parse host4
    storeIncident := fun store incident =>
      (.ok { success := true, incidentCount := some (store.length + 1), error := none },
        store ++ [incident])
    takeAction := fun store _ _ => (.ok (), store)
    clockAdd := 1700000000000
    clockId := 1700000000001
    clockTimestamp := 1700000000002 }

/-- A freshly constructed service worker with an empty store. -/
def freshWorker : SafeGuardServiceWorker Store :=
  { agent1 := { isAvailable := false }
    agent2 := { isAvailable := false }
    agent3 := { isAvailable := false }
    agent4 := { isAvailable := false }
    conversationMemory := MemoryRef.ofClass ConversationMemory.new
    world := [] }

/-- The text event of the spec's safe scenario. -/
def friendlyText : TextData :=
  { text := "lol that's funny, see you tomorrow", type := "sent", platform := "WhatsApp",
    timestamp := some 1700000000000, tensorflowResult := none }

/-- An engine answer that does not flag. -/
def safeAnswer : String :=
  "\x7b\"isInappropriate\": false, \"level\": 1, \"category\": \"safe\", \"explanation\": \"Friendly chat\", \"redFlags\": []\x7d"

/-- The verdict that `analyze` returns for `safeAnswer` and no local
signal. -/
def safeVerdict : TextVerdict :=
  { isInappropriate := false, level := 1, category := "safe", explanation := "Friendly chat",
    redFlags := [], source := "AGENT 1", agentAnalysis := none, tensorflowAnalysis := none,
    tensorflowIncluded := some false }

end Examples

/-! ## StorageManager (service-worker.js, lines 993-1144)

`chrome.storage` is the host's key-value store.  The model keeps the keys
that the service worker reads or writes; each call of the store may reject,
which the host record answers per call site.  Two float expressions are
modelled in integers:

* `Math.floor(n * 0.7)` is computed exactly as the IEEE double product of `n`
  and the double nearest `0.7`, rounded to nearest-even, then floored;
* `percentUsed > threshold * 100` for `percentUsed = (size / limit) * 100`
  holds exactly when `size * 100 > 80 * limit` (resp. `95 * limit`): for the
  limit 10485760 the two sides round alike at the boundary sizes.

`percentUsed` itself, a float that is only logged and stored for display, is
left out; its rounded value is given by the host. -/

/-- An incident as `truncateIncident` builds it for the store. -/
structure StoredIncident where
  id : Nat
  timestamp : Nat
  type : String
  severity : String
  level : Int
  platform : String
  content : Option String
  agentResults : AgentResults
  actionTaken : String
  emailSent : Option Bool
  smsSent : Option Bool
  deriving DecidableEq, Repr

/-- The value stored under `storageStatus`. -/
structure StorageStatusRecord where
  used : Nat
  limit : Nat
  isNearLimit : Bool
  isFull : Bool
  incidentCount : Nat
  lastUpdated : Nat
  deriving DecidableEq, Repr

/-- The settings keys of one storage area, each possibly absent. -/
structure StoredSettings where
  mode : Option String
  enabled : Option Bool
  parentEmail : Option String
  parentPhone : Option String
  resendApiKey : Option String
  vonageApiKey : Option String
  vonageApiSecret : Option String
  vonageSenderNumber : Option String
  deriving DecidableEq, Repr

/-- The contents of `chrome.storage`: the keys `incidents` and
`storageStatus` and the settings of the local area, and the settings and the
cleanup flags of the sync area. -/
structure ChromeStorage where
  incidents : Option (List StoredIncident)
  storageStatus : Option StorageStatusRecord
  localSettings : StoredSettings
  syncSettings : StoredSettings
  storageLimitReached : Option Bool
  lastCleanup : Option Nat
  incidentsRemoved : Option Nat
  storagePercentUsed : Option Nat
  deriving DecidableEq, Repr

/-- The calls of `chrome.storage` that the storage manager makes, by the
place of the call. -/
inductive StorageCall where
  | sizeGet
  | cleanupGet
  | cleanupSet
  | cleanupSyncSet
  | storeGet
  | storeSet
  | statusSizeGet
  | statusGet
  | statusSet
  | statusSyncSet
  deriving DecidableEq, Repr

/-- The host as the storage manager sees it: the size in bytes of the
serialised local area, `Math.round(percentUsed)` for a given size, the calls
that reject (with their message) and the clock. -/
structure StorageHost where
  byteSize : ChromeStorage → Nat
  roundedPercent : Nat → Nat
  rejects : StorageCall → Option String
  now : Nat

/-- The object returned by `checkStorageSize`. -/
structure StorageStatus where
  used : Nat
  limit : Nat
  isNearLimit : Bool
  isFull : Bool
  bytesRemaining : Int
  deriving DecidableEq, Repr

/-- The number of binary digits of `p`, for `p` below `2 ^ fuel`. -/
def bitLength : Nat → Nat → Nat
  | 0, _ => 0
  | fuel + 1, p => if p = 0 then 0 else bitLength fuel (p / 2) + 1

/-- The expression `Math.floor(n * 0.7)` for an integer `n` below `2 ^ 53`.
The double nearest `0.7` is `6305039478318694 / 2 ^ 53`; the exact product
is rounded to 53 significant bits, ties to even, and floored. -/
def mathFloorTimes07 (n : Nat) : Nat :=
  let p := n * 6305039478318694
  let bits := bitLength 128 p
  if bits ≤ 53 then p / 2 ^ 53
  else
    let shift := bits - 53
    let q := p / 2 ^ shift
    let rem := p % 2 ^ shift
    let half := 2 ^ (shift - 1)
    let mant := if rem > half ∨ (rem = half ∧ q % 2 = 1) then q + 1 else q
    mant * 2 ^ shift / 2 ^ 53

namespace StorageManager

/-- The constant `STORAGE_LIMIT`. -/
def STORAGE_LIMIT : Nat := 10485760

/-- The constant `MAX_INCIDENTS`. -/
def MAX_INCIDENTS : Nat := 100

/-- The constant `MAX_CONTENT_LENGTH`. -/
def MAX_CONTENT_LENGTH : Nat := 500

/-- The method `checkStorageSize`, called at the given place: a rejected
`get` gives the all-clear status of the `catch`. -/
def checkStorageSize (host : StorageHost) (site : StorageCall) (st : ChromeStorage) :
    StorageStatus :=
  match host.rejects site with
  | some _ =>
    { used := 0, limit := STORAGE_LIMIT, isNearLimit := false, isFull := false,
      bytesRemaining := STORAGE_LIMIT }
  | none =>
    let size := host.byteSize st
    { used := size
      limit := STORAGE_LIMIT
      isNearLimit := decide (size * 100 > 80 * STORAGE_LIMIT)
      isFull := decide (size * 100 > 95 * STORAGE_LIMIT)
      bytesRemaining := (STORAGE_LIMIT : Int) - size }

/-- The method `truncateIncident`; `now` is `Date.now()`.  The time stamp
that the handlers build is an ISO string, never empty, so it is kept. -/
def truncateIncident (now : Nat) (incident : Incident) : StoredIncident :=
  { id := jsOrNat (some incident.id) now
    timestamp := incident.timestamp
    type := incident.type
    severity := incident.severity
    level := incident.level
    platform := incident.platform
    content := some (String.mk (incident.content.data.take MAX_CONTENT_LENGTH))
    agentResults := incident.agentResults
    actionTaken := incident.actionTaken
    emailSent := none
    smsSent := none }

/-- The incidents that `cleanup` keeps. -/
def keptIncidents (incidents : List StoredIncident) (emergencyMode : Bool) : List StoredIncident :=
  if emergencyMode then
    jsSlice (incidents.filter fun i => decide (i.level ≥ 7)) (-50)
  else
    let keepCount := mathFloorTimes07 incidents.length
    jsSlice incidents (-(keepCount : Int))

/-- The method `cleanup`; every rejection is caught and ends the method. -/
def cleanup (host : StorageHost) (st : ChromeStorage) (emergencyMode : Bool) : ChromeStorage :=
  match host.rejects StorageCall.cleanupGet with
  | some _ => st
  | none =>
    let incidents := st.incidents.getD []
    if incidents.length = 0 then st
    else
      let kept := keptIncidents incidents emergencyMode
      match host.rejects StorageCall.cleanupSet with
      | some _ => st
      | none =>
        let st1 := { st with incidents := some kept }
        match host.rejects StorageCall.cleanupSyncSet with
        | some _ => st1
        | none =>
          { st1 with
            storageLimitReached := some true
            lastCleanup := some host.now
            incidentsRemoved := some (incidents.length - kept.length) }

/-- The method `updateStorageStatus`; every rejection is caught and ends the
method. -/
def updateStorageStatus (host : StorageHost) (st : ChromeStorage) : ChromeStorage :=
  let status := checkStorageSize host StorageCall.statusSizeGet st
  match host.rejects StorageCall.statusGet with
  | some _ => st
  | none =>
    let incidents := st.incidents.getD []
    match host.rejects StorageCall.statusSet with
    | some _ => st
    | none =>
      let st1 :=
        { st with
          storageStatus := some
            { used := status.used
              limit := status.limit
              isNearLimit := status.isNearLimit
              isFull := status.isFull
              incidentCount := incidents.length
              lastUpdated := host.now } }
      if status.isNearLimit then
        match host.rejects StorageCall.statusSyncSet with
        | some _ => st1
        | none =>
          { st1 with
            storageLimitReached := some true
            storagePercentUsed := some (host.roundedPercent status.used) }
      else st1

/-- The first step of `storeIncident`: check the size and clean up when the
store is near its limit, in emergency mode when it is full. -/
def cleanupIfNearLimit (host : StorageHost) (st : ChromeStorage) : ChromeStorage :=
  let storageStatus := checkStorageSize host StorageCall.sizeGet st
  if storageStatus.isNearLimit then cleanup host st storageStatus.isFull else st

/-- The list that `storeIncident` writes: the incidents read, the truncated
incident pushed, and the oldest removed while there are more than
`MAX_INCIDENTS`. -/
def pushAndCap (incidents : List StoredIncident) (truncatedIncident : StoredIncident) :
    List StoredIncident :=
  let pushed := incidents ++ [truncatedIncident]
  if pushed.length > MAX_INCIDENTS then pushed.drop (pushed.length - MAX_INCIDENTS) else pushed

/-- The method `storeIncident`: the result and the store afterwards. -/
def storeIncident (host : StorageHost) (st : ChromeStorage) (incident : Incident) :
    StoreResult × ChromeStorage :=
  let st1 := cleanupIfNearLimit host st
  match host.rejects StorageCall.storeGet with
  | some e => ({ success := false, incidentCount := none, error := some e }, st1)
  | none =>
    let incidents := pushAndCap (st1.incidents.getD []) (truncateIncident host.now incident)
    match host.rejects StorageCall.storeSet with
    | some e => ({ success := false, incidentCount := none, error := some e }, st1)
    | none =>
      let st2 := { st1 with incidents := some incidents }
      let st3 := updateStorageStatus host st2
      ({ success := true, incidentCount := some incidents.length, error := none }, st3)

end StorageManager

/-- The collaborator `this.storageManager.storeIncident` as modelled above,
for a given host: it never throws. -/
def storeIncidentOn (host : StorageHost) (st : ChromeStorage) (incident : Incident) :
    Except String StoreResult × ChromeStorage :=
  let r := StorageManager.storeIncident host st incident
  (.ok r.1, r.2)

/-! ## Agent 3: image safety assessment (service-worker.js, lines 473-669)

`String.prototype.toLowerCase` is a built-in of the host; `assess` takes it
as the argument `toLowerCase`. -/

/-- The method `String.prototype.includes`: whether `sub` occurs in `s`. -/
def jsIncludes (s sub : String) : Bool :=
  s.data.tails.any fun t => sub.data.isPrefixOf t

namespace Agent3_ImageSafetyAssessment

/-- The field `this.name`. -/
def name : String := "AGENT 3"

/-- The method `getFallbackResult`. -/
def getFallbackResult : ImageVerdict :=
  { isInappropriate := false
    level := 0
    category := "safe"
    explanation := "Assessment unavailable"
    concerningElements := []
    source := name ++ " (fallback)" }

/-- The value of `assessment.isInappropriate` as the strict comparisons
`=== true` and `=== false` see it: `parsed.isInappropriate || false` is
`false` for a falsy property, `true` for the boolean, and otherwise a truthy
value that is neither. -/
inductive Flag where
  | isFalse
  | isTrue
  | truthy
  deriving DecidableEq, Repr

/-- The expression `parsed.isInappropriate || false`. -/
def Flag.ofParsed (v : Option JSON) : Flag :=
  match v with
  | some (JSON.bool true) => Flag.isTrue
  | _ => if JSON.truthy v then Flag.truthy else Flag.isFalse

/-- Truthiness of the flag, which is all that the callers of `assess`
read. -/
def Flag.toBool : Flag → Bool
  | Flag.isFalse => false
  | Flag.isTrue => true
  | Flag.truthy => true

/-- The local variable `assessment` of `parseResponse`. -/
structure Assessment where
  isInappropriate : Flag
  level : Int
  category : String
  explanation : String
  concerningElements : List String
  source : String
  deriving DecidableEq, Repr

/-- The object literal in `parseResponse`, built from the parsed value. -/
def fromParsed (parsed : JSON) : Assessment :=
  { isInappropriate := Flag.ofParsed (parsed.get "isInappropriate")
    level := jsOrInt (JSON.asInt (parsed.get "level")) 0
    category := jsOrStr (JSON.asStr (parsed.get "category")) "safe"
    explanation := jsOrStr (JSON.asStr (parsed.get "explanation")) ""
    concerningElements := (JSON.asStrList (parsed.get "concerningElements")).getD []
    source := name }

/-- First repair: a level of 7 or more with category `safe` is zeroed. -/
def repairSafeCategory (a : Assessment) : Assessment :=
  if a.level ≥ 7 ∧ a.category = "safe" then
    { a with level := 0, isInappropriate := Flag.isFalse,
             explanation := "Corrected inconsistent assessment - marked as safe" }
  else a

/-- Second repair: a level of at most 2 is not inappropriate. -/
def repairLowLevel (a : Assessment) : Assessment :=
  if a.level ≤ 2 ∧ a.isInappropriate = Flag.isTrue then
    { a with isInappropriate := Flag.isFalse }
  else a

/-- Third repair: when not inappropriate and the level is above 3, the level
becomes `Math.min(level, 2)`. -/
def repairNotInappropriate (a : Assessment) : Assessment :=
  if a.isInappropriate = Flag.isFalse ∧ a.level > 3 then
    { a with level := min a.level 2 }
  else a

/-- The three repairs, in the order of the code. -/
def repair (a : Assessment) : Assessment :=
  repairNotInappropriate (repairLowLevel (repairSafeCategory a))

/-- The assessment as the callers read it. -/
def Assessment.toVerdict (a : Assessment) : ImageVerdict :=
  { isInappropriate := a.isInappropriate.toBool
    level := a.level
    category := a.category
    explanation := a.explanation
    concerningElements := a.concerningElements
    source := a.source }

/-- The method `parseResponse`. -/
def parseResponse (jsonParse : String → Option JSON) (response : String) : ImageVerdict :=
  match matchBraces response with
  | some jsonMatch =>
    match jsonParse jsonMatch with
    | some parsed => (repair (fromParsed parsed)).toVerdict
    | none => getFallbackResult
  | none => getFallbackResult

/-- The constant `isCostume` of `assess`. -/
def isCostume (toLowerCase : String → String) (description : String) : Bool :=
  let descLower := toLowerCase description
  jsIncludes descLower "vampire" || jsIncludes descLower "fangs" ||
  jsIncludes descLower "makeup" || jsIncludes descLower "costume" ||
  jsIncludes descLower "cosplay" || jsIncludes descLower "edited" ||
  jsIncludes descLower "manipulated" || jsIncludes descLower "fantasy" ||
  jsIncludes descLower "halloween" || jsIncludes descLower "monster"

/-- The verdict that the override of `assess` assigns. -/
def overrideVerdict : ImageVerdict :=
  { isInappropriate := false
    level := 0
    category := "safe"
    explanation := "Costume, makeup, or fantasy content - safe for children"
    concerningElements := []
    source := name }

/-- The `try` block of `assess`. -/
def assessBody (jsonParse : String → Option JSON) (toLowerCase : String → String)
    (lm : LanguageModelHost) (agent2Result : ImageDescription) : Except String ImageVerdict :=
  match lm.session with
  | .error e => .error e
  | .ok response =>
    let assessment := parseResponse jsonParse response
    if isCostume toLowerCase agent2Result.description && decide (assessment.level > 2) then
      .ok overrideVerdict
    else .ok assessment

/-- The method `assess`: the verdict and the agent's flag afterwards. -/
def assess (jsonParse : String → Option JSON) (toLowerCase : String → String)
    (lm : LanguageModelHost) (agent : Agent) (agent2Result : ImageDescription) :
    ImageVerdict × Agent :=
  let agent := agent.ensure lm
  if !agent.isAvailable then (getFallbackResult, agent)
  else
    match assessBody jsonParse toLowerCase lm agent2Result with
    | .ok assessment => (assessment, agent)
    | .error _ => (getFallbackResult, agent)

end Agent3_ImageSafetyAssessment

/-- The collaborator `this.agent3.assess` as modelled above, for a given
host: it never throws. -/
def assessOn (jsonParse : String → Option JSON) (toLowerCase : String → String)
    (lm : LanguageModelHost) (agent : Agent) (agent2Result : ImageDescription) :
    Except String ImageVerdict × Agent :=
  let r := Agent3_ImageSafetyAssessment.assess jsonParse toLowerCase lm agent agent2Result
  (.ok r.1, r.2)

/-! ## The dashboard (popup/parent-dashboard.js, lines 329-334) -/

/-- The method `ParentDashboard.getThreatLevelText`. -/
def ParentDashboard.getThreatLevelText (level : Int) : String :=
  if level ≥ 9 then "CRITICAL"
  else if level ≥ 7 then "HIGH"
  else if level ≥ 5 then "MEDIUM"
  else "LOW"

/-- The order `LOW < MEDIUM < HIGH < CRITICAL` of the severity names, as a
rank; any other text has rank 0. -/
def severityRank (severity : String) : Nat :=
  if severity = "CRITICAL" then 3
  else if severity = "HIGH" then 2
  else if severity = "MEDIUM" then 1
  else 0

namespace Examples

/-- A flagged engine answer of level 9. -/
def groomingAnswer : String :=
  "\x7b\"isInappropriate\": true, \"level\": 9, \"category\": \"grooming\"\x7d"

/-- The parsed value of `groomingAnswer`; members are kept last first. -/
def groomingParsed : JSON :=
  JSON.obj [("category", JSON.str "grooming"), ("level", JSON.num 9),
    ("isInappropriate", JSON.bool true)]

/-- Lower-casing of the letters `A` to `Z`, the stand-in for `toLowerCase` in
the examples. -/
def toLowerCase (s : String) : String :=
  String.mk (s.data.map Char.toLower)

/-- The description of the spec's costume scenario, as Agent 2 returns it. -/
def vampireMakeup : ImageDescription :=
  { description := "Vampire makeup, fangs, costume", imageType := "received", source := "AGENT 2",
    timestamp := 1700000000000 }

/-- A description that names a vampire and none of costume, makeup, cosplay,
fantasy, edited, halloween, monster. -/
def vampireBite : ImageDescription :=
  { description := "A vampire biting a person, blood on the neck", imageType := "received",
    source := "AGENT 2", timestamp := 1700000000000 }

/-- A description without any term of the override. -/
def streetFight : ImageDescription :=
  { description := "Two men fighting in the street, one bleeding", imageType := "received",
    source := "AGENT 2", timestamp := 1700000000000 }

/-- An engine answer that flags an image at level 8. -/
def violenceAnswer : String :=
  "\x7b\"isInappropriate\": true, \"level\": 8, \"category\": \"real_violence\"\x7d"

/-- The parsed value of `violenceAnswer`. -/
def violenceParsed : JSON :=
  JSON.obj [("category", JSON.str "real_violence"), ("level", JSON.num 8),
    ("isInappropriate", JSON.bool true)]

/-- An engine answer that does not flag and gives level 3. -/
def levelThreeAnswer : String :=
  "\x7b\"isInappropriate\": false, \"level\": 3, \"category\": \"safe\"\x7d"

/-- The parsed value of `levelThreeAnswer`. -/
def levelThreeParsed : JSON :=
  JSON.obj [("category", JSON.str "safe"), ("level", JSON.num 3),
    ("isInappropriate", JSON.bool false)]

/-- A coordinator answer whose `finalLevel` is 99. -/
def outOfRangeAnswer : String :=
  "\x7b\"finalLevel\": 99, \"severity\": \"CRITICAL\", \"actionRequired\": \"immediate_parent_notification\"\x7d"

end Examples

namespace Examples

/-- A host whose store holds 1 KiB and never rejects. -/
def quietHost : StorageHost :=
  { byteSize := fun _ => 1024, roundedPercent := fun _ => 0, rejects := fun _ => none,
    now := 1700000000500 }

/-- No settings stored. -/
def noSettings : StoredSettings :=
  { mode := none, enabled := none, parentEmail := none, parentPhone := none, resendApiKey := none,
    vonageApiKey := none, vonageApiSecret := none, vonageSenderNumber := none }

/-- A store that holds the given incidents and nothing else. -/
def storageWith (incidents : Option (List StoredIncident)) : ChromeStorage :=
  { incidents := incidents, storageStatus := none, localSettings := noSettings,
    syncSettings := noSettings, storageLimitReached := none, lastCleanup := none,
    incidentsRemoved := none, storagePercentUsed := none }

/-- The incident that `handleTextAnalysis` builds for the grooming verdict
when the coordinator falls back. -/
def groomingIncident : Incident :=
  { id := 1700000000001
    timestamp := 1700000000002
    type := "message"
    severity := "HIGH"
    level := 9
    platform := "WhatsApp"
    content := "Don't tell your parents, this is our secret"
    agentResults :=
      { agent1 := some groomingVerdict, agent2 := none, agent3 := none,
        agent4 := Agent4_FinalCoordinator.getFallbackResult
          { agent1 := some groomingVerdict, agent2 := none, agent3 := none } }
    actionTaken := "immediate_parent_notification" }

/-- A stored incident with the given id and level. -/
def stored (id : Nat) (level : Int) : StoredIncident :=
  { StorageManager.truncateIncident 1700000000500 groomingIncident with id := id, level := level }

end Examples

/-! ## Notifications and `takeAction` (service-worker.js, lines 1484-1827)

`fetch` is the host's network call.  Each of `sendEmail` and `sendSMS` has
one call site; the host record gives the outcome of that call, and the
functions return the calls they made, so that their number can be read off.
The e-mail body is a fixed HTML template; the model keeps the values that
are interpolated into it. -/

/-- The outcome of one `fetch` followed by `response.json()`: the fetch
rejects, or it resolves with `response.ok` and a body that parses or
rejects. -/
inductive FetchResult where
  | rejects (message : String)
  | responds (ok : Bool) (json : Except String JSON)

/-- The values interpolated into the e-mail template. -/
structure EmailContent where
  severity : String
  threatLevel : Int
  timestamp : String
  platform : String
  primaryThreat : String
  parentGuidance : String
  content : String
  explanation : String
  deriving DecidableEq, Repr

/-- A `fetch` call: to the Resend API (e-mail) or to the Vonage API (SMS),
with the fields of its request. -/
inductive FetchCall where
  | resend (apiKey recipient subject : String) (html : EmailContent)
  | vonage (apiKey apiSecret recipient sender text : String)
  deriving DecidableEq, Repr

/-- The object returned by `sendEmail` and `sendSMS`. -/
structure SendResult where
  success : Bool
  simulated : Bool
  id : Option String
  error : Option String
  deriving DecidableEq, Repr

/-- Truthiness of a string that may be undefined. -/
def jsTruthyStr (x : Option String) : Bool :=
  match x with
  | some v => v != ""
  | none => false

/-- Property access `data.key` on a parsed body: a `TypeError` on `null`,
`undefined` (`none`) on a value without that property. -/
def JSON.prop (j : JSON) (key : String) : Except String (Option JSON) :=
  match j with
  | JSON.null => .error ("Cannot read properties of null (reading '" ++ key ++ "')")
  | _ => .ok (j.get key)

/-- Property access on a value that may be undefined: a `TypeError` on
`undefined` and on `null`. -/
def JSON.propOf (j : Option JSON) (key : String) : Except String (Option JSON) :=
  match j with
  | none => .error ("Cannot read properties of undefined (reading '" ++ key ++ "')")
  | some v => v.prop key

/-- The expression `messages[0]` for a truthy value: the first element of an
array, the property `0` of an object, the first character of a string. -/
def JSON.index0 (j : JSON) : Option JSON :=
  match j with
  | JSON.arr items => items.head?
  | JSON.obj fields => fields.lookup "0"
  | JSON.str s => (s.data.head?).map fun c => JSON.str (String.mk [c])
  | _ => none

/-- A settings object as `sendParentNotification` receives it: the one
returned by `getSettings` (whose strings other than the mode are absent when
the read of the store failed), or the one built for a test notification
(which has no mode). -/
structure Settings where
  mode : Option String
  enabled : Option Bool
  parentEmail : Option String
  parentPhone : Option String
  resendApiKey : Option String
  vonageApiKey : Option String
  vonageApiSecret : Option String
  vonageSenderNumber : Option String
  deriving DecidableEq, Repr

/-- The host as the notification code sees it: the two reads of
`getSettings` may reject, each `fetch` has its outcome, and
`new Date().toLocaleString()` has its text. -/
structure NotificationHost where
  rejectsSyncGet : Option String
  rejectsLocalGet : Option String
  emailFetch : FetchResult
  smsFetch : FetchResult
  localeTime : String

/-- What one call of `sendParentNotification` did: its arguments, the results
of the two channels where attempted, and the `fetch` calls made. -/
structure NotificationCall where
  agent4Result : FinalVerdict
  incident : Incident
  settings : Settings
  emailResult : Option SendResult
  smsResult : Option SendResult
  fetches : List FetchCall
  deriving DecidableEq, Repr

/-- What `takeAction` did: the settings read, whether the active-mode branch
announced the child warning, and the calls of `sendParentNotification`. -/
structure ActionOutcome where
  settings : Settings
  childWarningAnnounced : Bool
  notifications : List NotificationCall
  deriving DecidableEq, Repr

namespace SafeGuardServiceWorker

/-- The `try` block of `sendEmail`, after the `fetch` call. -/
def sendEmailBody (fetch : FetchResult) : Except String SendResult :=
  match fetch with
  | .rejects e => .error e
  | .responds ok json =>
    match json with
    | .error e => .error e
    | .ok data =>
      if ok then
        match data.prop "id" with
        | .error e => .error e
        | .ok id => .ok { success := true, simulated := false, id := JSON.asStr id, error := none }
      else
        match data.prop "message" with
        | .error e => .error e
        | .ok message =>
          .ok { success := false, simulated := true, id := none,
                error := some (jsOrStr (JSON.asStr message) "API error") }

/-- The method `sendEmail`: the result and the `fetch` calls made. -/
def sendEmail (fetch : FetchResult) (email subject : String) (html : EmailContent)
    (apiKey : Option String) : SendResult × List FetchCall :=
  if !jsTruthyStr apiKey then
    ({ success := true, simulated := true, id := none, error := none }, [])
  else
    let call := FetchCall.resend (apiKey.getD "") email subject html
    match sendEmailBody fetch with
    | .ok result => (result, [call])
    | .error e => ({ success := false, simulated := true, id := none, error := some e }, [call])

/-- The `try` block of `sendSMS`, after the `fetch` call. -/
def sendSMSBody (fetch : FetchResult) : Except String SendResult :=
  match fetch with
  | .rejects e => .error e
  | .responds ok json =>
    match json with
    | .error e => .error e
    | .ok data =>
      let failed : Except String SendResult :=
        match data.prop "messages" with
        | .error e => .error e
        | .ok messages =>
          if JSON.truthy messages then
            match JSON.propOf (messages.bind JSON.index0) "error-text" with
            | .error e => .error e
            | .ok errorText =>
              .ok { success := false, simulated := true, id := none, error := JSON.asStr errorText }
          else
            .ok { success := false, simulated := true, id := none, error := some "Unknown error" }
      if ok then
        match data.prop "messages" with
        | .error e => .error e
        | .ok messages =>
          if JSON.truthy messages then
            match JSON.propOf (messages.bind JSON.index0) "status" with
            | .error e => .error e
            | .ok status =>
              if JSON.asStr status = some "0" then
                match JSON.propOf (messages.bind JSON.index0) "message-id" with
                | .error e => .error e
                | .ok id =>
                  .ok { success := true, simulated := false, id := JSON.asStr id, error := none }
              else failed
          else failed
      else failed

/-- The method `sendSMS`: the result and the `fetch` calls made. -/
def sendSMS (fetch : FetchResult) (phone message : String)
    (apiKey apiSecret senderNumber : Option String) : SendResult × List FetchCall :=
  if !jsTruthyStr apiKey || !jsTruthyStr apiSecret then
    ({ success := true, simulated := true, id := none, error := none }, [])
  else
    let senderNumber := if !jsTruthyStr senderNumber then "SafeGuard" else senderNumber.getD ""
    let call := FetchCall.vonage (apiKey.getD "") (apiSecret.getD "")
      (String.mk (phone.data.filter fun c => c.isDigit || c = '+')) senderNumber message
    match sendSMSBody fetch with
    | .ok result => (result, [call])
    | .error e => ({ success := false, simulated := true, id := none, error := some e }, [call])

/-- The method `getSettings`: the sync area first, the local area as the
fallback; a rejected read gives the defaults of the `catch`. -/
def getSettings (host : NotificationHost) (st : ChromeStorage) : Settings :=
  let fallback : Settings :=
    { mode := some "active", enabled := some true, parentEmail := none, parentPhone := none,
      resendApiKey := none, vonageApiKey := none, vonageApiSecret := none,
      vonageSenderNumber := none }
  match host.rejectsSyncGet with
  | some _ => fallback
  | none =>
    match host.rejectsLocalGet with
    | some _ => fallback
    | none =>
      let syncResult := st.syncSettings
      let localResult := st.localSettings
      let pick (a b : Option String) : Option String := if jsTruthyStr a then a else b
      let enabled : Option Bool :=
        match syncResult.enabled with
        | some e => some e
        | none => localResult.enabled
      { mode := some (jsOrStr (pick syncResult.mode localResult.mode) "active")
        enabled := some (enabled != some false)
        parentEmail := some (jsOrStr (pick syncResult.parentEmail localResult.parentEmail) "")
        parentPhone := some (jsOrStr (pick syncResult.parentPhone localResult.parentPhone) "")
        resendApiKey := some (jsOrStr (pick syncResult.resendApiKey localResult.resendApiKey) "")
        vonageApiKey := some (jsOrStr (pick syncResult.vonageApiKey localResult.vonageApiKey) "")
        vonageApiSecret :=
          some (jsOrStr (pick syncResult.vonageApiSecret localResult.vonageApiSecret) "")
        vonageSenderNumber :=
          some (jsOrStr (pick syncResult.vonageSenderNumber localResult.vonageSenderNumber) "") }

/-- The method `sendParentNotification`: e-mail when a parent e-mail is set,
SMS when a parent phone is set, each attempted on its own. -/
def sendParentNotification (host : NotificationHost) (agent4Result : FinalVerdict)
    (incident : Incident) (settings : Settings) : NotificationCall :=
  let timestamp := host.localeTime
  let platform := jsOrStr (some incident.platform) "Unknown"
  let threatLevel := jsOrInt (some agent4Result.finalLevel) 0
  let email : Option (SendResult × List FetchCall) :=
    if jsTruthyStr settings.parentEmail then
      some (sendEmail host.emailFetch (settings.parentEmail.getD "")
        ("🚨 SafeGuard Alert: " ++ agent4Result.severity ++ " Threat Detected")
        { severity := agent4Result.severity
          threatLevel := threatLevel
          timestamp := timestamp
          platform := platform
          primaryThreat := agent4Result.primaryThreat
          parentGuidance := agent4Result.parentGuidance
          content := jsOrStr (some incident.content) "Content unavailable"
          explanation := jsOrStr (incident.agentResults.agent1.map fun a => a.explanation)
            "See dashboard for details" }
        settings.resendApiKey)
    else none
  let sms : Option (SendResult × List FetchCall) :=
    if jsTruthyStr settings.parentPhone then
      some (sendSMS host.smsFetch (settings.parentPhone.getD "")
        ("🚨 SafeGuard Alert: " ++ agent4Result.severity ++ " threat detected on " ++ platform ++
          ". Threat level: " ++ toString threatLevel ++
          "/10. Check extension dashboard for details. - " ++ timestamp)
        settings.vonageApiKey settings.vonageApiSecret settings.vonageSenderNumber)
    else none
  { agent4Result := agent4Result
    incident := incident
    settings := settings
    emailResult := email.map fun r => r.1
    smsResult := sms.map fun r => r.1
    fetches := ((email.map fun r => r.2).getD []) ++ ((sms.map fun r => r.2).getD []) }

/-- The method `takeAction`. -/
def takeAction (host : NotificationHost) (st : ChromeStorage) (agent4Result : FinalVerdict)
    (incident : Incident) : ActionOutcome :=
  let settings := getSettings host st
  { settings := settings
    childWarningAnnounced :=
      decide (settings.mode = some "active") && decide (agent4Result.actionRequired ≠ "log_only")
    notifications :=
      if agent4Result.actionRequired != "" &&
          jsIncludes agent4Result.actionRequired "immediate_parent_notification" then
        [sendParentNotification host agent4Result incident settings]
      else [] }

end SafeGuardServiceWorker

/-! ## Agent 2: image description (service-worker.js, lines 376-470) -/

namespace Agent2_ImageDescription

/-- The field `this.name`. -/
def name : String := "AGENT 2"

/-- The method `getFallbackResult`; `now` is `Date.now()`. -/
def getFallbackResult (now : Nat) : ImageDescription :=
  { description := "Image description unavailable"
    imageType := "unknown"
    source := name ++ " (fallback)"
    timestamp := now }

/-- The method `describeImage`.  The host's `session` stands for the whole
`try` block: `fetch` of the image, the blob, `create`, `prompt`, `destroy`. -/
def describeImage (lm : LanguageModelHost) (now : Nat) (agent : Agent) (imageType : String) :
    ImageDescription × Agent :=
  let agent := agent.ensure lm
  if !agent.isAvailable then (getFallbackResult now, agent)
  else
    match lm.session with
    | .ok result =>
      ({ description := result, imageType := imageType, source := name, timestamp := now }, agent)
    | .error _ => (getFallbackResult now, agent)

end Agent2_ImageDescription

/-! ## The collaborators as modelled -/

/-- The world outside the worker object: `chrome.storage`, and what each
call of `takeAction` did, oldest first. -/
structure World where
  storage : ChromeStorage
  actions : List ActionOutcome
  deriving DecidableEq, Repr

/-- Everything of the host that one handler run observes. -/
structure Hosts where
  jsonParse : String → Option JSON
  toLowerCase : String → String
  agent1 : LanguageModelHost
  agent2 : LanguageModelHost
  agent3 : LanguageModelHost
  agent4 : LanguageModelHost
  storage : StorageHost
  notification : NotificationHost
  clockAdd : Nat
  clockDescribe : Nat
  clockId : Nat
  clockTimestamp : Nat

/-- The collaborators of the handlers as modelled in this file; none of them
throws. -/
def SafeGuardServiceWorker.ops (h : Hosts) : Ops World :=
  { analyze := analyzeOn h.jsonParse h.agent1
    describeImage := fun agent _imageSrc imageType =>
      let r := Agent2_ImageDescription.describeImage h.agent2 h.clockDescribe agent imageType
      (.ok r.1, r.2)
    assess := assessOn h.jsonParse h.toLowerCase h.agent3
    coordinate := coordinateOn h.jsonParse h.agent4
    storeIncident := fun world incident =>
      let r := StorageManager.storeIncident h.storage world.storage incident
      (.ok r.1, { world with storage := r.2 })
    takeAction := fun world agent4Result incident =>
      (.ok (),
        { world with
          actions := world.actions ++
            [SafeGuardServiceWorker.takeAction h.notification world.storage agent4Result incident] })
    clockAdd := h.clockAdd
    clockId := h.clockId
    clockTimestamp := h.clockTimestamp }

namespace Examples

/-- The values of an alert e-mail for the grooming incident. -/
def alertContent : EmailContent :=
  { severity := "HIGH", threatLevel := 9, timestamp := "11/6/2026, 9:00:00 AM",
    platform := "WhatsApp", primaryThreat := "grooming",
    parentGuidance := "Review the incident in the dashboard",
    content := "Don't tell your parents, this is our secret", explanation := "" }

/-- A Resend answer that accepted the e-mail. -/
def resendAccepted : FetchResult :=
  FetchResult.responds true (.ok (JSON.obj [("id", JSON.str "em_123")]))

/-- A storage host on which the write of the incident list rejects. -/
def quotaHost : StorageHost :=
  { byteSize := fun _ => 1024, roundedPercent := fun _ => 0,
    rejects := fun call => if call = StorageCall.storeSet then some "QUOTA_BYTES quota exceeded" else none,
    now := 1700000000500 }

/-- A notification host without network: both reads of the settings succeed
and both `fetch` calls reject. -/
def offlineNotifications : NotificationHost :=
  { rejectsSyncGet := none, rejectsLocalGet := none,
    emailFetch := FetchResult.rejects "Failed to fetch",
    smsFetch := FetchResult.rejects "Failed to fetch",
    localeTime := "11/6/2026, 9:00:00 AM" }

/-- Hosts for the flagged scenario: Agent 1 answers `groomingAnswer`, Agent 4
is unavailable, and the store rejects the write of the incident list. -/
def quotaHosts : Hosts :=
  { jsonParse := JSON.parse
    toLowerCase := toLowerCase
    agent1 := hostAnswers groomingAnswer
    agent2 := hostUndefined
    agent3 := hostUndefined
    agent4 := hostUndefined
    storage := quotaHost
    notification := offlineNotifications
    clockAdd := 1700000000000
    clockDescribe := 1700000000000
    clockId := 1700000000001
    clockTimestamp := 1700000000002 }

/-- A freshly constructed service worker over an empty store. -/
def freshWorld : SafeGuardServiceWorker World :=
  { agent1 := { isAvailable := false }
    agent2 := { isAvailable := false }
    agent3 := { isAvailable := false }
    agent4 := { isAvailable := false }
    conversationMemory := MemoryRef.ofClass ConversationMemory.new
    world := { storage := storageWith none, actions := [] } }

/-- The received text of the spec's grooming scenario. -/
def groomingText : TextData :=
  { text := "Don't tell your parents, this is our secret, I'll pick you up after school",
    type := "received", platform := "WhatsApp", timestamp := some 1700000000000,
    tensorflowResult := none }

end Examples

/-! ## The content script's `handleThreat` (src/monitor.js, lines 678-776) -/

/-- The argument `threat` of `handleThreat`: the `threat` of a response, and
the truthiness of its property `critical`. -/
structure MonitorThreat extends Threat where
  critical : Bool
  deriving DecidableEq, Repr

/-- The `threat` of a response of the service worker, which has no property
`critical`. -/
def Threat.received (threat : Threat) : MonitorThreat :=
  { toThreat := threat, critical := false }

/-- What `handleThreat` does, in order: the log entry, the warning popup
shown to the child, the `notifyParent` request sent to the service worker. -/
inductive MonitorEffect where
  | logThreat (threat : MonitorThreat) (content type : String)
  | showWarningPopup (threat : MonitorThreat)
  | notifyParent (threat : MonitorThreat) (content type platform : String)
  deriving DecidableEq, Repr

/-- Whether an effect is the warning popup. -/
def MonitorEffect.isPopup : MonitorEffect → Bool
  | .showWarningPopup _ => true
  | _ => false

/-- Whether an effect is a `notifyParent` request. -/
def MonitorEffect.isNotifyParent : MonitorEffect → Bool
  | .notifyParent _ _ _ _ => true
  | _ => false

namespace ConversationMonitor

/-- The method `handleThreat`; `mode` is `this.mode` and `platform` is
`this.platform.name`. -/
def handleThreat (mode platform : String) (threat : MonitorThreat) (content type : String) :
    List MonitorEffect :=
  [MonitorEffect.logThreat threat content type] ++
  (if (mode = "active" ∨ mode = "both") ∧ threat.level ≥ 7 then
    [MonitorEffect.showWarningPopup threat] else []) ++
  (if (mode = "passive" ∨ mode = "both") ∧ (threat.level ≥ 9 ∨ threat.critical = true) then
    [MonitorEffect.notifyParent threat content type platform] else []) ++
  (if mode = "both" ∧ threat.level ≥ 7 ∧ threat.level < 9 then
    [MonitorEffect.notifyParent threat content type platform] else [])

/-- The end of `analyzeText`: `handleThreat` is called when the response
has a `threat`. -/
def onTextResponse (mode platform : String) (response : Response) (text type : String) :
    List MonitorEffect :=
  match response with
  | .threat threat => handleThreat mode platform threat.received text type
  | _ => []

end ConversationMonitor

/-! ## The keyword matchers of Agent 1 (service-worker.js, lines 142-236)

Every pattern of the two matchers has the form `/\b(...)\b/i` with a finite
set of phrases inside.  A pattern is kept as its syntax tree; `test` looks
for a phrase of its language that occurs in the message between two word
boundaries, letters compared without case. -/

/-- The syntax of the patterns: a literal, an alternative, a sequence, an
optional part; `never` is the empty alternative. -/
inductive Rx where
  | never
  | lit (s : String)
  | alt (a b : Rx)
  | seq (a b : Rx)
  | opt (a : Rx)
  deriving DecidableEq, Repr

namespace Rx

/-- The alternative `r₁|r₂|...`. -/
def alts : List Rx → Rx
  | [] => never
  | r :: rs => alt r (alts rs)

/-- The alternative of literal phrases. -/
def oneOf (phrases : List String) : Rx :=
  alts (phrases.map lit)

/-- The phrases that a pattern matches. -/
def words : Rx → List (List Char)
  | never => []
  | lit s => [s.data]
  | alt a b => a.words ++ b.words
  | seq a b => a.words.flatMap fun x => b.words.map fun y => x ++ y
  | opt a => [] :: a.words

/-- The class `\w`. -/
def isWordChar (c : Char) : Bool :=
  c.isAlphanum || c = '_'

/-- Equality of characters under the flag `i`. -/
def sameLetter (a b : Char) : Bool :=
  a.toLower = b.toLower

/-- The text left after `word` was matched at its head, if it matches. -/
def stripPrefix : List Char → List Char → Option (List Char)
  | [], text => some text
  | _ :: _, [] => none
  | w :: ws, c :: cs => if sameLetter w c then stripPrefix ws cs else none

/-- The assertion `\b` between the characters `before` and `after` (absent
at the ends of the text). -/
def boundary (before after : Option Char) : Bool :=
  (before.map isWordChar).getD false != (after.map isWordChar).getD false

/-- Whether `\b(word)\b` matches at the head of `text`, `prev` being the
character before it. -/
def matchesHere (prev : Option Char) (word text : List Char) : Bool :=
  boundary prev text.head? &&
  match stripPrefix word text with
  | none => false
  | some rest =>
    let last := match (text.take word.length).getLast? with
      | some c => some c
      | none => prev
    boundary last rest.head?

/-- Whether `\b(word₁|word₂|...)\b` matches somewhere in `text`. -/
def search (ws : List (List Char)) : Option Char → List Char → Bool
  | prev, [] => ws.any fun w => matchesHere prev w []
  | prev, c :: cs => (ws.any fun w => matchesHere prev w (c :: cs)) || search ws (some c) cs

/-- The method `test` of the regular expression `/\b(r)\b/i`. -/
def test (r : Rx) (message : String) : Bool :=
  search r.words none message.data

end Rx

/-- The object that a keyword matcher serialises: whether something was
detected, the names of the patterns that matched, the severity. -/
structure MatcherResult where
  detected : Bool
  names : List String
  severity : String
  deriving DecidableEq, Repr

/-- The loop and the result shared by `checkGroomingPattern` and
`analyzeSentiment`. -/
def runMatcher (patterns : List (String × Rx)) (message : String) : MatcherResult :=
  let detected := (patterns.filter fun p => p.2.test message).map fun p => p.1
  { detected := decide (detected.length > 0)
    names := detected
    severity :=
      if detected.length ≥ 2 then "high" else if detected.length = 1 then "medium" else "none" }

namespace checkGroomingPattern

/-- The object `patterns`, in the order of its properties. -/
def patterns : List (String × Rx) :=
  [("trustBuilding", Rx.oneOf ["trust me", "our secret", "don't tell", "between us",
      "special friend", "this is our secret"]),
   ("desensitization", Rx.oneOf ["it's normal", "everyone does", "nothing wrong with it",
      "just pictures", "don't worry about it"]),
   ("isolation", Rx.alts
      [Rx.lit "parents don't understand",
       Rx.seq (Rx.lit "don't tell ") (Rx.oneOf ["anyone", "your parents", "them", "mom", "dad"]),
       Rx.seq (Rx.lit "they won't ") (Rx.oneOf ["understand", "get it"]),
       Rx.lit "keep this between us",
       Rx.lit "our little secret",
       Rx.lit "won't understand our"]),
   ("sexualization", Rx.alts
      [Rx.lit "send pic", Rx.lit "send photo", Rx.lit "show me",
       Rx.seq (Rx.lit "nude") (Rx.opt (Rx.lit "s")),
       Rx.lit "naked", Rx.lit "meet up", Rx.lit "come over", Rx.lit "alone together",
       Rx.lit "I'll pick you up"])]

/-- The tool `checkGroomingPattern.execute`: `detected` is
`groomingDetected` and `names` is `stages`. -/
def execute (message : String) : MatcherResult :=
  runMatcher patterns message

end checkGroomingPattern

namespace analyzeSentiment

/-- The object `manipulationPatterns`, in the order of its properties. -/
def manipulationPatterns : List (String × Rx) :=
  [("guilt", Rx.oneOf ["thought you cared about me", "thought we were special friends",
      "so disappointed in you", "you let me down"]),
   ("pressure", Rx.oneOf ["do it right now", "send it now", "hurry up and send",
      "don't be a baby", "come on send it"]),
   ("flattery_sexual", Rx.oneOf ["so sexy", "so hot", "send me sexy pics", "show me your body",
      "you're so attractive send"]),
   ("isolation", Rx.oneOf ["parents don't understand us", "our secret relationship",
      "they won't get it like I do", "just between us two"])]

/-- The tool `analyzeSentiment.execute`: `detected` is
`manipulationDetected` and `names` is `tactics`. -/
def execute (message : String) : MatcherResult :=
  runMatcher manipulationPatterns message

end analyzeSentiment

namespace Examples

/-- A text event that Agent 1 flags at level 5. -/
def pushyText : TextData :=
  { text := "come on, just do what I say", type := "received", platform := "WhatsApp",
    timestamp := some 1700000000000, tensorflowResult := none }

/-- The answer of Agent 1 for `pushyText`. -/
def pushyAnswer : String :=
  "\x7b\"isInappropriate\": true, \"level\": 5, \"category\": \"manipulation\", \"explanation\": \"Pressure\"\x7d"

/-- The answer of Agent 4: level 5, `warn_child`. -/
def warnChildAnswer : String :=
  "\x7b\"finalLevel\": 5, \"severity\": \"MEDIUM\", \"primaryThreat\": \"manipulation\", \"actionRequired\": \"warn_child\", \"childWarning\": \"Be careful\"\x7d"

/-- The threat response for the verdict of `warnChildAnswer`. -/
def warnChildResponse : Response :=
  Response.threat
    { level := 5, severity := "MEDIUM", category := "manipulation", warning := "Be careful",
      explanation := "Pressure" }

/-- Hosts for the `warn_child` scenario: both engines answer, the store and
the settings reads succeed. -/
def warnChildHosts : Hosts :=
  { jsonParse := JSON.parse
    toLowerCase := toLowerCase
    agent1 := hostAnswers pushyAnswer
    agent2 := hostUndefined
    agent3 := hostUndefined
    agent4 := hostAnswers warnChildAnswer
    storage := quietHost
    notification := offlineNotifications
    clockAdd := 1700000000000
    clockDescribe := 1700000000000
    clockId := 1700000000001
    clockTimestamp := 1700000000002 }

/-- A freshly constructed service worker over a store whose settings select
the active mode. -/
def activeWorld : SafeGuardServiceWorker World :=
  { freshWorld with
    world :=
      { storage := { storageWith none with syncSettings := { noSettings with mode := some "active" } }
        actions := [] } }

/-- A threat of level 9 as the content script receives it. -/
def criticalThreat : MonitorThreat :=
  { level := 9, severity := "CRITICAL", category := "grooming", warning := "", explanation := "",
    critical := false }

end Examples

/-! ## The `onMessage` listener (service-worker.js, lines 1854-2061) and the
requests of the content scripts

A request is `{ action, data }`.  The listener compares `action` with seven
strings in turn and answers `{ error: 'Unknown action' }` when none is
equal.  `data` is kept by the shape that its sender gives it. -/

/-- The property `data` of a request: absent (`getStats`, `checkPromptAPI`,
`clearAllData`), or the object of one of the senders. -/
inductive RequestData where
  | absent
  | text (data : TextData)
  | image (data : ImageData)
  | page (url : String)
  | testNotification (incident : Incident) (threat : FinalVerdict) (email phone : Option String)
  | notifyParent (threat : MonitorThreat) (content type platform : String)
  | notifyParentPorn (url title : String) (level : Int) (category : String) (timestamp : Nat)
  deriving DecidableEq, Repr

/-- The property `data.url`, where the object has one. -/
def RequestData.url : RequestData → Option String
  | .page url => some url
  | .notifyParentPorn url _ _ _ _ => some url
  | _ => none

/-- A message received by the listener. -/
structure Request where
  action : String
  data : RequestData
  deriving DecidableEq, Repr

/-- The message that `handleThreat` passes to `chrome.runtime.sendMessage` for
a `notifyParent` effect (monitor.js, lines 751-775). -/
def MonitorEffect.request : MonitorEffect → Option Request
  | .notifyParent threat content type platform =>
    some { action := "notifyParent", data := .notifyParent threat content type platform }
  | _ => none

namespace PageMonitor

/-- The method `notifyParent` (page-monitor.js, lines 359-375): the message
sent; `href` is `window.location.href`, `title` is `document.title`, `now` is
`Date.now()`. -/
def notifyParent (href title : String) (level : Int) (category : String) (now : Nat) : Request :=
  { action := "notifyParentPorn", data := .notifyParentPorn href title level category now }

/-- The method `handlePornDetection` (page-monitor.js, lines 347-357): the
messages sent, and whether the page is blurred. -/
def handlePornDetection (mode href title : String) (level : Int) (category : String) (now : Nat) :
    List Request × Bool :=
  ([notifyParent href title level category now], decide (mode = "active" ∨ mode = "both"))

end PageMonitor

/-- The host as the listener itself sees it: the hostname of `new URL(url)`
(none when the constructor throws), the outcome of `LanguageModel.params()`
(none when `LanguageModel` is undefined) with its property `available`, and
the two reads of the API keys, which may reject. -/
structure ListenerHost where
  hostnameOf : String → Option String
  params : Option (Except String (Option String))
  rejectsSyncKeys : Option String
  rejectsLocalKeys : Option String

/-- An argument of `sendResponse`: the response of a handler, or one of the
objects that the listener builds. -/
inductive Reply where
  | ofHandler (response : Response)
  | pageThreat (hostname : String)
  | safe
  | stats (totalAnalyzed threatsDetected criticalThreats : Nat)
  | available (available : Bool)
  | testSent
  | failed (error : String)
  | cleared
  | unknownAction
  deriving DecidableEq, Repr

/-- Whether a reply is `{ error: 'Unknown action' }`. -/
def Reply.isUnknownAction : Reply → Bool
  | .unknownAction => true
  | _ => false

/-- What the listener did for one message: the object `safeguard` afterwards,
the calls of the handler it started, its own calls of
`sendParentNotification`, the responses sent, its return value, and the
error when the handler's promise rejects. -/
structure ListenerRun where
  worker : SafeGuardServiceWorker World
  calls : List Call
  notifications : List NotificationCall
  replies : List Reply
  keepsChannelOpen : Bool
  threw : Option String

/-- The run of a branch that starts a handler and returns `true`. -/
def ListenerRun.ofHandler (run : Run World) : ListenerRun :=
  { worker := run.worker
    calls := run.calls
    notifications := []
    replies := run.calls.filterMap fun c =>
      match c with
      | .sendResponse response => some (Reply.ofHandler response)
      | _ => none
    keepsChannelOpen := true
    threw := run.threw }

/-- The run of a branch that sends one response and returns `true`. -/
def ListenerRun.reply (safeguard : SafeGuardServiceWorker World) (reply : Reply) : ListenerRun :=
  { worker := safeguard, calls := [], notifications := [], replies := [reply],
    keepsChannelOpen := true, threw := none }

/-- The list `pornDomains` of the `analyzePageContent` branch. -/
def pornDomains : List String :=
  ["pornhub.com", "www.pornhub.com", "xvideos.com", "www.xvideos.com", "xnxx.com", "www.xnxx.com",
   "xhamster.com", "www.xhamster.com", "redtube.com", "www.redtube.com", "youporn.com",
   "www.youporn.com", "tube8.com", "www.tube8.com", "spankbang.com", "www.spankbang.com",
   "eporner.com", "www.eporner.com", "beeg.com", "www.beeg.com", "youjizz.com", "www.youjizz.com",
   "tnaflix.com", "www.tnaflix.com", "drtuber.com", "www.drtuber.com", "nuvid.com", "www.nuvid.com",
   "keezmovies.com", "www.keezmovies.com", "slutload.com", "www.slutload.com", "extremetube.com",
   "www.extremetube.com", "porn.com", "www.porn.com", "sex.com", "www.sex.com", "brazzers.com",
   "www.brazzers.com", "realitykings.com", "www.realitykings.com"]

/-- The listener of `chrome.runtime.onMessage`.  The branches that destructure
`data` are given for `data` absent and for the shape of their own sender
(`none` for another shape); the read of `getStats` is taken to succeed. -/
def onMessage (h : Hosts) (lh : ListenerHost) (safeguard : SafeGuardServiceWorker World)
    (request : Request) : Option ListenerRun :=
  if request.action = "analyzeText" then
    match request.data with
    | .absent =>
      some (ListenerRun.ofHandler (handleTextAnalysis (SafeGuardServiceWorker.ops h) safeguard none))
    | .text d =>
      some (ListenerRun.ofHandler
        (handleTextAnalysis (SafeGuardServiceWorker.ops h) safeguard (some d)))
    | _ => none
  else if request.action = "analyzeImage" then
    match request.data with
    | .absent =>
      some (ListenerRun.ofHandler (handleImageAnalysis (SafeGuardServiceWorker.ops h) safeguard none))
    | .image d =>
      some (ListenerRun.ofHandler
        (handleImageAnalysis (SafeGuardServiceWorker.ops h) safeguard (some d)))
    | _ => none
  else if request.action = "analyzePageContent" then
    some (ListenerRun.reply safeguard
      (match request.data.url.bind lh.hostnameOf with
      | none => Reply.safe
      | some name =>
        let hostname := h.toLowerCase name
        if pornDomains.contains hostname then Reply.pageThreat hostname else Reply.safe))
  else if request.action = "getStats" then
    let incidents := safeguard.world.storage.incidents.getD []
    some (ListenerRun.reply safeguard
      (Reply.stats safeguard.conversationMemory.messages.length incidents.length
        (incidents.filter fun i => decide (i.level ≥ 9)).length))
  else if request.action = "checkPromptAPI" then
    some (ListenerRun.reply safeguard
      (match lh.params with
      | none => Reply.available false
      | some (.error _) => Reply.available false
      | some (.ok available) => Reply.available (decide (available ≠ some "no"))))
  else if request.action = "testNotification" then
    match request.data with
    | .absent =>
      some (ListenerRun.reply safeguard
        (Reply.failed "Cannot destructure property 'incident' of 'request.data'"))
    | .testNotification incident threat email phone =>
      match lh.rejectsSyncKeys with
      | some e => some (ListenerRun.reply safeguard (Reply.failed e))
      | none =>
        match lh.rejectsLocalKeys with
        | some e => some (ListenerRun.reply safeguard (Reply.failed e))
        | none =>
          let syncResult := safeguard.world.storage.syncSettings
          let localResult := safeguard.world.storage.localSettings
          let pick (a b : Option String) : Option String := if jsTruthyStr a then a else b
          let settings : Settings :=
            { mode := none
              enabled := none
              parentEmail := email
              parentPhone := phone
              resendApiKey :=
                some (jsOrStr (pick syncResult.resendApiKey localResult.resendApiKey) "")
              vonageApiKey :=
                some (jsOrStr (pick syncResult.vonageApiKey localResult.vonageApiKey) "")
              vonageApiSecret :=
                some (jsOrStr (pick syncResult.vonageApiSecret localResult.vonageApiSecret) "")
              vonageSenderNumber := none }
          some
            { worker := safeguard
              calls := []
              notifications :=
                [SafeGuardServiceWorker.sendParentNotification h.notification threat incident
                  settings]
              replies := [Reply.testSent]
              keepsChannelOpen := true
              threw := none }
    | _ => none
  else if request.action = "clearAllData" then
    some (ListenerRun.reply { safeguard with conversationMemory := MemoryRef.literal [] }
      Reply.cleared)
  else
    some
      { worker := safeguard, calls := [], notifications := [], replies := [Reply.unknownAction],
        keepsChannelOpen := false, threw := none }

namespace Examples

/-- A host of the listener: every URL is read as `example.org`, the engine
reports itself available, the reads of the keys succeed. -/
def listenerHost : ListenerHost :=
  { hostnameOf := fun _ => some "example.org"
    params := some (.ok (some "readily"))
    rejectsSyncKeys := none
    rejectsLocalKeys := none }

end Examples

/-! ## Theorems -/

theorem ConversationMemory.addAll_snoc (m : ConversationMemory) (calls : List (Nat × Message))
    (c : Nat × Message) :
    ConversationMemory.addAll m (calls ++ [c]) = (ConversationMemory.addAll m calls).add c.1 c.2 := by
  simp [ConversationMemory.addAll, List.foldl_append]

theorem ConversationMemory.add_maxMessages (m : ConversationMemory) (now : Nat) (msg : Message) :
    (m.add now msg).maxMessages = m.maxMessages := by
  simp only [ConversationMemory.add]
  split <;> rfl

theorem ConversationMemory.addAll_window (calls : List (Nat × Message)) :
    (ConversationMemory.addAll ConversationMemory.new calls).maxMessages = 20 ∧
    (ConversationMemory.addAll ConversationMemory.new calls).messages =
      (calls.map (fun c => ConversationMemory.entryOf c.1 c.2)).drop (calls.length - 20) := by
  induction calls using List.reverseRecOn with
  | nil => exact ⟨rfl, rfl⟩
  | append_singleton cs c ih =>
    obtain ⟨hmax, hmsgs⟩ := ih
    rw [ConversationMemory.addAll_snoc]
    refine ⟨by rw [ConversationMemory.add_maxMessages, hmax], ?_⟩
    unfold ConversationMemory.add
    rw [hmax, hmsgs]
    simp only [List.length_append, List.length_drop, List.length_map, List.length_singleton,
      List.map_append, List.map_cons, List.map_nil]
    by_cases hk : cs.length < 20
    · have h1 : ¬ (cs.length - (cs.length - 20) + 1 > 20) := by omega
      have h2 : cs.length - 20 = 0 := by omega
      have h3 : cs.length + 1 - 20 = 0 := by omega
      rw [if_neg h1]
      simp [h2, h3]
    · have h1 : cs.length - (cs.length - 20) + 1 > 20 := by omega
      rw [if_pos h1]
      simp only []
      have h4 : cs.length + 1 - 20 = (cs.length - 20) + 1 := by omega
      rw [h4, ← List.drop_one, List.drop_append_of_le_length (by simp; omega), List.drop_drop,
        List.drop_append_of_le_length (by simp; omega)]


/-- C7: starting from a fresh memory, after any sequence of `add` calls
`getAll` holds exactly the entries of the last `min k 20` messages, in the
order they were added; so the size is `min k 20`, never above 20, and an
`add` on a memory that already holds 20 entries drops the first entry and
keeps the others in order, followed by the new one. -/
theorem ConversationMemory.fifo_window_of_capacity_20 (calls : List (Nat × Message))
    (c : Nat × Message) :
    (ConversationMemory.addAll ConversationMemory.new calls).getAll =
        (calls.map fun x => ConversationMemory.entryOf x.1 x.2).drop
          (calls.length - min calls.length 20) ∧
    (ConversationMemory.addAll ConversationMemory.new calls).getAll.length = min calls.length 20 ∧
    (ConversationMemory.addAll ConversationMemory.new calls).getAll.length ≤ 20 ∧
    (ConversationMemory.addAll ConversationMemory.new (calls ++ [c])).getAll =
      (if calls.length ≥ 20 then
        (ConversationMemory.addAll ConversationMemory.new calls).getAll.tail
      else (ConversationMemory.addAll ConversationMemory.new calls).getAll) ++
        [ConversationMemory.entryOf c.1 c.2] := by
  have hw := (ConversationMemory.addAll_window calls).2
  have hw2 := (ConversationMemory.addAll_window (calls ++ [c])).2
  have hsub : calls.length - min calls.length 20 = calls.length - 20 := by omega
  simp only [ConversationMemory.getAll]
  refine ⟨by rw [hw, hsub], by rw [hw]; simp; omega, by rw [hw]; simp; omega, ?_⟩
  rw [hw2, hw]
  simp only [List.map_append, List.map_cons, List.map_nil, List.length_append,
    List.length_singleton]
  by_cases hk : calls.length ≥ 20
  · rw [if_pos hk]
    have h4 : calls.length + 1 - 20 = (calls.length - 20) + 1 := by omega
    rw [h4, List.drop_append_of_le_length (by simp; omega), ← List.drop_one, List.drop_drop]
  · rw [if_neg hk]
    have h2 : calls.length - 20 = 0 := by omega
    have h3 : calls.length + 1 - 20 = 0 := by omega
    simp [h2, h3]

/-- For a positive count, `getLast` is the `min count size` most recent
entries, in chronological order. -/
theorem ConversationMemory.getLast_of_pos (m : ConversationMemory) (n : Nat) (hn : 1 ≤ n) :
    m.getLast (n : Int) = m.messages.drop (m.messages.length - min n m.messages.length) := by
  unfold ConversationMemory.getLast jsSlice
  have hneg : (-(n : Int)) < 0 := by omega
  rw [if_pos hneg]
  have habs : (-(n : Int)).natAbs = n := by omega
  rw [habs]
  by_cases h : n ≤ m.messages.length
  · rw [Nat.min_eq_left h]
  · have h1 : m.messages.length - n = 0 := by omega
    have h2 : min n m.messages.length = m.messages.length := by omega
    rw [h1, h2]; simp

/-- C8: on a memory holding two entries, `getLast(0)` returns both entries
(`slice(-0)` is `slice(0)`), not the `min 0 2 = 0` most recent ones. -/
theorem ConversationMemory.getLast_zero_returns_everything :
    (ConversationMemory.addAll ConversationMemory.new
        [(1000, { text := "hi", type := "received", timestamp := some 1, platform := "web" }),
         (2000, { text := "hello", type := "sent", timestamp := some 2, platform := "web" })]).getLast 0 =
      [{ text := "hi", type := "received", timestamp := 1, platform := "web" },
       { text := "hello", type := "sent", timestamp := 2, platform := "web" }] ∧
    ((ConversationMemory.addAll ConversationMemory.new
        [(1000, { text := "hi", type := "received", timestamp := some 1, platform := "web" }),
         (2000, { text := "hello", type := "sent", timestamp := some 2, platform := "web" })]).getLast 0).length
      ≠ min 0 2 := by
  decide

/-- C9: with a local result `t`, `combineWithTensorFlow` flags when either
input flags and takes the larger level (an absent local level counting as
0), so a flag is never removed and neither level is lowered; with no local
result the agent's result is returned unchanged. -/
theorem Agent1_TextAnalysis.combineWithTensorFlow_or_max (a : AgentResult) (t : TensorFlowResult) :
    (Agent1_TextAnalysis.combineWithTensorFlow a (some t)).isInappropriate =
        (a.isInappropriate || t.isToxic) ∧
    (Agent1_TextAnalysis.combineWithTensorFlow a (some t)).level =
        max a.level (jsOrInt t.level 0) ∧
    (!a.isInappropriate || (Agent1_TextAnalysis.combineWithTensorFlow a (some t)).isInappropriate) = true ∧
    (!t.isToxic || (Agent1_TextAnalysis.combineWithTensorFlow a (some t)).isInappropriate) = true ∧
    a.level ≤ (Agent1_TextAnalysis.combineWithTensorFlow a (some t)).level ∧
    jsOrInt t.level 0 ≤ (Agent1_TextAnalysis.combineWithTensorFlow a (some t)).level ∧
    (Agent1_TextAnalysis.combineWithTensorFlow a none).toAgentResult = a ∧
    (Agent1_TextAnalysis.combineWithTensorFlow a none).isInappropriate = a.isInappropriate ∧
    (Agent1_TextAnalysis.combineWithTensorFlow a none).level = a.level ∧
    (Agent1_TextAnalysis.combineWithTensorFlow a none).category = a.category ∧
    (Agent1_TextAnalysis.combineWithTensorFlow a none).explanation = a.explanation ∧
    (Agent1_TextAnalysis.combineWithTensorFlow a none).redFlags = a.redFlags := by
  refine ⟨rfl, rfl, ?_, ?_, le_max_left _ _, le_max_right _ _, rfl, rfl, rfl, rfl, rfl, rfl⟩
  · cases h : a.isInappropriate <;> simp [Agent1_TextAnalysis.combineWithTensorFlow, h]
  · cases h : t.isToxic <;> simp [Agent1_TextAnalysis.combineWithTensorFlow, h]

/-- C10: when the response has no brace-delimited substring, or `JSON.parse`
rejects the extracted substring, `parseResponse` returns the neutral
verdict: not flagged, level 0, category safe, no red flags. -/
theorem Agent1_TextAnalysis.parseResponse_failure_is_neutral (jsonParse : String → Option JSON)
    (response : String)
    (h : matchBraces response = none ∨
      ∃ jsonMatch, matchBraces response = some jsonMatch ∧ jsonParse jsonMatch = none) :
    Agent1_TextAnalysis.parseResponse jsonParse response = Agent1_TextAnalysis.getFallbackResult ∧
    (Agent1_TextAnalysis.parseResponse jsonParse response).isInappropriate = false ∧
    (Agent1_TextAnalysis.parseResponse jsonParse response).level = 0 ∧
    (Agent1_TextAnalysis.parseResponse jsonParse response).category = "safe" ∧
    (Agent1_TextAnalysis.parseResponse jsonParse response).redFlags = [] := by
  have key : Agent1_TextAnalysis.parseResponse jsonParse response =
      Agent1_TextAnalysis.getFallbackResult := by
    unfold Agent1_TextAnalysis.parseResponse
    rcases h with h | ⟨m, hm, hp⟩
    · rw [h]
    · rw [hm]; simp only [hp]
  rw [key]
  exact ⟨rfl, rfl, rfl, rfl, rfl⟩

/-- The hypothesis of C10 holds for a response whose braces do not enclose
JSON, and the neutral verdict follows. -/
theorem Agent1_TextAnalysis.parseResponse_failure_is_neutral_witness :
    (matchBraces "Sorry, {oops} I cannot say" = none ∨
      ∃ jsonMatch, matchBraces "Sorry, {oops} I cannot say" = some jsonMatch ∧
        JSON.parse jsonMatch = none) ∧
    (Agent1_TextAnalysis.parseResponse JSON.parse "Sorry, {oops} I cannot say" =
        Agent1_TextAnalysis.getFallbackResult ∧
      (Agent1_TextAnalysis.parseResponse JSON.parse "Sorry, {oops} I cannot say").isInappropriate = false ∧
      (Agent1_TextAnalysis.parseResponse JSON.parse "Sorry, {oops} I cannot say").level = 0 ∧
      (Agent1_TextAnalysis.parseResponse JSON.parse "Sorry, {oops} I cannot say").category = "safe" ∧
      (Agent1_TextAnalysis.parseResponse JSON.parse "Sorry, {oops} I cannot say").redFlags = []) :=
  ⟨Or.inr ⟨"{oops}", by decide, by rfl⟩,
   Agent1_TextAnalysis.parseResponse_failure_is_neutral JSON.parse "Sorry, {oops} I cannot say"
     (Or.inr ⟨"{oops}", by decide, by rfl⟩)⟩

/-- When the engine answers, whatever the answer, `analyze` combines the
engine's verdict with the local signal by OR and max. -/
theorem Agent1_TextAnalysis.analyze_or_max_of_response (jsonParse : String → Option JSON)
    (lm : LanguageModelHost) (agent : Agent) (tf : TensorFlowResult) (response : String)
    (havail : (agent.ensure lm).isAvailable = true) (hresp : lm.session = .ok response) :
    (Agent1_TextAnalysis.analyze jsonParse lm agent (some tf)).1.isInappropriate =
        ((Agent1_TextAnalysis.engineVerdict jsonParse lm agent).isInappropriate || tf.isToxic) ∧
    (Agent1_TextAnalysis.analyze jsonParse lm agent (some tf)).1.level =
        max (Agent1_TextAnalysis.engineVerdict jsonParse lm agent).level (jsOrInt tf.level 0) := by
  simp [Agent1_TextAnalysis.analyze, Agent1_TextAnalysis.engineVerdict,
    Agent1_TextAnalysis.analyzeBody, havail, hresp, Agent1_TextAnalysis.combineWithTensorFlow]

/-- C1: with a toxic local signal of level 9, `analyze` returns the unflagged
level-0 fallback both when the engine is unavailable and when its call
throws, although OR/max of the neutral engine verdict and the signal is
flagged with level 9. -/
theorem Agent1_TextAnalysis.analyze_drops_local_signal_on_engine_failure :
    ((Agent1_TextAnalysis.analyze JSON.parse Examples.hostUndefined { isAvailable := false }
        (some Examples.toxicSignal)).1.isInappropriate = false ∧
      (Agent1_TextAnalysis.analyze JSON.parse Examples.hostUndefined { isAvailable := false }
        (some Examples.toxicSignal)).1.level = 0 ∧
      ((Agent1_TextAnalysis.engineVerdict JSON.parse Examples.hostUndefined
          { isAvailable := false }).isInappropriate || Examples.toxicSignal.isToxic) = true ∧
      max (Agent1_TextAnalysis.engineVerdict JSON.parse Examples.hostUndefined
          { isAvailable := false }).level (jsOrInt Examples.toxicSignal.level 0) = 9) ∧
    ((Agent1_TextAnalysis.analyze JSON.parse Examples.hostThrows { isAvailable := true }
        (some Examples.toxicSignal)).1.isInappropriate = false ∧
      (Agent1_TextAnalysis.analyze JSON.parse Examples.hostThrows { isAvailable := true }
        (some Examples.toxicSignal)).1.level = 0 ∧
      ((Agent1_TextAnalysis.engineVerdict JSON.parse Examples.hostThrows
          { isAvailable := true }).isInappropriate || Examples.toxicSignal.isToxic) = true ∧
      max (Agent1_TextAnalysis.engineVerdict JSON.parse Examples.hostThrows
          { isAvailable := true }).level (jsOrInt Examples.toxicSignal.level 0) = 9) := by
  decide

/-- When the coordinator's engine is unavailable or its call throws,
`coordinate` returns the fallback for the reporter results it was given, so
its level is the larger reporter level. -/
theorem Agent4_FinalCoordinator.coordinate_fallback_of_call_failure
    (jsonParse : String → Option JSON) (lm : LanguageModelHost) (agent : Agent)
    (reporterResults : ReporterResults) (conversationMemory : MemoryRef)
    (h : (agent.ensure lm).isAvailable = false ∨ ∃ e, lm.session = .error e) :
    (Agent4_FinalCoordinator.coordinate jsonParse lm agent reporterResults conversationMemory).1 =
        Agent4_FinalCoordinator.getFallbackResult reporterResults ∧
    (Agent4_FinalCoordinator.coordinate jsonParse lm agent reporterResults
        conversationMemory).1.finalLevel =
      max (jsOrInt (reporterResults.agent1.map fun a => a.level) 0)
        (jsOrInt (reporterResults.agent3.map fun a => a.level) 0) := by
  have key : (Agent4_FinalCoordinator.coordinate jsonParse lm agent reporterResults
      conversationMemory).1 = Agent4_FinalCoordinator.getFallbackResult reporterResults := by
    unfold Agent4_FinalCoordinator.coordinate
    rcases h with h | ⟨e, he⟩
    · simp [h]
    · simp only [Agent4_FinalCoordinator.coordinateBody, he]
      split
      · rfl
      · split <;> [skip; rfl]
        rename_i heq
        split at heq <;> simp at heq
  rw [key]
  exact ⟨rfl, rfl⟩

/-- C2: for a text reporter verdict of level 9 and an engine answer without a
JSON object (no braces, or braces around text that is not JSON), `coordinate`
returns `finalLevel = 0` with severity `LOW` and action `monitor`, while the
larger reporter level is 9. -/
theorem Agent4_FinalCoordinator.coordinate_parse_failure_loses_reporter_level :
    Examples.groomingVerdict.isInappropriate = true ∧
    Examples.groomingVerdict.level = 9 ∧
    max (jsOrInt ((some Examples.groomingVerdict).map fun a => a.level) 0)
        (jsOrInt ((none : Option ImageVerdict).map fun a => a.level) 0) = 9 ∧
    (Agent4_FinalCoordinator.coordinate JSON.parse
        (Examples.hostAnswers "I am sorry, I cannot assist with that request.")
        { isAvailable := true }
        { agent1 := some Examples.groomingVerdict, agent2 := none, agent3 := none }
        (MemoryRef.ofClass ConversationMemory.new)).1.finalLevel = 0 ∧
    (Agent4_FinalCoordinator.coordinate JSON.parse
        (Examples.hostAnswers "I am sorry, I cannot assist with that request.")
        { isAvailable := true }
        { agent1 := some Examples.groomingVerdict, agent2 := none, agent3 := none }
        (MemoryRef.ofClass ConversationMemory.new)).1.severity = "LOW" ∧
    (Agent4_FinalCoordinator.coordinate JSON.parse
        (Examples.hostAnswers "I am sorry, I cannot assist with that request.")
        { isAvailable := true }
        { agent1 := some Examples.groomingVerdict, agent2 := none, agent3 := none }
        (MemoryRef.ofClass ConversationMemory.new)).1.actionRequired = "monitor" ∧
    (Agent4_FinalCoordinator.coordinate JSON.parse
        (Examples.hostAnswers "The level is {high}.")
        { isAvailable := true }
        { agent1 := some Examples.groomingVerdict, agent2 := none, agent3 := none }
        (MemoryRef.ofClass ConversationMemory.new)).1.finalLevel = 0 := by
  decide

/-- C3 fails as stated: the text verdict that `analyze` returns for a toxic
local signal and an engine answer without JSON is flagged with category
`safe`, and the coordinator fallback for it has `primaryThreat = "safe"`. -/
theorem Agent4_FinalCoordinator.getFallbackResult_can_be_safe :
    Examples.locallyFlaggedVerdict.isInappropriate = true ∧
    (Agent4_FinalCoordinator.getFallbackResult
      { agent1 := some Examples.locallyFlaggedVerdict, agent2 := none, agent3 := none }).primaryThreat
      = "safe" := by
  decide

/-- C3, amended: for every reporter results the coordinator fallback asks for
`monitor` or `immediate_parent_notification`, never `log_only`; its
`primaryThreat` is the text reporter's category, or `unknown` when that is
absent or empty, so it is `safe` exactly when the text reporter's category is
`safe`. -/
theorem Agent4_FinalCoordinator.getFallbackResult_never_log_only (reporterResults : ReporterResults) :
    ((Agent4_FinalCoordinator.getFallbackResult reporterResults).actionRequired = "monitor" ∨
      (Agent4_FinalCoordinator.getFallbackResult reporterResults).actionRequired =
        "immediate_parent_notification") ∧
    (Agent4_FinalCoordinator.getFallbackResult reporterResults).actionRequired ≠ "log_only" ∧
    (Agent4_FinalCoordinator.getFallbackResult reporterResults).primaryThreat =
      jsOrStr (reporterResults.agent1.map fun a => a.category) "unknown" ∧
    ((Agent4_FinalCoordinator.getFallbackResult reporterResults).primaryThreat = "safe" ↔
      ∃ a, reporterResults.agent1 = some a ∧ a.category = "safe") := by
  refine ⟨?_, ?_, rfl, ?_⟩
  · simp only [Agent4_FinalCoordinator.getFallbackResult]
    split <;> simp
  · simp only [Agent4_FinalCoordinator.getFallbackResult]
    split <;> decide
  · simp only [Agent4_FinalCoordinator.getFallbackResult]
    cases h : reporterResults.agent1 with
    | none => simp [jsOrStr]
    | some a =>
      simp only [Option.map_some', jsOrStr, Option.some.injEq, exists_eq_left']
      split
      · rename_i hc
        rw [hc]
        decide
      · rfl

/-- Below level 9 the coordinator fallback and `assessThreatLevel` assign the
same severity bucket. -/
theorem Agent4_FinalCoordinator.getFallbackResult_severity_below_9
    (reporterResults : ReporterResults)
    (h : (Agent4_FinalCoordinator.getFallbackResult reporterResults).finalLevel < 9) :
    (Agent4_FinalCoordinator.getFallbackResult reporterResults).severity =
      Agent4_FinalCoordinator.severityOf
        (Agent4_FinalCoordinator.getFallbackResult reporterResults).finalLevel := by
  simp only [Agent4_FinalCoordinator.getFallbackResult, Agent4_FinalCoordinator.severityOf] at h ⊢
  rw [if_neg (show ¬ (_ ≥ (9 : Int)) from not_le.mpr h)]

/-- C4: for a reporter level of 9 (and of 10) the coordinator fallback
returns severity `HIGH`, while `assessThreatLevel` assigns `CRITICAL` to the
same level. -/
theorem Agent4_FinalCoordinator.getFallbackResult_has_no_critical_bucket :
    (Agent4_FinalCoordinator.getFallbackResult
      { agent1 := some Examples.groomingVerdict, agent2 := none, agent3 := none }).finalLevel = 9 ∧
    (Agent4_FinalCoordinator.getFallbackResult
      { agent1 := some Examples.groomingVerdict, agent2 := none, agent3 := none }).severity = "HIGH" ∧
    (Agent4_FinalCoordinator.assessThreatLevel 9 none none).finalLevel = 9 ∧
    (Agent4_FinalCoordinator.assessThreatLevel 9 none none).severity = "CRITICAL" ∧
    Agent4_FinalCoordinator.severityOf 9 = "CRITICAL" ∧
    (Agent4_FinalCoordinator.getFallbackResult
      { agent1 := none, agent2 := none,
        agent3 := some { isInappropriate := true, level := 10, category := "sexual_content",
                         explanation := "", concerningElements := [], source := "AGENT 3" } }).severity
      = "HIGH" ∧
    Agent4_FinalCoordinator.severityOf 10 = "CRITICAL" := by
  decide

/-- Steps 4 and 5 never make the handler reject and add exactly one
`sendResponse` call to the calls made before. -/
theorem storeActRespond_responds_once {σ : Type} (ops : Ops σ) (sw : SafeGuardServiceWorker σ)
    (calls : List Call) (agent4Result : FinalVerdict) (incident : Incident) (explanation : String) :
    (storeActRespond ops sw calls agent4Result incident explanation).threw = none ∧
    ((storeActRespond ops sw calls agent4Result incident explanation).calls.filter
        Call.isSendResponse).length = (calls.filter Call.isSendResponse).length + 1 := by
  unfold storeActRespond
  split
  · simp [Call.isSendResponse]
  · split <;> simp [Call.isSendResponse]

/-- C5: when the reporter stage of `handleTextAnalysis` returned a verdict
that is not flagged, the handler called only `ConversationMemory.add`,
`analyze` and `sendResponse` (so neither Agent 4 `coordinate`, nor
`storeIncident`, nor `takeAction`), it responded with
`{ threat: null, safe: true, level }` for the reporter's level, it did not
reject, and afterwards the memory is the former memory with the raw message
added while the world of the storage manager (the incident store) and the
other agents are untouched; Agent 1 keeps the availability flag that
`analyze` left. -/
theorem handleTextAnalysis_short_circuit {σ : Type} (ops : Ops σ) (sw : SafeGuardServiceWorker σ)
    (d : TextData) (v : TextVerdict)
    (hreported : Call.analyze d.text d.type d.tensorflowResult (.ok v) ∈
      (handleTextAnalysis ops sw (some d)).calls)
    (hunflagged : v.isInappropriate = false) :
    (handleTextAnalysis ops sw (some d)).calls =
      [Call.memoryAdd
          { text := d.text, type := d.type, platform := d.platform, timestamp := d.timestamp },
        Call.analyze d.text d.type d.tensorflowResult (.ok v),
        Call.sendResponse (Response.safe v.level)] ∧
    (∀ c ∈ (handleTextAnalysis ops sw (some d)).calls, c.isEscalation = false) ∧
    (handleTextAnalysis ops sw (some d)).threw = none ∧
    (∃ memory, sw.conversationMemory = MemoryRef.ofClass memory ∧
      (handleTextAnalysis ops sw (some d)).worker.conversationMemory =
        MemoryRef.ofClass (memory.add ops.clockAdd
          { text := d.text, type := d.type, platform := d.platform, timestamp := d.timestamp })) ∧
    (handleTextAnalysis ops sw (some d)).worker.world = sw.world ∧
    (handleTextAnalysis ops sw (some d)).worker.agent1 =
      (ops.analyze sw.agent1 d.text d.type d.tensorflowResult).2 ∧
    (handleTextAnalysis ops sw (some d)).worker.agent2 = sw.agent2 ∧
    (handleTextAnalysis ops sw (some d)).worker.agent3 = sw.agent3 ∧
    (handleTextAnalysis ops sw (some d)).worker.agent4 = sw.agent4 := by
  unfold handleTextAnalysis at hreported ⊢
  simp only at hreported ⊢
  cases hmem : sw.conversationMemory with
  | literal ms =>
    rw [hmem] at hreported
    simp [MemoryRef.add] at hreported
  | ofClass memory =>
    rw [hmem] at hreported
    simp only [MemoryRef.add] at hreported ⊢
    rcases hana : ops.analyze sw.agent1 d.text d.type d.tensorflowResult with ⟨res, agent1⟩
    rw [hana] at hreported
    cases res with
    | error e => simp at hreported
    | ok agent1Result =>
      simp only at hreported ⊢
      by_cases hflag : agent1Result.isInappropriate = true
      · exfalso
        simp only [hflag, Bool.not_true, Bool.false_eq_true, if_false] at hreported
        rcases hco : ops.coordinate sw.agent4
          { agent1 := some agent1Result, agent2 := none, agent3 := none }
          (MemoryRef.ofClass (memory.add ops.clockAdd
            { text := d.text, type := d.type, platform := d.platform, timestamp := d.timestamp }))
          with ⟨res4, agent4⟩
        rw [hco] at hreported
        cases res4 with
        | error e =>
          simp at hreported
          rw [← hreported] at hflag
          simp [hunflagged] at hflag
        | ok agent4Result =>
          simp only [storeActRespond] at hreported
          have hv : v = agent1Result := by
            split at hreported
            · simpa using hreported
            · split at hreported <;> simpa using hreported
          rw [← hv] at hflag
          simp [hunflagged] at hflag
      · have hf : agent1Result.isInappropriate = false := by simpa using hflag
        simp only [hf, Bool.not_false, if_true] at hreported ⊢
        have hv : v = agent1Result := by simpa using hreported
        subst hv
        refine ⟨rfl, ?_, ?_⟩
        · intro c hc
          simp at hc
          rcases hc with hc | hc | hc <;> rw [hc] <;> rfl
        · simp

/-- The hypotheses of C5 hold for the friendly text of the safe scenario on a
fresh worker whose engine answers `safeAnswer`: three calls are made and the
store stays empty. -/
theorem handleTextAnalysis_short_circuit_witness :
    (Call.analyze Examples.friendlyText.text Examples.friendlyText.type
        Examples.friendlyText.tensorflowResult (.ok Examples.safeVerdict) ∈
      (handleTextAnalysis (Examples.ops (Examples.hostAnswers Examples.safeAnswer)
        Examples.hostUndefined) Examples.freshWorker (some Examples.friendlyText)).calls ∧
      Examples.safeVerdict.isInappropriate = false) ∧
    (handleTextAnalysis (Examples.ops (Examples.hostAnswers Examples.safeAnswer)
        Examples.hostUndefined) Examples.freshWorker (some Examples.friendlyText)).calls =
      [Call.memoryAdd
          { text := "lol that's funny, see you tomorrow", type := "sent", platform := "WhatsApp",
            timestamp := some 1700000000000 },
        Call.analyze "lol that's funny, see you tomorrow" "sent" none (.ok Examples.safeVerdict),
        Call.sendResponse (Response.safe 1)] ∧
    (handleTextAnalysis (Examples.ops (Examples.hostAnswers Examples.safeAnswer)
        Examples.hostUndefined) Examples.freshWorker (some Examples.friendlyText)).worker.world = [] :=
  ⟨⟨List.mem_cons_of_mem _ (List.mem_cons_self _ _), rfl⟩,
    (handleTextAnalysis_short_circuit
      (Examples.ops (Examples.hostAnswers Examples.safeAnswer) Examples.hostUndefined)
      Examples.freshWorker Examples.friendlyText Examples.safeVerdict
      (List.mem_cons_of_mem _ (List.mem_cons_self _ _)) rfl).1,
    (handleTextAnalysis_short_circuit
      (Examples.ops (Examples.hostAnswers Examples.safeAnswer) Examples.hostUndefined)
      Examples.freshWorker Examples.friendlyText Examples.safeVerdict
      (List.mem_cons_of_mem _ (List.mem_cons_self _ _)) rfl).2.2.2.2.1⟩

/-- Without `data` the destructuring before `try` throws: both handlers
reject and send no response. -/
theorem handlers_reject_without_data {σ : Type} (ops : Ops σ) (sw : SafeGuardServiceWorker σ) :
    (handleTextAnalysis ops sw none).threw ≠ none ∧
    (handleTextAnalysis ops sw none).calls = [] ∧
    (handleImageAnalysis ops sw none).threw ≠ none ∧
    (handleImageAnalysis ops sw none).calls = [] := by
  simp [handleTextAnalysis, handleImageAnalysis]

/-- C6: for event data that are present, whatever the collaborators return
or throw, `handleTextAnalysis` and `handleImageAnalysis` do not reject and
call `sendResponse` exactly once. -/
theorem handlers_never_throw_and_respond_once {σ : Type} (ops : Ops σ)
    (sw : SafeGuardServiceWorker σ) (text : TextData) (image : ImageData) :
    (handleTextAnalysis ops sw (some text)).threw = none ∧
    ((handleTextAnalysis ops sw (some text)).calls.filter Call.isSendResponse).length = 1 ∧
    (handleImageAnalysis ops sw (some image)).threw = none ∧
    ((handleImageAnalysis ops sw (some image)).calls.filter Call.isSendResponse).length = 1 := by
  refine ⟨?_, ?_, ?_, ?_⟩
  · unfold handleTextAnalysis
    simp only
    split
    · rfl
    · split
      · rfl
      · split
        · rfl
        · split
          · rfl
          · exact (storeActRespond_responds_once _ _ _ _ _ _).1
  · unfold handleTextAnalysis
    simp only
    split
    · rfl
    · split
      · rfl
      · split
        · rfl
        · split
          · rfl
          · rw [(storeActRespond_responds_once _ _ _ _ _ _).2]
            rfl
  · unfold handleImageAnalysis
    simp only
    split
    · rfl
    · split
      · rfl
      · split
        · rfl
        · split
          · rfl
          · exact (storeActRespond_responds_once _ _ _ _ _ _).1
  · unfold handleImageAnalysis
    simp only
    split
    · rfl
    · split
      · rfl
      · split
        · rfl
        · split
          · rfl
          · rw [(storeActRespond_responds_once _ _ _ _ _ _).2]
            rfl

/-- The regular expression on a response made of a prefix without `{`, a text
that starts with `{` and ends with `}`, and a suffix without `}`: the match
is that text. -/
theorem matchBraces_of_delimited (pre obj suf : String) (mid : List Char)
    (hpre : ∀ c ∈ pre.data, c ≠ '{') (hobj : obj.data = '{' :: (mid ++ ['}']))
    (hsuf : ∀ c ∈ suf.data, c ≠ '}') :
    matchBraces (pre ++ obj ++ suf) = some obj := by
  unfold matchBraces
  simp only [String.data_append, List.append_assoc]
  have h1 : (pre.data ++ (obj.data ++ suf.data)).dropWhile (fun c => c != '{') =
      obj.data ++ suf.data := by
    rw [List.dropWhile_append_of_pos (by simpa using hpre), hobj]
    simp
  rw [h1]
  have h2 : ((obj.data ++ suf.data).reverse.dropWhile (fun c => c != '}')).reverse = obj.data := by
    rw [List.reverse_append, List.dropWhile_append_of_pos (by simpa using hsuf), hobj]
    simp
  rw [h2]
  have h3 : obj.data ≠ [] := by rw [hobj]; simp
  simp [h3]

/-- C11 fails as stated: an answer that holds a well-formed flagged object
(no `{` before it) followed by a remark that contains `}` is read as the
neutral fallback, not as the verdict that the object encodes. -/
theorem Agent1_TextAnalysis.parseResponse_is_greedy :
    (∀ c ∈ "Result: ".data, c ≠ '{') ∧
    (JSON.parse Examples.groomingAnswer).isSome = true ∧
    (Agent1_TextAnalysis.parseResponse JSON.parse Examples.groomingAnswer).isInappropriate = true ∧
    (Agent1_TextAnalysis.parseResponse JSON.parse Examples.groomingAnswer).level = 9 ∧
    Agent1_TextAnalysis.parseResponse JSON.parse
        ("Result: " ++ Examples.groomingAnswer ++ " (schema: \x7blevel: 0-10\x7d)") =
      Agent1_TextAnalysis.getFallbackResult ∧
    (Agent1_TextAnalysis.parseResponse JSON.parse
        ("Result: " ++ Examples.groomingAnswer ++ " (schema: \x7blevel: 0-10\x7d)")).isInappropriate
      = false := by
  decide

/-- C11, amended: for a response `prefix ++ obj ++ suffix` where the prefix
holds no `{`, `obj` is an object text (it starts with `{`, ends with `}` and
`JSON.parse` accepts it) and the suffix holds no `}`, `parseResponse` returns
the verdict that `obj` encodes, which is also what it returns for `obj`
alone. -/
theorem Agent1_TextAnalysis.parseResponse_extracts_object (jsonParse : String → Option JSON)
    (pre obj suf : String) (mid : List Char) (parsed : JSON)
    (hpre : ∀ c ∈ pre.data, c ≠ '{') (hobj : obj.data = '{' :: (mid ++ ['}']))
    (hparse : jsonParse obj = some parsed) (hsuf : ∀ c ∈ suf.data, c ≠ '}') :
    Agent1_TextAnalysis.parseResponse jsonParse (pre ++ obj ++ suf) =
        Agent1_TextAnalysis.fromParsed parsed ∧
    Agent1_TextAnalysis.parseResponse jsonParse (pre ++ obj ++ suf) =
        Agent1_TextAnalysis.parseResponse jsonParse obj := by
  have hm := matchBraces_of_delimited pre obj suf mid hpre hobj hsuf
  have hm0 : matchBraces obj = some obj := by
    have := matchBraces_of_delimited "" obj "" mid (by simp) hobj (by simp)
    simpa using this
  unfold Agent1_TextAnalysis.parseResponse
  rw [hm, hm0]
  simp [hparse]

/-- The hypotheses of the amended C11 hold for a flagged object between a
prefix and a suffix without braces, and the flagged level-9 verdict is
returned. -/
theorem Agent1_TextAnalysis.parseResponse_extracts_object_witness :
    ((∀ c ∈ "Here is my analysis: ".data, c ≠ '{') ∧
      Examples.groomingAnswer.data =
        '{' :: ("\"isInappropriate\": true, \"level\": 9, \"category\": \"grooming\"".data ++ ['}']) ∧
      JSON.parse Examples.groomingAnswer = some Examples.groomingParsed ∧
      (∀ c ∈ " Stay safe!".data, c ≠ '}')) ∧
    Agent1_TextAnalysis.parseResponse JSON.parse
        ("Here is my analysis: " ++ Examples.groomingAnswer ++ " Stay safe!") =
      Agent1_TextAnalysis.fromParsed Examples.groomingParsed ∧
    (Agent1_TextAnalysis.fromParsed Examples.groomingParsed).isInappropriate = true ∧
    (Agent1_TextAnalysis.fromParsed Examples.groomingParsed).level = 9 :=
  ⟨⟨by decide, by decide, by rfl, by decide⟩,
    (Agent1_TextAnalysis.parseResponse_extracts_object JSON.parse "Here is my analysis: "
      Examples.groomingAnswer " Stay safe!"
      "\"isInappropriate\": true, \"level\": 9, \"category\": \"grooming\"".data
      Examples.groomingParsed (by decide) (by decide) (by rfl) (by decide)).1,
    by decide, by decide⟩

/-- When the engine answers, `assess` is the override verdict if the
description is costume-like and the repaired level is above 2, and the
repaired verdict of `parseResponse` otherwise. -/
theorem Agent3_ImageSafetyAssessment.assess_of_response (jsonParse : String → Option JSON)
    (toLowerCase : String → String) (lm : LanguageModelHost) (agent : Agent)
    (agent2Result : ImageDescription) (response : String)
    (havail : (agent.ensure lm).isAvailable = true) (hresp : lm.session = .ok response) :
    (Agent3_ImageSafetyAssessment.assess jsonParse toLowerCase lm agent agent2Result).1 =
      if Agent3_ImageSafetyAssessment.isCostume toLowerCase agent2Result.description &&
          decide ((Agent3_ImageSafetyAssessment.parseResponse jsonParse response).level > 2) then
        Agent3_ImageSafetyAssessment.overrideVerdict
      else Agent3_ImageSafetyAssessment.parseResponse jsonParse response := by
  unfold Agent3_ImageSafetyAssessment.assess Agent3_ImageSafetyAssessment.assessBody
  simp only [havail, hresp, Bool.not_true, Bool.false_eq_true, if_false]
  by_cases hc : (Agent3_ImageSafetyAssessment.isCostume toLowerCase agent2Result.description &&
      decide ((Agent3_ImageSafetyAssessment.parseResponse jsonParse response).level > 2)) = true
  · simp [hc]
  · simp [hc]

/-- C12: when the lower-cased description contains one of the terms costume,
makeup, cosplay, fantasy, edited, halloween, monster and the engine's answer
has a repaired level above 2, `assess` returns the hardcoded safe verdict:
not inappropriate, level 0, category safe. -/
theorem Agent3_ImageSafetyAssessment.assess_allow_list_override
    (jsonParse : String → Option JSON) (toLowerCase : String → String) (lm : LanguageModelHost)
    (agent : Agent) (agent2Result : ImageDescription) (response : String) (term : String)
    (havail : (agent.ensure lm).isAvailable = true) (hresp : lm.session = .ok response)
    (hterm : term ∈ ["costume", "makeup", "cosplay", "fantasy", "edited", "halloween", "monster"])
    (hcontains : jsIncludes (toLowerCase agent2Result.description) term = true)
    (hlevel : (Agent3_ImageSafetyAssessment.parseResponse jsonParse response).level > 2) :
    (Agent3_ImageSafetyAssessment.assess jsonParse toLowerCase lm agent agent2Result).1 =
        Agent3_ImageSafetyAssessment.overrideVerdict ∧
    (Agent3_ImageSafetyAssessment.assess jsonParse toLowerCase lm agent agent2Result).1.isInappropriate
        = false ∧
    (Agent3_ImageSafetyAssessment.assess jsonParse toLowerCase lm agent agent2Result).1.level = 0 ∧
    (Agent3_ImageSafetyAssessment.assess jsonParse toLowerCase lm agent agent2Result).1.category
        = "safe" := by
  have hcost : Agent3_ImageSafetyAssessment.isCostume toLowerCase agent2Result.description = true := by
    simp only [List.mem_cons, List.mem_singleton, List.not_mem_nil, or_false] at hterm
    unfold Agent3_ImageSafetyAssessment.isCostume
    rcases hterm with h | h | h | h | h | h | h <;> subst h <;> simp [hcontains]
  have key := Agent3_ImageSafetyAssessment.assess_of_response jsonParse toLowerCase lm agent
    agent2Result response havail hresp
  rw [hcost] at key
  simp only [Bool.true_and, decide_eq_true_eq, hlevel, if_true] at key
  rw [key]
  exact ⟨rfl, rfl, rfl, rfl⟩

/-- The hypotheses of C12 hold for the description
`Vampire makeup, fangs, costume` and an engine answer of level 8: the
verdict has level 0 and category safe. -/
theorem Agent3_ImageSafetyAssessment.assess_allow_list_override_witness :
    (({ isAvailable := true } : Agent).ensure (Examples.hostAnswers Examples.violenceAnswer)).isAvailable
        = true ∧
    (Examples.hostAnswers Examples.violenceAnswer).session = .ok Examples.violenceAnswer ∧
    "makeup" ∈ ["costume", "makeup", "cosplay", "fantasy", "edited", "halloween", "monster"] ∧
    jsIncludes (Examples.toLowerCase Examples.vampireMakeup.description) "makeup" = true ∧
    (Agent3_ImageSafetyAssessment.parseResponse JSON.parse Examples.violenceAnswer).level = 8 ∧
    (Agent3_ImageSafetyAssessment.assess JSON.parse Examples.toLowerCase
        (Examples.hostAnswers Examples.violenceAnswer) { isAvailable := true }
        Examples.vampireMakeup).1.level = 0 ∧
    (Agent3_ImageSafetyAssessment.assess JSON.parse Examples.toLowerCase
        (Examples.hostAnswers Examples.violenceAnswer) { isAvailable := true }
        Examples.vampireMakeup).1.category = "safe" :=
  ⟨rfl, rfl, by decide, by decide, by decide,
    (Agent3_ImageSafetyAssessment.assess_allow_list_override JSON.parse Examples.toLowerCase
      (Examples.hostAnswers Examples.violenceAnswer) { isAvailable := true }
      Examples.vampireMakeup Examples.violenceAnswer "makeup" rfl rfl (by decide) (by decide)
      (by decide)).2.2.1,
    (Agent3_ImageSafetyAssessment.assess_allow_list_override JSON.parse Examples.toLowerCase
      (Examples.hostAnswers Examples.violenceAnswer) { isAvailable := true }
      Examples.vampireMakeup Examples.violenceAnswer "makeup" rfl rfl (by decide) (by decide)
      (by decide)).2.2.2⟩

/-- C13 fails as stated: the description `A vampire biting a person, blood
on the neck` contains none of costume, makeup, cosplay, fantasy, edited,
halloween, monster, the engine flags it at level 8, and `assess` returns the
override verdict (level 0, not flagged) instead of the repaired engine
verdict. -/
theorem Agent3_ImageSafetyAssessment.assess_overrides_on_vampire :
    (∀ term ∈ ["costume", "makeup", "cosplay", "fantasy", "edited", "halloween", "monster"],
      jsIncludes (Examples.toLowerCase Examples.vampireBite.description) term = false ∧
      jsIncludes Examples.vampireBite.description term = false) ∧
    (Agent3_ImageSafetyAssessment.parseResponse JSON.parse Examples.violenceAnswer).isInappropriate
      = true ∧
    (Agent3_ImageSafetyAssessment.parseResponse JSON.parse Examples.violenceAnswer).level = 8 ∧
    (Agent3_ImageSafetyAssessment.assess JSON.parse Examples.toLowerCase
        (Examples.hostAnswers Examples.violenceAnswer) { isAvailable := true }
        Examples.vampireBite).1.isInappropriate = false ∧
    (Agent3_ImageSafetyAssessment.assess JSON.parse Examples.toLowerCase
        (Examples.hostAnswers Examples.violenceAnswer) { isAvailable := true }
        Examples.vampireBite).1.level = 0 := by
  decide

/-- C13, amended: when the lower-cased description contains none of the ten
terms vampire, fangs, makeup, costume, cosplay, edited, manipulated, fantasy,
halloween, monster and the engine answers, `assess` returns the repaired
verdict of `parseResponse` unchanged, so a flagged verdict stays flagged. -/
theorem Agent3_ImageSafetyAssessment.assess_without_override
    (jsonParse : String → Option JSON) (toLowerCase : String → String) (lm : LanguageModelHost)
    (agent : Agent) (agent2Result : ImageDescription) (response : String)
    (havail : (agent.ensure lm).isAvailable = true) (hresp : lm.session = .ok response)
    (hnone : ∀ term ∈ ["vampire", "fangs", "makeup", "costume", "cosplay", "edited", "manipulated",
        "fantasy", "halloween", "monster"],
      jsIncludes (toLowerCase agent2Result.description) term = false) :
    (Agent3_ImageSafetyAssessment.assess jsonParse toLowerCase lm agent agent2Result).1 =
        Agent3_ImageSafetyAssessment.parseResponse jsonParse response ∧
    (Agent3_ImageSafetyAssessment.assess jsonParse toLowerCase lm agent agent2Result).1.isInappropriate
        = (Agent3_ImageSafetyAssessment.parseResponse jsonParse response).isInappropriate := by
  have hcost : Agent3_ImageSafetyAssessment.isCostume toLowerCase agent2Result.description = false := by
    unfold Agent3_ImageSafetyAssessment.isCostume
    simp only [List.mem_cons, List.mem_singleton, List.not_mem_nil, or_false, forall_eq_or_imp,
      forall_eq] at hnone
    obtain ⟨h1, h2, h3, h4, h5, h6, h7, h8, h9, h10⟩ := hnone
    simp [h1, h2, h3, h4, h5, h6, h7, h8, h9, h10]
  have key := Agent3_ImageSafetyAssessment.assess_of_response jsonParse toLowerCase lm agent
    agent2Result response havail hresp
  rw [hcost] at key
  simp only [Bool.false_and, Bool.false_eq_true, if_false] at key
  rw [key]
  exact ⟨rfl, rfl⟩

/-- The hypotheses of the amended C13 hold for a description of a street
fight and an engine answer of level 8: the verdict stays flagged at
level 8. -/
theorem Agent3_ImageSafetyAssessment.assess_without_override_witness :
    ((({ isAvailable := true } : Agent).ensure
        (Examples.hostAnswers Examples.violenceAnswer)).isAvailable = true ∧
      (Examples.hostAnswers Examples.violenceAnswer).session = .ok Examples.violenceAnswer ∧
      (∀ term ∈ ["vampire", "fangs", "makeup", "costume", "cosplay", "edited", "manipulated",
          "fantasy", "halloween", "monster"],
        jsIncludes (Examples.toLowerCase Examples.streetFight.description) term = false)) ∧
    (Agent3_ImageSafetyAssessment.assess JSON.parse Examples.toLowerCase
        (Examples.hostAnswers Examples.violenceAnswer) { isAvailable := true }
        Examples.streetFight).1 =
      Agent3_ImageSafetyAssessment.parseResponse JSON.parse Examples.violenceAnswer ∧
    (Agent3_ImageSafetyAssessment.parseResponse JSON.parse Examples.violenceAnswer).isInappropriate
      = true ∧
    (Agent3_ImageSafetyAssessment.parseResponse JSON.parse Examples.violenceAnswer).level = 8 :=
  ⟨⟨rfl, rfl, by decide⟩,
    (Agent3_ImageSafetyAssessment.assess_without_override JSON.parse Examples.toLowerCase
      (Examples.hostAnswers Examples.violenceAnswer) { isAvailable := true }
      Examples.streetFight Examples.violenceAnswer rfl rfl (by decide)).1,
    by decide, by decide⟩

/-- C14 fails as stated: for the parseable answer with `isInappropriate`
false and level 3, `parseResponse` returns a verdict that is not
inappropriate and has level 3, above 2. -/
theorem Agent3_ImageSafetyAssessment.parseResponse_keeps_level_three :
    (matchBraces Examples.levelThreeAnswer).isSome = true ∧
    (JSON.parse Examples.levelThreeAnswer).isSome = true ∧
    (Agent3_ImageSafetyAssessment.parseResponse JSON.parse Examples.levelThreeAnswer).isInappropriate
      = false ∧
    (Agent3_ImageSafetyAssessment.parseResponse JSON.parse Examples.levelThreeAnswer).level = 3 ∧
    ¬ (Agent3_ImageSafetyAssessment.parseResponse JSON.parse Examples.levelThreeAnswer).level ≤ 2 := by
  decide

/-- After the three repairs an assessment that is not inappropriate has a
level of at most 3. -/
theorem Agent3_ImageSafetyAssessment.repair_level_le_three
    (a : Agent3_ImageSafetyAssessment.Assessment)
    (h : (Agent3_ImageSafetyAssessment.repair a).isInappropriate.toBool = false) :
    (Agent3_ImageSafetyAssessment.repair a).level ≤ 3 := by
  unfold Agent3_ImageSafetyAssessment.repair at h ⊢
  generalize Agent3_ImageSafetyAssessment.repairLowLevel
    (Agent3_ImageSafetyAssessment.repairSafeCategory a) = b at h ⊢
  unfold Agent3_ImageSafetyAssessment.repairNotInappropriate at h ⊢
  by_cases hc : b.isInappropriate = Agent3_ImageSafetyAssessment.Flag.isFalse ∧ b.level > 3
  · rw [if_pos hc]
    simp only
    omega
  · rw [if_neg hc] at h ⊢
    have hf : b.isInappropriate = Agent3_ImageSafetyAssessment.Flag.isFalse := by
      cases hb : b.isInappropriate <;> simp [hb, Agent3_ImageSafetyAssessment.Flag.toBool] at h ⊢
    have : ¬ b.level > 3 := fun hl => hc ⟨hf, hl⟩
    omega

/-- C14, amended: for every parseable engine response, the verdict returned
by `parseResponse` satisfies: not inappropriate implies level at most 3 (the
third repair fires only above 3, as its comment says). -/
theorem Agent3_ImageSafetyAssessment.parseResponse_level_le_three
    (jsonParse : String → Option JSON) (response jsonMatch : String) (parsed : JSON)
    (hmatch : matchBraces response = some jsonMatch) (hparse : jsonParse jsonMatch = some parsed)
    (hflag : (Agent3_ImageSafetyAssessment.parseResponse jsonParse response).isInappropriate = false) :
    (Agent3_ImageSafetyAssessment.parseResponse jsonParse response).level ≤ 3 := by
  unfold Agent3_ImageSafetyAssessment.parseResponse at hflag ⊢
  simp only [hmatch, hparse] at hflag ⊢
  exact Agent3_ImageSafetyAssessment.repair_level_le_three _ hflag

/-- The hypotheses of the amended C14 hold for an answer that is not flagged
and gives level 6: the repaired level is 2, at most 3. -/
theorem Agent3_ImageSafetyAssessment.parseResponse_level_le_three_witness :
    (matchBraces "\x7b\"isInappropriate\": false, \"level\": 6\x7d" =
        some "\x7b\"isInappropriate\": false, \"level\": 6\x7d" ∧
      JSON.parse "\x7b\"isInappropriate\": false, \"level\": 6\x7d" =
        some (JSON.obj [("level", JSON.num 6), ("isInappropriate", JSON.bool false)]) ∧
      (Agent3_ImageSafetyAssessment.parseResponse JSON.parse
        "\x7b\"isInappropriate\": false, \"level\": 6\x7d").isInappropriate = false) ∧
    (Agent3_ImageSafetyAssessment.parseResponse JSON.parse
        "\x7b\"isInappropriate\": false, \"level\": 6\x7d").level ≤ 3 ∧
    (Agent3_ImageSafetyAssessment.parseResponse JSON.parse
        "\x7b\"isInappropriate\": false, \"level\": 6\x7d").level = 2 :=
  ⟨⟨by decide, by rfl, by decide⟩,
    Agent3_ImageSafetyAssessment.parseResponse_level_le_three JSON.parse
      "\x7b\"isInappropriate\": false, \"level\": 6\x7d"
      "\x7b\"isInappropriate\": false, \"level\": 6\x7d"
      (JSON.obj [("level", JSON.num 6), ("isInappropriate", JSON.bool false)])
      (by decide) (by rfl) (by decide),
    by decide⟩

/-- C15: the severity of a level is `CRITICAL` from 9, `HIGH` from 7 to 8,
`MEDIUM` from 5 to 6 and `LOW` below (so 9, 7, 5, 2 give `CRITICAL`, `HIGH`,
`MEDIUM`, `LOW`); it does not decrease when the level grows, in the order
`LOW < MEDIUM < HIGH < CRITICAL`; and the bucket of the coordinator's
`assessThreatLevel` is the dashboard's `getThreatLevelText` of the same
level. -/
theorem severity_buckets_monotone (a b : Int) (agent3Level count : Option Int) (hab : a ≤ b) :
    severityRank (Agent4_FinalCoordinator.severityOf a) ≤
        severityRank (Agent4_FinalCoordinator.severityOf b) ∧
    Agent4_FinalCoordinator.severityOf a = ParentDashboard.getThreatLevelText a ∧
    (Agent4_FinalCoordinator.assessThreatLevel a agent3Level count).severity =
        ParentDashboard.getThreatLevelText
          (Agent4_FinalCoordinator.assessThreatLevel a agent3Level count).finalLevel ∧
    (9 ≤ a → Agent4_FinalCoordinator.severityOf a = "CRITICAL") ∧
    (7 ≤ a ∧ a < 9 → Agent4_FinalCoordinator.severityOf a = "HIGH") ∧
    (5 ≤ a ∧ a < 7 → Agent4_FinalCoordinator.severityOf a = "MEDIUM") ∧
    (a < 5 → Agent4_FinalCoordinator.severityOf a = "LOW") ∧
    Agent4_FinalCoordinator.severityOf 9 = "CRITICAL" ∧
    Agent4_FinalCoordinator.severityOf 7 = "HIGH" ∧
    Agent4_FinalCoordinator.severityOf 5 = "MEDIUM" ∧
    Agent4_FinalCoordinator.severityOf 2 = "LOW" := by
  refine ⟨?_, rfl, rfl, ?_, ?_, ?_, ?_, by decide, by decide, by decide, by decide⟩
  · unfold Agent4_FinalCoordinator.severityOf
    by_cases ha9 : a ≥ 9
    · have hb9 : b ≥ 9 := by omega
      rw [if_pos ha9, if_pos hb9]
    · rw [if_neg ha9]
      by_cases hb9 : b ≥ 9
      · rw [if_pos hb9]
        split <;> [decide; (split <;> decide)]
      · rw [if_neg hb9]
        by_cases ha7 : a ≥ 7
        · have hb7 : b ≥ 7 := by omega
          rw [if_pos ha7, if_pos hb7]
        · rw [if_neg ha7]
          by_cases hb7 : b ≥ 7
          · rw [if_pos hb7]
            split <;> decide
          · rw [if_neg hb7]
            by_cases ha5 : a ≥ 5
            · have hb5 : b ≥ 5 := by omega
              rw [if_pos ha5, if_pos hb5]
            · rw [if_neg ha5]
              split <;> decide
  · intro h
    unfold Agent4_FinalCoordinator.severityOf
    rw [if_pos h]
  · intro h
    unfold Agent4_FinalCoordinator.severityOf
    rw [if_neg (by omega), if_pos (by omega)]
  · intro h
    unfold Agent4_FinalCoordinator.severityOf
    rw [if_neg (by omega), if_neg (by omega), if_pos (by omega)]
  · intro h
    unfold Agent4_FinalCoordinator.severityOf
    rw [if_neg (by omega), if_neg (by omega), if_neg (by omega)]

/-- The hypothesis of C15 holds for the levels 6 and 8: `MEDIUM` is below
`HIGH`. -/
theorem severity_buckets_monotone_witness :
    (6 : Int) ≤ 8 ∧
    severityRank (Agent4_FinalCoordinator.severityOf 6) ≤
      severityRank (Agent4_FinalCoordinator.severityOf 8) ∧
    Agent4_FinalCoordinator.severityOf 6 = "MEDIUM" ∧
    Agent4_FinalCoordinator.severityOf 8 = "HIGH" :=
  ⟨by decide, (severity_buckets_monotone 6 8 none none (by decide)).1, by decide, by decide⟩

/-- C16: for reporter levels within 0..10 (an absent `agent3Level` counting
as 0) and a pattern count of at least 0 (absent counting as 0),
`assessThreatLevel` returns `min 10 (max a1 a3 + b)` with `b = 2` from a
count of 3, `b = 1` for a count of 2 and `b = 0` otherwise; the result is at
least `max a1 a3` and at most 10. -/
theorem Agent4_FinalCoordinator.assessThreatLevel_score (agent1Level : Int)
    (agent3Level conversationPatternCount : Option Int)
    (h1 : 0 ≤ agent1Level ∧ agent1Level ≤ 10)
    (h3 : 0 ≤ agent3Level.getD 0 ∧ agent3Level.getD 0 ≤ 10)
    (hc : 0 ≤ conversationPatternCount.getD 0) :
    (Agent4_FinalCoordinator.assessThreatLevel agent1Level agent3Level
        conversationPatternCount).finalLevel =
      min 10 (max agent1Level (agent3Level.getD 0) +
        (if conversationPatternCount.getD 0 ≥ 3 then 2
         else if conversationPatternCount.getD 0 = 2 then 1 else 0)) ∧
    max agent1Level (agent3Level.getD 0) ≤
      (Agent4_FinalCoordinator.assessThreatLevel agent1Level agent3Level
        conversationPatternCount).finalLevel ∧
    (Agent4_FinalCoordinator.assessThreatLevel agent1Level agent3Level
        conversationPatternCount).finalLevel ≤ 10 := by
  simp only [Agent4_FinalCoordinator.assessThreatLevel]
  generalize agent3Level.getD 0 = a3 at h3 ⊢
  generalize conversationPatternCount.getD 0 = c at hc ⊢
  have hmax : max agent1Level a3 ≤ 10 := max_le h1.2 h3.2
  have hmax0 : 0 ≤ max agent1Level a3 := le_trans h1.1 (le_max_left _ _)
  generalize max agent1Level a3 = m at hmax hmax0 ⊢
  by_cases hc3 : c ≥ 3
  · simp only [hc3, if_true, min_def]
    split_ifs <;> refine ⟨?_, ?_, ?_⟩ <;> first | trivial | omega
  · by_cases hc2 : c ≥ 2
    · have hceq : c = 2 := by omega
      subst hceq
      simp only [min_def]
      split_ifs <;> refine ⟨?_, ?_, ?_⟩ <;> first | trivial | omega
    · have hcne : ¬ c = 2 := by omega
      simp only [hc3, hc2, hcne, if_false, min_def]
      split_ifs <;> refine ⟨?_, ?_, ?_⟩ <;> first | trivial | omega

/-- The hypotheses of C16 hold for levels 8 and 6 with three concerning
messages: the score is 10. -/
theorem Agent4_FinalCoordinator.assessThreatLevel_score_witness :
    ((0 : Int) ≤ 8 ∧ (8 : Int) ≤ 10) ∧
    ((0 : Int) ≤ (some (6 : Int)).getD 0 ∧ (some (6 : Int)).getD 0 ≤ 10) ∧
    (0 : Int) ≤ (some (3 : Int)).getD 0 ∧
    (Agent4_FinalCoordinator.assessThreatLevel 8 (some 6) (some 3)).finalLevel = 10 ∧
    (Agent4_FinalCoordinator.assessThreatLevel 8 (some 6) (some 3)).finalLevel ≤ 10 :=
  ⟨by decide, by decide, by decide, by decide,
    (Agent4_FinalCoordinator.assessThreatLevel_score 8 (some 6) (some 3) (by decide) (by decide)
      (by decide)).2.2⟩

/-- C17 fails as stated: for a reporter level of 9 and the parseable engine
answer with `finalLevel` 99, `coordinate` returns `finalLevel = 99`. -/
theorem Agent4_FinalCoordinator.coordinate_passes_level_through :
    Examples.groomingVerdict.level = 9 ∧
    (Agent4_FinalCoordinator.coordinate JSON.parse (Examples.hostAnswers Examples.outOfRangeAnswer)
        { isAvailable := true }
        { agent1 := some Examples.groomingVerdict, agent2 := none, agent3 := none }
        (MemoryRef.ofClass ConversationMemory.new)).1.finalLevel = 99 ∧
    ¬ (Agent4_FinalCoordinator.coordinate JSON.parse (Examples.hostAnswers Examples.outOfRangeAnswer)
        { isAvailable := true }
        { agent1 := some Examples.groomingVerdict, agent2 := none, agent3 := none }
        (MemoryRef.ofClass ConversationMemory.new)).1.finalLevel ≤ 10 := by
  decide

/-- The fallback verdict of the coordinator has a level within 0..10 when the
reporter levels are. -/
theorem Agent4_FinalCoordinator.getFallbackResult_level_in_range (reporterResults : ReporterResults)
    (h1 : ∀ a, reporterResults.agent1 = some a → 0 ≤ a.level ∧ a.level ≤ 10)
    (h3 : ∀ a, reporterResults.agent3 = some a → 0 ≤ a.level ∧ a.level ≤ 10) :
    0 ≤ (Agent4_FinalCoordinator.getFallbackResult reporterResults).finalLevel ∧
    (Agent4_FinalCoordinator.getFallbackResult reporterResults).finalLevel ≤ 10 := by
  have e1 : 0 ≤ jsOrInt (reporterResults.agent1.map fun a => a.level) 0 ∧
      jsOrInt (reporterResults.agent1.map fun a => a.level) 0 ≤ 10 := by
    cases h : reporterResults.agent1 with
    | none => simp [jsOrInt]
    | some a =>
      have := h1 a h
      simp only [Option.map_some', jsOrInt]
      split <;> omega
  have e3 : 0 ≤ jsOrInt (reporterResults.agent3.map fun a => a.level) 0 ∧
      jsOrInt (reporterResults.agent3.map fun a => a.level) 0 ≤ 10 := by
    cases h : reporterResults.agent3 with
    | none => simp [jsOrInt]
    | some a =>
      have := h3 a h
      simp only [Option.map_some', jsOrInt]
      split <;> omega
  simp only [Agent4_FinalCoordinator.getFallbackResult]
  exact ⟨le_trans e1.1 (le_max_left _ _), max_le e1.2 e3.2⟩

/-- C17, amended: when the reporter levels are within 0..10 and the engine's
own `finalLevel`, whenever its answer parses, is absent or within 0..10, the
verdict of `coordinate` has `finalLevel` within 0..10, for every engine
outcome; the engine's `finalLevel` is passed through without a clamp. -/
theorem Agent4_FinalCoordinator.coordinate_level_in_range (jsonParse : String → Option JSON)
    (lm : LanguageModelHost) (agent : Agent) (reporterResults : ReporterResults)
    (conversationMemory : MemoryRef)
    (h1 : ∀ a, reporterResults.agent1 = some a → 0 ≤ a.level ∧ a.level ≤ 10)
    (h3 : ∀ a, reporterResults.agent3 = some a → 0 ≤ a.level ∧ a.level ≤ 10)
    (hengine : ∀ response jsonMatch parsed, lm.session = .ok response →
      matchBraces response = some jsonMatch → jsonParse jsonMatch = some parsed →
      0 ≤ jsOrInt (JSON.asInt (parsed.get "finalLevel")) 0 ∧
        jsOrInt (JSON.asInt (parsed.get "finalLevel")) 0 ≤ 10) :
    0 ≤ (Agent4_FinalCoordinator.coordinate jsonParse lm agent reporterResults
        conversationMemory).1.finalLevel ∧
    (Agent4_FinalCoordinator.coordinate jsonParse lm agent reporterResults
        conversationMemory).1.finalLevel ≤ 10 := by
  have hfb := Agent4_FinalCoordinator.getFallbackResult_level_in_range reporterResults h1 h3
  have hempty := Agent4_FinalCoordinator.getFallbackResult_level_in_range
    { agent1 := none, agent2 := none, agent3 := none } (by simp) (by simp)
  unfold Agent4_FinalCoordinator.coordinate
  simp only
  split
  · exact hfb
  · split
    · rename_i v hv
      unfold Agent4_FinalCoordinator.coordinateBody at hv
      split at hv
      · simp at hv
      · split at hv
        · simp at hv
        · rename_i response hresp
          split at hv
          · simp at hv
          · simp only [Except.ok.injEq] at hv
            subst hv
            simp only
            unfold Agent4_FinalCoordinator.parseResponse
            split
            · rename_i jsonMatch hm
              split
              · rename_i parsed hp
                exact hengine response jsonMatch parsed hresp hm hp
              · exact hempty
            · exact hempty
    · exact hfb

/-- The hypotheses of the amended C17 hold for a reporter level of 9 and an
engine answer with `finalLevel` 8: the verdict has level 8. -/
theorem Agent4_FinalCoordinator.coordinate_level_in_range_witness :
    (Agent4_FinalCoordinator.coordinate JSON.parse
        (Examples.hostAnswers "\x7b\"finalLevel\": 8, \"severity\": \"HIGH\"\x7d")
        { isAvailable := true }
        { agent1 := some Examples.groomingVerdict, agent2 := none, agent3 := none }
        (MemoryRef.ofClass ConversationMemory.new)).1.finalLevel = 8 ∧
    (0 ≤ (Agent4_FinalCoordinator.coordinate JSON.parse
        (Examples.hostAnswers "\x7b\"finalLevel\": 8, \"severity\": \"HIGH\"\x7d")
        { isAvailable := true }
        { agent1 := some Examples.groomingVerdict, agent2 := none, agent3 := none }
        (MemoryRef.ofClass ConversationMemory.new)).1.finalLevel ∧
      (Agent4_FinalCoordinator.coordinate JSON.parse
        (Examples.hostAnswers "\x7b\"finalLevel\": 8, \"severity\": \"HIGH\"\x7d")
        { isAvailable := true }
        { agent1 := some Examples.groomingVerdict, agent2 := none, agent3 := none }
        (MemoryRef.ofClass ConversationMemory.new)).1.finalLevel ≤ 10) :=
  ⟨by decide,
    Agent4_FinalCoordinator.coordinate_level_in_range JSON.parse
      (Examples.hostAnswers "\x7b\"finalLevel\": 8, \"severity\": \"HIGH\"\x7d")
      { isAvailable := true }
      { agent1 := some Examples.groomingVerdict, agent2 := none, agent3 := none }
      (MemoryRef.ofClass ConversationMemory.new)
      (by
        intro a ha
        simp only [Option.some.injEq] at ha
        subst ha
        decide)
      (by simp)
      (by
        intro response jsonMatch parsed hresp hm hp
        simp only [Examples.hostAnswers, Except.ok.injEq] at hresp
        subst hresp
        have hm2 : jsonMatch = "\x7b\"finalLevel\": 8, \"severity\": \"HIGH\"\x7d" := by
          have : matchBraces "\x7b\"finalLevel\": 8, \"severity\": \"HIGH\"\x7d" =
            some "\x7b\"finalLevel\": 8, \"severity\": \"HIGH\"\x7d" := by decide
          rw [this] at hm
          exact (Option.some.inj hm).symm
        subst hm2
        have hp2 : JSON.parse "\x7b\"finalLevel\": 8, \"severity\": \"HIGH\"\x7d" =
            some (JSON.obj [("severity", JSON.str "HIGH"), ("finalLevel", JSON.num 8)]) := by rfl
        rw [hp2] at hp
        have hp3 := (Option.some.inj hp).symm
        subst hp3
        decide)⟩

/-- The list written by `storeIncident` is the last `min 100 (k + 1)` of the
`k` incidents read followed by the new one; it has at most 100 entries and
ends with the new one. -/
theorem StorageManager.pushAndCap_spec (incidents : List StoredIncident) (x : StoredIncident) :
    StorageManager.pushAndCap incidents x =
        (incidents ++ [x]).drop (incidents.length + 1 - min 100 (incidents.length + 1)) ∧
    (StorageManager.pushAndCap incidents x).length = min 100 (incidents.length + 1) ∧
    (StorageManager.pushAndCap incidents x).length ≤ 100 ∧
    (StorageManager.pushAndCap incidents x).getLast? = some x := by
  unfold StorageManager.pushAndCap StorageManager.MAX_INCIDENTS
  simp only [List.length_append, List.length_singleton]
  by_cases h : incidents.length + 1 > 100
  · rw [if_pos h]
    have e : incidents.length + 1 - min 100 (incidents.length + 1) = incidents.length + 1 - 100 := by
      omega
    rw [e]
    have hle : incidents.length + 1 - 100 ≤ incidents.length := by omega
    refine ⟨rfl, by simp; omega, by simp; omega, ?_⟩
    rw [List.drop_append_of_le_length hle]
    simp
  · rw [if_neg h]
    have e : incidents.length + 1 - min 100 (incidents.length + 1) = 0 := by omega
    rw [e]
    refine ⟨by simp, by simp; omega, by simp; omega, by simp⟩

/-- The method `updateStorageStatus` leaves the key `incidents` alone. -/
theorem StorageManager.updateStorageStatus_incidents (host : StorageHost) (st : ChromeStorage) :
    (StorageManager.updateStorageStatus host st).incidents = st.incidents := by
  unfold StorageManager.updateStorageStatus
  simp only
  split
  · rfl
  · split
    · rfl
    · split
      · split <;> rfl
      · rfl

/-- C18: when `storeIncident` succeeds, the stored list is the most recent
`min 100 (k + 1)` entries of the `k` incidents kept after any cleanup
followed by the truncated new incident, in order; it has at most 100
entries, its last entry is the truncated new incident, whose content is the
first `min 500 length` characters of the original content, and the returned
`incidentCount` is the stored length. -/
theorem StorageManager.storeIncident_postcondition (host : StorageHost) (st : ChromeStorage)
    (incident : Incident)
    (hok : (StorageManager.storeIncident host st incident).1.success = true) :
    ∃ stored : List StoredIncident,
      (StorageManager.storeIncident host st incident).2.incidents = some stored ∧
      stored =
        (((StorageManager.cleanupIfNearLimit host st).incidents.getD []) ++
          [StorageManager.truncateIncident host.now incident]).drop
          (((StorageManager.cleanupIfNearLimit host st).incidents.getD []).length + 1 -
            min 100 (((StorageManager.cleanupIfNearLimit host st).incidents.getD []).length + 1)) ∧
      stored.length ≤ 100 ∧
      stored.getLast? = some (StorageManager.truncateIncident host.now incident) ∧
      (StorageManager.truncateIncident host.now incident).content =
        some (String.mk (incident.content.data.take (min 500 incident.content.data.length))) ∧
      (StorageManager.storeIncident host st incident).1.incidentCount = some stored.length := by
  have hspec := StorageManager.pushAndCap_spec
    ((StorageManager.cleanupIfNearLimit host st).incidents.getD [])
    (StorageManager.truncateIncident host.now incident)
  have hcontent : (StorageManager.truncateIncident host.now incident).content =
      some (String.mk (incident.content.data.take (min 500 incident.content.data.length))) := by
    simp only [StorageManager.truncateIncident, StorageManager.MAX_CONTENT_LENGTH]
    congr 2
    by_cases h : 500 ≤ incident.content.data.length
    · rw [Nat.min_eq_left h]
    · rw [Nat.min_eq_right (by omega), List.take_of_length_le (by omega), List.take_length]
  unfold StorageManager.storeIncident at hok ⊢
  simp only at hok ⊢
  split at hok
  · simp at hok
  · rename_i hget
    split at hok
    · simp at hok
    · rename_i hset
      simp only [hget, hset]
      refine ⟨_, ?_, hspec.1, hspec.2.2.1, hspec.2.2.2, hcontent, rfl⟩
      rw [StorageManager.updateStorageStatus_incidents]

/-- The hypothesis of C18 holds for storing the grooming incident into an
empty store on a host that never rejects: the store then holds exactly the
truncated incident and the count is 1. -/
theorem StorageManager.storeIncident_postcondition_witness :
    (StorageManager.storeIncident Examples.quietHost (Examples.storageWith none)
        Examples.groomingIncident).1.success = true ∧
    (StorageManager.storeIncident Examples.quietHost (Examples.storageWith none)
        Examples.groomingIncident).2.incidents =
      some [StorageManager.truncateIncident 1700000000500 Examples.groomingIncident] ∧
    (StorageManager.storeIncident Examples.quietHost (Examples.storageWith none)
        Examples.groomingIncident).1.incidentCount = some 1 ∧
    ∃ stored : List StoredIncident,
      (StorageManager.storeIncident Examples.quietHost (Examples.storageWith none)
        Examples.groomingIncident).2.incidents = some stored ∧ stored.length ≤ 100 :=
  ⟨by decide, by decide, by decide,
    (StorageManager.storeIncident_postcondition Examples.quietHost (Examples.storageWith none)
      Examples.groomingIncident (by decide)).elim
      fun stored h => ⟨stored, h.1, h.2.2.1⟩⟩

/-- The values of `Math.floor(n * 0.7)` for some `n`; for 90 the double
product is below 63. -/
theorem mathFloorTimes07_examples :
    mathFloorTimes07 0 = 0 ∧ mathFloorTimes07 1 = 0 ∧ mathFloorTimes07 2 = 1 ∧
    mathFloorTimes07 3 = 2 ∧ mathFloorTimes07 10 = 7 ∧ mathFloorTimes07 90 = 62 ∧
    mathFloorTimes07 100 = 70 := by
  decide

/-- Soft cleanup when `Math.floor(n * 0.7)` is at least 1 and the store does
not reject: the stored list is the `keepCount` most recent incidents, in
order. -/
theorem StorageManager.cleanup_soft_of_pos (host : StorageHost) (st : ChromeStorage)
    (incidents : List StoredIncident)
    (hget : host.rejects StorageCall.cleanupGet = none)
    (hset : host.rejects StorageCall.cleanupSet = none)
    (hinc : st.incidents = some incidents) (hne : incidents ≠ [])
    (hpos : 1 ≤ mathFloorTimes07 incidents.length) :
    (StorageManager.cleanup host st false).incidents =
      some (incidents.drop (incidents.length - mathFloorTimes07 incidents.length)) := by
  have hlen : ¬ incidents.length = 0 := by
    intro h
    exact hne (List.length_eq_zero.mp h)
  have hneg : (-(mathFloorTimes07 incidents.length : Int)) < 0 := by omega
  have habs : (-(mathFloorTimes07 incidents.length : Int)).natAbs =
      mathFloorTimes07 incidents.length := by omega
  unfold StorageManager.cleanup
  simp only [hget, hset, hinc, Option.getD_some, hlen, if_false]
  split <;> simp [StorageManager.keptIncidents, jsSlice, hneg, habs]

/-- C19: for a store that holds one incident, soft cleanup computes
`keepCount = Math.floor(1 * 0.7) = 0`, and `slice(-0)` keeps the whole list:
the incident stays stored and `incidentsRemoved` is 0, where the claim has
the `floor(0.7 * 1) = 0` most recent incidents stored. -/
theorem StorageManager.cleanup_soft_keeps_single_incident :
    mathFloorTimes07 [Examples.stored 1 9].length = 0 ∧
    (StorageManager.cleanup Examples.quietHost (Examples.storageWith (some [Examples.stored 1 9]))
      false).incidents = some [Examples.stored 1 9] ∧
    StorageManager.keptIncidents [Examples.stored 1 9] false ≠
      [Examples.stored 1 9].drop ([Examples.stored 1 9].length - 0) ∧
    (StorageManager.cleanup Examples.quietHost (Examples.storageWith (some [Examples.stored 1 9]))
      false).incidentsRemoved = some 0 := by
  decide

/-- C20: for a non-empty incident list and a store that does not reject,
emergency cleanup stores exactly the last `min 50 h` elements of the
subsequence of incidents with level at least 7, `h` being its length, in the
original order; every stored incident has level at least 7 and at most 50
are stored. -/
theorem StorageManager.cleanup_emergency (host : StorageHost) (st : ChromeStorage)
    (incidents : List StoredIncident)
    (hget : host.rejects StorageCall.cleanupGet = none)
    (hset : host.rejects StorageCall.cleanupSet = none)
    (hinc : st.incidents = some incidents) (hne : incidents ≠ []) :
    ∃ stored : List StoredIncident,
      (StorageManager.cleanup host st true).incidents = some stored ∧
      stored = (incidents.filter fun i => decide (i.level ≥ 7)).drop
        ((incidents.filter fun i => decide (i.level ≥ 7)).length -
          min 50 (incidents.filter fun i => decide (i.level ≥ 7)).length) ∧
      stored.length = min 50 (incidents.filter fun i => decide (i.level ≥ 7)).length ∧
      stored.length ≤ 50 ∧
      ∀ i ∈ stored, i.level ≥ 7 := by
  have hlen : ¬ incidents.length = 0 := by
    intro h
    exact hne (List.length_eq_zero.mp h)
  have hkept : StorageManager.keptIncidents incidents true =
      (incidents.filter fun i => decide (i.level ≥ 7)).drop
        ((incidents.filter fun i => decide (i.level ≥ 7)).length -
          min 50 (incidents.filter fun i => decide (i.level ≥ 7)).length) := by
    simp only [StorageManager.keptIncidents, if_true, jsSlice]
    rw [if_pos (by decide)]
    congr 1
    have : (-50 : Int).natAbs = 50 := by decide
    rw [this]
    omega
  refine ⟨StorageManager.keptIncidents incidents true, ?_, hkept, ?_, ?_, ?_⟩
  · unfold StorageManager.cleanup
    simp only [hget, hset, hinc, Option.getD_some, hlen, if_false]
    split <;> rfl
  · rw [hkept, List.length_drop]
    omega
  · rw [hkept, List.length_drop]
    omega
  · intro i hi
    rw [hkept] at hi
    have hmem := List.mem_of_mem_drop hi
    have := (List.mem_filter.mp hmem).2
    simpa using this

/-- The hypotheses of C20 hold for a store with incidents of levels 9, 3
and 7 on a host that never rejects: the incidents of levels 9 and 7 stay, in
order. -/
theorem StorageManager.cleanup_emergency_witness :
    (Examples.quietHost.rejects StorageCall.cleanupGet = none ∧
      Examples.quietHost.rejects StorageCall.cleanupSet = none ∧
      (Examples.storageWith
        (some [Examples.stored 1 9, Examples.stored 2 3, Examples.stored 3 7])).incidents =
        some [Examples.stored 1 9, Examples.stored 2 3, Examples.stored 3 7] ∧
      [Examples.stored 1 9, Examples.stored 2 3, Examples.stored 3 7] ≠ []) ∧
    (StorageManager.cleanup Examples.quietHost
      (Examples.storageWith
        (some [Examples.stored 1 9, Examples.stored 2 3, Examples.stored 3 7])) true).incidents =
      some [Examples.stored 1 9, Examples.stored 3 7] ∧
    ∃ stored : List StoredIncident,
      (StorageManager.cleanup Examples.quietHost
        (Examples.storageWith
          (some [Examples.stored 1 9, Examples.stored 2 3, Examples.stored 3 7])) true).incidents =
        some stored ∧ stored.length ≤ 50 :=
  ⟨⟨rfl, rfl, rfl, by simp⟩, by decide,
    (StorageManager.cleanup_emergency Examples.quietHost
      (Examples.storageWith
        (some [Examples.stored 1 9, Examples.stored 2 3, Examples.stored 3 7]))
      [Examples.stored 1 9, Examples.stored 2 3, Examples.stored 3 7] rfl rfl rfl (by simp)).elim
      fun stored h => ⟨stored, h.1, h.2.2.2.1⟩⟩

/-- C21: against the limit of 10485760 bytes, `checkStorageSize` reports
`isNearLimit` exactly when the used size is above 80% of the limit (above
8388608 bytes) and `isFull` exactly when it is above 95% (above 9961472
bytes), so `isFull` implies `isNearLimit`; and `storeIncident` begins with no
cleanup when the usage is at most 80%, the soft cleanup when it is above 80%
and at most 95%, and the emergency cleanup when it is above 95%. -/
theorem StorageManager.cleanup_selection_by_usage (host : StorageHost) (site : StorageCall)
    (st : ChromeStorage) :
    (StorageManager.checkStorageSize host site st).limit = 10485760 ∧
    ((StorageManager.checkStorageSize host site st).isNearLimit = true ↔
      (StorageManager.checkStorageSize host site st).used * 100 > 80 * 10485760) ∧
    ((StorageManager.checkStorageSize host site st).isFull = true ↔
      (StorageManager.checkStorageSize host site st).used * 100 > 95 * 10485760) ∧
    ((StorageManager.checkStorageSize host site st).isNearLimit = true ↔
      (StorageManager.checkStorageSize host site st).used > 8388608) ∧
    ((StorageManager.checkStorageSize host site st).isFull = true ↔
      (StorageManager.checkStorageSize host site st).used > 9961472) ∧
    (!(StorageManager.checkStorageSize host site st).isFull ||
      (StorageManager.checkStorageSize host site st).isNearLimit) = true ∧
    StorageManager.cleanupIfNearLimit host st =
      (if (StorageManager.checkStorageSize host StorageCall.sizeGet st).used * 100 ≤ 80 * 10485760
        then st
      else if (StorageManager.checkStorageSize host StorageCall.sizeGet st).used * 100 ≤
          95 * 10485760 then
        StorageManager.cleanup host st false
      else StorageManager.cleanup host st true) := by
  refine ⟨?_, ?_, ?_, ?_, ?_, ?_, ?_⟩
  · unfold StorageManager.checkStorageSize
    split <;> rfl
  · unfold StorageManager.checkStorageSize StorageManager.STORAGE_LIMIT
    split <;> simp
  · unfold StorageManager.checkStorageSize StorageManager.STORAGE_LIMIT
    split <;> simp
  · unfold StorageManager.checkStorageSize StorageManager.STORAGE_LIMIT
    split
    · simp
    · simp only [decide_eq_true_eq]
      omega
  · unfold StorageManager.checkStorageSize StorageManager.STORAGE_LIMIT
    split
    · simp
    · simp only [decide_eq_true_eq]
      omega
  · unfold StorageManager.checkStorageSize StorageManager.STORAGE_LIMIT
    split
    · rfl
    · simp only [Bool.or_eq_true, Bool.not_eq_true', decide_eq_false_iff_not, decide_eq_true_eq]
      omega
  · unfold StorageManager.cleanupIfNearLimit StorageManager.checkStorageSize
      StorageManager.STORAGE_LIMIT
    cases host.rejects StorageCall.sizeGet with
    | some e => simp
    | none =>
      simp only [decide_eq_true_eq]
      by_cases h80 : host.byteSize st * 100 > 80 * 10485760
      · have hn : ¬ host.byteSize st * 100 ≤ 80 * 10485760 := by omega
        rw [if_pos h80, if_neg hn]
        by_cases h95 : host.byteSize st * 100 > 95 * 10485760
        · have hn95 : ¬ host.byteSize st * 100 ≤ 95 * 10485760 := by omega
          rw [if_neg hn95]
          simp [h95]
        · have hn95 : host.byteSize st * 100 ≤ 95 * 10485760 := by omega
          rw [if_pos hn95]
          simp [h95]
      · have hn : host.byteSize st * 100 ≤ 80 * 10485760 := by omega
        rw [if_neg h80, if_pos hn]

/-- C23: whatever the destination and the payload, `sendEmail` with an empty
or absent API key, and `sendSMS` with an empty or absent API key or API
secret, return exactly `{ success: true, simulated: true }` and make no
`fetch` call. -/
theorem SafeGuardServiceWorker.send_without_credentials_is_simulated
    (emailFetch smsFetch : FetchResult) (email subject : String) (html : EmailContent)
    (phone message : String) (resendApiKey vonageApiKey vonageApiSecret senderNumber : Option String)
    (hemail : jsTruthyStr resendApiKey = false)
    (hsms : jsTruthyStr vonageApiKey = false ∨ jsTruthyStr vonageApiSecret = false) :
    (SafeGuardServiceWorker.sendEmail emailFetch email subject html resendApiKey).1 =
        { success := true, simulated := true, id := none, error := none } ∧
    (SafeGuardServiceWorker.sendEmail emailFetch email subject html resendApiKey).2 = [] ∧
    (SafeGuardServiceWorker.sendSMS smsFetch phone message vonageApiKey vonageApiSecret
        senderNumber).1 = { success := true, simulated := true, id := none, error := none } ∧
    (SafeGuardServiceWorker.sendSMS smsFetch phone message vonageApiKey vonageApiSecret
        senderNumber).2 = [] := by
  have hs : (!jsTruthyStr vonageApiKey || !jsTruthyStr vonageApiSecret) = true := by
    rcases hsms with h | h <;> simp [h]
  simp [SafeGuardServiceWorker.sendEmail, SafeGuardServiceWorker.sendSMS, hemail, hs]

/-- The hypotheses of C23 hold for an empty Resend key and an absent Vonage
secret, even on a host whose `fetch` would succeed: both results are
simulated and no call is made. -/
theorem SafeGuardServiceWorker.send_without_credentials_is_simulated_witness :
    (jsTruthyStr (some "") = false ∧
      (jsTruthyStr (some "key") = false ∨ jsTruthyStr none = false)) ∧
    (SafeGuardServiceWorker.sendEmail (FetchResult.responds true (.ok (JSON.obj [])))
        "parent@example.com" "Alert"
        { severity := "HIGH", threatLevel := 8, timestamp := "now", platform := "WhatsApp",
          primaryThreat := "grooming", parentGuidance := "", content := "", explanation := "" }
        (some "")).2 = [] ∧
    (SafeGuardServiceWorker.sendSMS (FetchResult.responds true (.ok (JSON.obj [])))
        "+15550100" "Alert" (some "key") none none).2 = [] :=
  ⟨⟨by decide, Or.inr (by decide)⟩,
    (SafeGuardServiceWorker.send_without_credentials_is_simulated
      (FetchResult.responds true (.ok (JSON.obj []))) (FetchResult.responds true (.ok (JSON.obj [])))
      "parent@example.com" "Alert"
      { severity := "HIGH", threatLevel := 8, timestamp := "now", platform := "WhatsApp",
        primaryThreat := "grooming", parentGuidance := "", content := "", explanation := "" }
      "+15550100" "Alert" (some "") (some "key") none none (by decide) (Or.inr (by decide))).2.1,
    (SafeGuardServiceWorker.send_without_credentials_is_simulated
      (FetchResult.responds true (.ok (JSON.obj []))) (FetchResult.responds true (.ok (JSON.obj [])))
      "parent@example.com" "Alert"
      { severity := "HIGH", threatLevel := 8, timestamp := "now", platform := "WhatsApp",
        primaryThreat := "grooming", parentGuidance := "", content := "", explanation := "" }
      "+15550100" "Alert" (some "") (some "key") none none (by decide)
      (Or.inr (by decide))).2.2.2⟩

/-- The `try` block of `sendSMS` gives a real success or a simulated
failure, or throws. -/
theorem SafeGuardServiceWorker.sendSMSBody_shape (fetch : FetchResult) (r : SendResult)
    (h : SafeGuardServiceWorker.sendSMSBody fetch = .ok r) :
    (r.success = true ∧ r.simulated = false) ∨ (r.success = false ∧ r.simulated = true) := by
  unfold SafeGuardServiceWorker.sendSMSBody at h
  repeat' split at h
  all_goals first
    | (simp only [Except.ok.injEq] at h; subst h; simp)
    | simp at h

/-- The `try` block of `sendEmail` gives a real success or a simulated
failure with an error text, or throws. -/
theorem SafeGuardServiceWorker.sendEmailBody_shape (fetch : FetchResult) (r : SendResult)
    (h : SafeGuardServiceWorker.sendEmailBody fetch = .ok r) :
    (r.success = true ∧ r.simulated = false) ∨
      (r.success = false ∧ r.simulated = true ∧ r.error.isSome = true) := by
  unfold SafeGuardServiceWorker.sendEmailBody at h
  repeat' split at h
  all_goals first
    | (simp only [Except.ok.injEq] at h; subst h; simp)
    | simp at h

/-- A value whose element `0` exists is truthy. -/
theorem JSON.truthy_of_index0 (messages : Option JSON) (m : JSON)
    (h : messages.bind JSON.index0 = some m) : JSON.truthy messages = true := by
  cases messages with
  | none => simp at h
  | some v =>
    cases v with
    | null => simp [JSON.index0] at h
    | bool b => simp [JSON.index0] at h
    | num n => simp [JSON.index0] at h
    | str s =>
      simp only [Option.some_bind, JSON.index0, Option.map_eq_some'] at h
      obtain ⟨c, hc, _⟩ := h
      have : s ≠ "" := by
        intro hs
        rw [hs] at hc
        simp at hc
      simp [JSON.truthy, this]
    | arr items => rfl
    | obj fields => rfl

/-- The body of a successful Vonage answer: the first message has status
`"0"`, and its `message-id` is the id returned. -/
theorem SafeGuardServiceWorker.sendSMSBody_of_success (data m : JSON)
    (hfirst : (data.get "messages").bind JSON.index0 = some m)
    (hstatus : m.get "status" = some (JSON.str "0")) :
    SafeGuardServiceWorker.sendSMSBody (FetchResult.responds true (.ok data)) =
      .ok { success := true, simulated := false, id := JSON.asStr (m.get "message-id"),
            error := none } := by
  have hdata : data.prop "messages" = .ok (data.get "messages") := by
    cases data <;> first | rfl | simp [JSON.get] at hfirst
  have hm : m.prop "status" = .ok (m.get "status") ∧
      m.prop "message-id" = .ok (m.get "message-id") := by
    cases m <;> first | exact ⟨rfl, rfl⟩ | simp [JSON.get] at hstatus
  have htruthy := JSON.truthy_of_index0 _ _ hfirst
  unfold SafeGuardServiceWorker.sendSMSBody
  simp only [hdata, htruthy, hfirst, JSON.propOf, hm.1, hm.2, hstatus, JSON.asStr, if_true]

/-- C24: with credentials present, `sendEmail` and `sendSMS` each make
exactly one `fetch` call and return (they do not throw); the result is
either a real success (`success` true, `simulated` false) or a simulated
failure (`success` false, `simulated` true).  A successful provider response
gives `{ success: true, simulated: false, id }`; a rejected `fetch` and a
response that is not `ok` give the simulated failure, with the error of the
provider, and no second call is made. -/
theorem SafeGuardServiceWorker.send_with_credentials_single_attempt
    (emailFetch smsFetch : FetchResult) (email subject : String) (html : EmailContent)
    (phone message : String) (resendApiKey vonageApiKey vonageApiSecret senderNumber : Option String)
    (hemail : jsTruthyStr resendApiKey = true)
    (hsms : jsTruthyStr vonageApiKey = true ∧ jsTruthyStr vonageApiSecret = true) :
    (SafeGuardServiceWorker.sendEmail emailFetch email subject html resendApiKey).2.length = 1 ∧
    (SafeGuardServiceWorker.sendSMS smsFetch phone message vonageApiKey vonageApiSecret
        senderNumber).2.length = 1 ∧
    (((SafeGuardServiceWorker.sendEmail emailFetch email subject html resendApiKey).1.success = true ∧
        (SafeGuardServiceWorker.sendEmail emailFetch email subject html resendApiKey).1.simulated
          = false) ∨
      ((SafeGuardServiceWorker.sendEmail emailFetch email subject html resendApiKey).1.success
          = false ∧
        (SafeGuardServiceWorker.sendEmail emailFetch email subject html resendApiKey).1.simulated
          = true ∧
        (SafeGuardServiceWorker.sendEmail emailFetch email subject html
          resendApiKey).1.error.isSome = true)) ∧
    (((SafeGuardServiceWorker.sendSMS smsFetch phone message vonageApiKey vonageApiSecret
          senderNumber).1.success = true ∧
        (SafeGuardServiceWorker.sendSMS smsFetch phone message vonageApiKey vonageApiSecret
          senderNumber).1.simulated = false) ∨
      ((SafeGuardServiceWorker.sendSMS smsFetch phone message vonageApiKey vonageApiSecret
          senderNumber).1.success = false ∧
        (SafeGuardServiceWorker.sendSMS smsFetch phone message vonageApiKey vonageApiSecret
          senderNumber).1.simulated = true)) ∧
    (∀ data id, emailFetch = FetchResult.responds true (.ok data) → data.prop "id" = .ok id →
      (SafeGuardServiceWorker.sendEmail emailFetch email subject html resendApiKey).1 =
        { success := true, simulated := false, id := JSON.asStr id, error := none }) ∧
    (∀ data m, smsFetch = FetchResult.responds true (.ok data) →
      (data.get "messages").bind JSON.index0 = some m → m.get "status" = some (JSON.str "0") →
      (SafeGuardServiceWorker.sendSMS smsFetch phone message vonageApiKey vonageApiSecret
        senderNumber).1 =
        { success := true, simulated := false, id := JSON.asStr (m.get "message-id"),
          error := none }) ∧
    (∀ e, emailFetch = FetchResult.rejects e →
      (SafeGuardServiceWorker.sendEmail emailFetch email subject html resendApiKey).1 =
        { success := false, simulated := true, id := none, error := some e }) ∧
    (∀ e, smsFetch = FetchResult.rejects e →
      (SafeGuardServiceWorker.sendSMS smsFetch phone message vonageApiKey vonageApiSecret
        senderNumber).1 = { success := false, simulated := true, id := none, error := some e }) ∧
    (∀ json, emailFetch = FetchResult.responds false json →
      (SafeGuardServiceWorker.sendEmail emailFetch email subject html resendApiKey).1.success
          = false ∧
      (SafeGuardServiceWorker.sendEmail emailFetch email subject html resendApiKey).1.simulated
          = true) ∧
    (∀ json, smsFetch = FetchResult.responds false json →
      (SafeGuardServiceWorker.sendSMS smsFetch phone message vonageApiKey vonageApiSecret
        senderNumber).1.success = false ∧
      (SafeGuardServiceWorker.sendSMS smsFetch phone message vonageApiKey vonageApiSecret
        senderNumber).1.simulated = true) := by
  have hs : (!jsTruthyStr vonageApiKey || !jsTruthyStr vonageApiSecret) = false := by
    simp [hsms.1, hsms.2]
  have hE : ∀ f, SafeGuardServiceWorker.sendEmail f email subject html resendApiKey =
      match SafeGuardServiceWorker.sendEmailBody f with
      | .ok result => (result, [FetchCall.resend (resendApiKey.getD "") email subject html])
      | .error e => ({ success := false, simulated := true, id := none, error := some e },
          [FetchCall.resend (resendApiKey.getD "") email subject html]) := by
    intro f
    simp [SafeGuardServiceWorker.sendEmail, hemail]
  have hS : ∀ f, ∃ call, SafeGuardServiceWorker.sendSMS f phone message vonageApiKey
      vonageApiSecret senderNumber =
      match SafeGuardServiceWorker.sendSMSBody f with
      | .ok result => (result, [call])
      | .error e => ({ success := false, simulated := true, id := none, error := some e },
          [call]) := by
    intro f
    refine ⟨FetchCall.vonage (vonageApiKey.getD "") (vonageApiSecret.getD "")
      (String.mk (phone.data.filter fun c => c.isDigit || c = '+'))
      (if !jsTruthyStr senderNumber then "SafeGuard" else senderNumber.getD "") message, ?_⟩
    simp [SafeGuardServiceWorker.sendSMS, hs]
  refine ⟨?_, ?_, ?_, ?_, ?_, ?_, ?_, ?_, ?_, ?_⟩
  · rw [hE]
    split <;> rfl
  · obtain ⟨call, hc⟩ := hS smsFetch
    rw [hc]
    split <;> rfl
  · rw [hE]
    split
    · rename_i r hr
      exact SafeGuardServiceWorker.sendEmailBody_shape emailFetch r hr
    · right
      exact ⟨rfl, rfl, rfl⟩
  · obtain ⟨call, hc⟩ := hS smsFetch
    rw [hc]
    split
    · rename_i r hr
      exact SafeGuardServiceWorker.sendSMSBody_shape smsFetch r hr
    · right
      exact ⟨rfl, rfl⟩
  · intro data id hf hid
    rw [hE, hf]
    simp [SafeGuardServiceWorker.sendEmailBody, hid]
  · intro data m hf hfirst hstatus
    obtain ⟨call, hc⟩ := hS smsFetch
    rw [hc, hf, SafeGuardServiceWorker.sendSMSBody_of_success data m hfirst hstatus]
  · intro e hf
    rw [hE, hf]
    rfl
  · intro e hf
    obtain ⟨call, hc⟩ := hS smsFetch
    rw [hc, hf]
    rfl
  · intro json hf
    have := hE emailFetch
    rw [hf] at this ⊢
    rw [this]
    cases json with
    | error e => exact ⟨rfl, rfl⟩
    | ok data =>
      simp only [SafeGuardServiceWorker.sendEmailBody, Bool.false_eq_true, if_false]
      cases data.prop "message" <;> exact ⟨rfl, rfl⟩
  · intro json hf
    obtain ⟨call, hc⟩ := hS smsFetch
    rw [hf] at hc ⊢
    rw [hc]
    split
    · rename_i r hr
      rcases SafeGuardServiceWorker.sendSMSBody_shape _ r hr with h | h
      · exfalso
        unfold SafeGuardServiceWorker.sendSMSBody at hr
        simp only [Bool.false_eq_true, if_false] at hr
        repeat' split at hr
        all_goals first
          | (simp only [Except.ok.injEq] at hr; subst hr; simp at h)
          | simp at hr
      · exact h
    · exact ⟨rfl, rfl⟩

/-- The hypotheses of C24 hold for present credentials; with a Resend answer
that accepted the e-mail the result is a real success with the id, with a
rejected Vonage call the result is a simulated failure, and each made one
call. -/
theorem SafeGuardServiceWorker.send_with_credentials_single_attempt_witness :
    (jsTruthyStr (some "re_key") = true ∧
      (jsTruthyStr (some "vonage_key") = true ∧ jsTruthyStr (some "vonage_secret") = true)) ∧
    (SafeGuardServiceWorker.sendEmail Examples.resendAccepted "parent@example.com" "Alert"
        Examples.alertContent (some "re_key")).2.length = 1 ∧
    (SafeGuardServiceWorker.sendSMS (FetchResult.rejects "Failed to fetch") "+1 (555) 0100" "Alert"
        (some "vonage_key") (some "vonage_secret") none).2.length = 1 ∧
    (SafeGuardServiceWorker.sendEmail Examples.resendAccepted "parent@example.com" "Alert"
        Examples.alertContent (some "re_key")).1 =
      { success := true, simulated := false, id := some "em_123", error := none } ∧
    (SafeGuardServiceWorker.sendSMS (FetchResult.rejects "Failed to fetch") "+1 (555) 0100" "Alert"
        (some "vonage_key") (some "vonage_secret") none).1 =
      { success := false, simulated := true, id := none, error := some "Failed to fetch" } :=
  ⟨⟨by decide, by decide, by decide⟩,
    (SafeGuardServiceWorker.send_with_credentials_single_attempt Examples.resendAccepted
      (FetchResult.rejects "Failed to fetch") "parent@example.com" "Alert" Examples.alertContent
      "+1 (555) 0100" "Alert" (some "re_key") (some "vonage_key") (some "vonage_secret") none
      (by decide) ⟨by decide, by decide⟩).1,
    (SafeGuardServiceWorker.send_with_credentials_single_attempt Examples.resendAccepted
      (FetchResult.rejects "Failed to fetch") "parent@example.com" "Alert" Examples.alertContent
      "+1 (555) 0100" "Alert" (some "re_key") (some "vonage_key") (some "vonage_secret") none
      (by decide) ⟨by decide, by decide⟩).2.1,
    by decide, by decide⟩

/-- The empty string includes no non-empty text, so the guard
`actionRequired && actionRequired.includes(...)` is the `includes` test. -/
theorem jsIncludes_guard (actionRequired : String) :
    (actionRequired != "" && jsIncludes actionRequired "immediate_parent_notification") =
      jsIncludes actionRequired "immediate_parent_notification" := by
  by_cases h : actionRequired = ""
  · subst h
    decide
  · simp [h]

/-- C25: whatever the stored mode and whatever the verdict, `takeAction`
calls `sendParentNotification` exactly once, with the verdict, the incident
and the settings read, when `actionRequired` contains
`immediate_parent_notification`, and not at all otherwise; two runs whose
verdicts have the same `actionRequired` make the same number of calls,
whatever their modes and levels. -/
theorem SafeGuardServiceWorker.takeAction_notifies_iff_required (host host2 : NotificationHost)
    (st st2 : ChromeStorage) (agent4Result agent4Result2 : FinalVerdict)
    (incident incident2 : Incident) :
    (SafeGuardServiceWorker.takeAction host st agent4Result incident).notifications.length =
      (if jsIncludes agent4Result.actionRequired "immediate_parent_notification" then 1 else 0) ∧
    (SafeGuardServiceWorker.takeAction host st agent4Result incident).notifications =
      (if jsIncludes agent4Result.actionRequired "immediate_parent_notification" then
        [SafeGuardServiceWorker.sendParentNotification host agent4Result incident
          (SafeGuardServiceWorker.getSettings host st)]
      else []) ∧
    (agent4Result2.actionRequired = agent4Result.actionRequired →
      (SafeGuardServiceWorker.takeAction host2 st2 agent4Result2 incident2).notifications.length =
        (SafeGuardServiceWorker.takeAction host st agent4Result incident).notifications.length) := by
  have key : ∀ (h : NotificationHost) (s : ChromeStorage) (v : FinalVerdict) (i : Incident),
      (SafeGuardServiceWorker.takeAction h s v i).notifications =
        (if jsIncludes v.actionRequired "immediate_parent_notification" then
          [SafeGuardServiceWorker.sendParentNotification h v i
            (SafeGuardServiceWorker.getSettings h s)]
        else []) := by
    intro h s v i
    simp only [SafeGuardServiceWorker.takeAction, jsIncludes_guard]
  refine ⟨?_, key _ _ _ _, ?_⟩
  · rw [key]
    split <;> rfl
  · intro heq
    rw [key, key, heq]
    split <;> rfl

/-- The method `storeIncident` succeeds exactly when neither its read of the
incident list nor its write rejects; rejections inside `checkStorageSize`,
`cleanup` and `updateStorageStatus` are caught there. -/
theorem StorageManager.storeIncident_success_iff (host : StorageHost) (st : ChromeStorage)
    (incident : Incident) :
    (StorageManager.storeIncident host st incident).1.success = true ↔
      host.rejects StorageCall.storeGet = none ∧ host.rejects StorageCall.storeSet = none := by
  unfold StorageManager.storeIncident
  simp only
  cases hg : host.rejects StorageCall.storeGet with
  | some e => simp
  | none =>
    cases hs : host.rejects StorageCall.storeSet with
    | some e => simp
    | none => simp

/-- When the read of the incident list or the write rejects with `e`,
`storeIncident` returns `{ success: false, error: e }` and leaves the store
as the cleanup step left it. -/
theorem StorageManager.storeIncident_of_rejection (host : StorageHost) (st : ChromeStorage)
    (incident : Incident) (e : String)
    (hfail : host.rejects StorageCall.storeGet = some e ∨
      (host.rejects StorageCall.storeGet = none ∧ host.rejects StorageCall.storeSet = some e)) :
    StorageManager.storeIncident host st incident =
      ({ success := false, incidentCount := none, error := some e },
        StorageManager.cleanupIfNearLimit host st) := by
  unfold StorageManager.storeIncident
  rcases hfail with h | ⟨h1, h2⟩
  · simp [h]
  · simp [h1, h2]

/-- C22: when the read of the incident list or its write rejects with `e`,
`storeIncident` returns `{ success: false, error: e }` (it does not throw);
and on the flagged path of `handleTextAnalysis`, with the collaborators as
modelled, `takeAction` is still called with the verdict of Agent 4 and the
incident, and the threat response for that verdict is still sent, after
`storeIncident` returned `success: false`. -/
theorem store_failure_is_not_fatal (h : Hosts) (sw : SafeGuardServiceWorker World) (d : TextData)
    (memory : ConversationMemory) (e : String)
    (hfail : h.storage.rejects StorageCall.storeGet = some e ∨
      (h.storage.rejects StorageCall.storeGet = none ∧
        h.storage.rejects StorageCall.storeSet = some e))
    (hmem : sw.conversationMemory = MemoryRef.ofClass memory)
    (hflag : (Agent1_TextAnalysis.analyze h.jsonParse h.agent1 sw.agent1
      d.tensorflowResult).1.isInappropriate = true) :
    (∀ st incident, StorageManager.storeIncident h.storage st incident =
      ({ success := false, incidentCount := none, error := some e },
        StorageManager.cleanupIfNearLimit h.storage st)) ∧
    ∃ (agent4Result : FinalVerdict) (incident : Incident),
      agent4Result =
        (Agent4_FinalCoordinator.coordinate h.jsonParse h.agent4 sw.agent4
          { agent1 := some (Agent1_TextAnalysis.analyze h.jsonParse h.agent1 sw.agent1
              d.tensorflowResult).1, agent2 := none, agent3 := none }
          (MemoryRef.ofClass (memory.add h.clockAdd
            { text := d.text, type := d.type, platform := d.platform,
              timestamp := d.timestamp }))).1 ∧
      incident.content = d.text ∧
      incident.level = agent4Result.finalLevel ∧
      incident.actionTaken = agent4Result.actionRequired ∧
      (handleTextAnalysis (SafeGuardServiceWorker.ops h) sw (some d)).calls =
        [Call.memoryAdd
            { text := d.text, type := d.type, platform := d.platform, timestamp := d.timestamp },
          Call.analyze d.text d.type d.tensorflowResult
            (.ok (Agent1_TextAnalysis.analyze h.jsonParse h.agent1 sw.agent1 d.tensorflowResult).1),
          Call.coordinate
            { agent1 := some (Agent1_TextAnalysis.analyze h.jsonParse h.agent1 sw.agent1
                d.tensorflowResult).1, agent2 := none, agent3 := none }
            (.ok agent4Result),
          Call.storeIncident incident
            (.ok { success := false, incidentCount := none, error := some e }),
          Call.takeAction agent4Result incident,
          Call.sendResponse (threatResponse agent4Result
            (Agent1_TextAnalysis.analyze h.jsonParse h.agent1 sw.agent1
              d.tensorflowResult).1.explanation)] ∧
      (handleTextAnalysis (SafeGuardServiceWorker.ops h) sw (some d)).threw = none ∧
      (handleTextAnalysis (SafeGuardServiceWorker.ops h) sw (some d)).worker.world.actions =
        sw.world.actions ++
          [SafeGuardServiceWorker.takeAction h.notification
            (StorageManager.cleanupIfNearLimit h.storage sw.world.storage) agent4Result incident] := by
  have hstore := fun st incident =>
    StorageManager.storeIncident_of_rejection h.storage st incident e hfail
  refine ⟨hstore, _,
    { id := h.clockId
      timestamp := h.clockTimestamp
      type := "message"
      severity := (Agent4_FinalCoordinator.coordinate h.jsonParse h.agent4 sw.agent4
        { agent1 := some (Agent1_TextAnalysis.analyze h.jsonParse h.agent1 sw.agent1 d.tensorflowResult).1, agent2 := none, agent3 := none }
        (MemoryRef.ofClass (memory.add h.clockAdd
          { text := d.text, type := d.type, platform := d.platform,
            timestamp := d.timestamp }))).1.severity
      level := (Agent4_FinalCoordinator.coordinate h.jsonParse h.agent4 sw.agent4
        { agent1 := some (Agent1_TextAnalysis.analyze h.jsonParse h.agent1 sw.agent1 d.tensorflowResult).1, agent2 := none, agent3 := none }
        (MemoryRef.ofClass (memory.add h.clockAdd
          { text := d.text, type := d.type, platform := d.platform,
            timestamp := d.timestamp }))).1.finalLevel
      platform := d.platform
      content := d.text
      agentResults :=
        { agent1 := some (Agent1_TextAnalysis.analyze h.jsonParse h.agent1 sw.agent1 d.tensorflowResult).1, agent2 := none, agent3 := none,
          agent4 := (Agent4_FinalCoordinator.coordinate h.jsonParse h.agent4 sw.agent4
        { agent1 := some (Agent1_TextAnalysis.analyze h.jsonParse h.agent1 sw.agent1 d.tensorflowResult).1, agent2 := none, agent3 := none }
        (MemoryRef.ofClass (memory.add h.clockAdd
          { text := d.text, type := d.type, platform := d.platform,
            timestamp := d.timestamp }))).1 }
      actionTaken := (Agent4_FinalCoordinator.coordinate h.jsonParse h.agent4 sw.agent4
        { agent1 := some (Agent1_TextAnalysis.analyze h.jsonParse h.agent1 sw.agent1 d.tensorflowResult).1, agent2 := none, agent3 := none }
        (MemoryRef.ofClass (memory.add h.clockAdd
          { text := d.text, type := d.type, platform := d.platform,
            timestamp := d.timestamp }))).1.actionRequired },
    rfl, ?_, ?_, ?_, ?_, ?_, ?_⟩
  rotate_left 3
  · unfold handleTextAnalysis
    simp only [hmem, MemoryRef.add, SafeGuardServiceWorker.ops, analyzeOn, hflag, Bool.not_true,
      Bool.false_eq_true, if_false, coordinateOn, storeActRespond, hstore, List.cons_append,
      List.nil_append]
  · unfold handleTextAnalysis
    simp only [hmem, MemoryRef.add, SafeGuardServiceWorker.ops, analyzeOn, hflag, Bool.not_true,
      Bool.false_eq_true, if_false, coordinateOn, storeActRespond, hstore]
  · unfold handleTextAnalysis
    simp only [hmem, MemoryRef.add, SafeGuardServiceWorker.ops, analyzeOn, hflag, Bool.not_true,
      Bool.false_eq_true, if_false, coordinateOn, storeActRespond, hstore]
  · rfl
  · rfl
  · rfl

/-- The hypotheses of C22 hold when the write of the incident list rejects
for lack of quota on the flagged grooming text: `storeIncident` returns
`success: false` and the handler does not reject. -/
theorem store_failure_is_not_fatal_witness :
    ((Examples.quotaHosts.storage.rejects StorageCall.storeGet = some "QUOTA_BYTES quota exceeded" ∨
        (Examples.quotaHosts.storage.rejects StorageCall.storeGet = none ∧
          Examples.quotaHosts.storage.rejects StorageCall.storeSet =
            some "QUOTA_BYTES quota exceeded")) ∧
      Examples.freshWorld.conversationMemory = MemoryRef.ofClass ConversationMemory.new ∧
      (Agent1_TextAnalysis.analyze Examples.quotaHosts.jsonParse Examples.quotaHosts.agent1
        Examples.freshWorld.agent1 Examples.groomingText.tensorflowResult).1.isInappropriate = true) ∧
    StorageManager.storeIncident Examples.quotaHosts.storage (Examples.storageWith none)
        Examples.groomingIncident =
      ({ success := false, incidentCount := none, error := some "QUOTA_BYTES quota exceeded" },
        StorageManager.cleanupIfNearLimit Examples.quotaHosts.storage (Examples.storageWith none)) ∧
    (handleTextAnalysis (SafeGuardServiceWorker.ops Examples.quotaHosts) Examples.freshWorld
      (some Examples.groomingText)).threw = none :=
  ⟨⟨Or.inr ⟨by decide, by decide⟩, rfl, by decide⟩,
    (store_failure_is_not_fatal Examples.quotaHosts Examples.freshWorld Examples.groomingText
      ConversationMemory.new "QUOTA_BYTES quota exceeded" (Or.inr ⟨by decide, by decide⟩) rfl
      (by decide)).1 (Examples.storageWith none) Examples.groomingIncident,
    (store_failure_is_not_fatal Examples.quotaHosts Examples.freshWorld Examples.groomingText
      ConversationMemory.new "QUOTA_BYTES quota exceeded" (Or.inr ⟨by decide, by decide⟩) rfl
      (by decide)).2.elim fun _ h1 => h1.elim fun _ h2 => h2.2.2.2.2.2.1⟩

/-- In active mode `handleThreat` shows the warning popup exactly when the
level of the threat is at least 7. -/
theorem ConversationMonitor.handleThreat_active_popup (platform : String) (threat : MonitorThreat)
    (content type : String) :
    ((ConversationMonitor.handleThreat "active" platform threat content type).any
      MonitorEffect.isPopup = true) ↔ threat.level ≥ 7 := by
  unfold ConversationMonitor.handleThreat
  by_cases h : threat.level ≥ 7
  · simp [h, MonitorEffect.isPopup]
  · simp [h, MonitorEffect.isPopup]

set_option maxRecDepth 20000 in
/-- C26 fails as stated: in active mode, for the engine verdict with
`finalLevel = 5` and `actionRequired = "warn_child"`, `handleTextAnalysis`
sends the threat response of level 5 and `takeAction` takes its active-mode
branch, but `handleThreat` on that response shows no warning popup: it only
logs the threat. -/
theorem ConversationMonitor.no_popup_for_warn_child :
    (handleTextAnalysis (SafeGuardServiceWorker.ops Examples.warnChildHosts) Examples.activeWorld
        (some Examples.pushyText)).calls.getLast? =
      some (Call.sendResponse Examples.warnChildResponse) ∧
    (handleTextAnalysis (SafeGuardServiceWorker.ops Examples.warnChildHosts) Examples.activeWorld
        (some Examples.pushyText)).worker.world.actions.map
        (fun a => (a.settings.mode, a.childWarningAnnounced)) = [(some "active", true)] ∧
    (Agent4_FinalCoordinator.parseResponse JSON.parse Examples.warnChildAnswer).actionRequired =
      "warn_child" ∧
    (Agent4_FinalCoordinator.parseResponse JSON.parse Examples.warnChildAnswer).actionRequired ≠
      "log_only" ∧
    (ConversationMonitor.onTextResponse "active" "WhatsApp" Examples.warnChildResponse
        Examples.pushyText.text Examples.pushyText.type).any MonitorEffect.isPopup = false ∧
    ConversationMonitor.onTextResponse "active" "WhatsApp" Examples.warnChildResponse
        Examples.pushyText.text Examples.pushyText.type =
      [MonitorEffect.logThreat
        { level := 5, severity := "MEDIUM", category := "manipulation", warning := "Be careful",
          explanation := "Pressure", critical := false }
        "come on, just do what I say" "received"] := by
  refine ⟨by rfl, by decide, by decide, by decide, by decide, by decide⟩

/-- C26, amended: in active mode the child warning goes by the level, not by
`actionRequired`.  For every verdict, the threat response that
`handleTextAnalysis` builds from it leads `handleThreat` to log the threat
and to show the warning popup exactly once when `finalLevel` is at least 7,
and not at all otherwise; no `notifyParent` request is sent; the effects are
the same whatever `actionRequired` is.  The active-mode branch of
`takeAction`, taken when the stored mode is `active` and `actionRequired` is
not `log_only`, only announces the warning. -/
theorem ConversationMonitor.active_popup_iff_level_ge_7 (platform : String)
    (agent4Result : FinalVerdict) (explanation text type actionRequired : String)
    (host : NotificationHost) (st : ChromeStorage) (incident : Incident) :
    ConversationMonitor.onTextResponse "active" platform (threatResponse agent4Result explanation)
        text type =
      MonitorEffect.logThreat
          { level := agent4Result.finalLevel, severity := agent4Result.severity,
            category := agent4Result.primaryThreat, warning := agent4Result.childWarning,
            explanation := explanation, critical := false } text type ::
        (if agent4Result.finalLevel ≥ 7 then
          [MonitorEffect.showWarningPopup
            { level := agent4Result.finalLevel, severity := agent4Result.severity,
              category := agent4Result.primaryThreat, warning := agent4Result.childWarning,
              explanation := explanation, critical := false }]
        else []) ∧
    ((ConversationMonitor.onTextResponse "active" platform (threatResponse agent4Result explanation)
        text type).any MonitorEffect.isPopup = true ↔ agent4Result.finalLevel ≥ 7) ∧
    ((ConversationMonitor.onTextResponse "active" platform (threatResponse agent4Result explanation)
        text type).filter MonitorEffect.isPopup).length =
      (if agent4Result.finalLevel ≥ 7 then 1 else 0) ∧
    (ConversationMonitor.onTextResponse "active" platform (threatResponse agent4Result explanation)
        text type).any MonitorEffect.isNotifyParent = false ∧
    ConversationMonitor.onTextResponse "active" platform
        (threatResponse { agent4Result with actionRequired := actionRequired } explanation)
        text type =
      ConversationMonitor.onTextResponse "active" platform (threatResponse agent4Result explanation)
        text type ∧
    ((SafeGuardServiceWorker.takeAction host st agent4Result incident).childWarningAnnounced = true ↔
      ((SafeGuardServiceWorker.getSettings host st).mode = some "active" ∧
        agent4Result.actionRequired ≠ "log_only")) := by
  refine ⟨?_, ?_, ?_, ?_, rfl, ?_⟩
  · simp only [ConversationMonitor.onTextResponse, threatResponse, Threat.received,
      ConversationMonitor.handleThreat]
    by_cases h : agent4Result.finalLevel ≥ 7
    · simp [h]
    · simp [h]
  · simp only [ConversationMonitor.onTextResponse, threatResponse, Threat.received,
      ConversationMonitor.handleThreat]
    by_cases h : agent4Result.finalLevel ≥ 7
    · simp [h, MonitorEffect.isPopup]
    · simp [h, MonitorEffect.isPopup]
  · simp only [ConversationMonitor.onTextResponse, threatResponse, Threat.received,
      ConversationMonitor.handleThreat]
    by_cases h : agent4Result.finalLevel ≥ 7
    · simp [h, MonitorEffect.isPopup]
    · simp [h, MonitorEffect.isPopup]
  · simp only [ConversationMonitor.onTextResponse, threatResponse, Threat.received,
      ConversationMonitor.handleThreat]
    by_cases h : agent4Result.finalLevel ≥ 7
    · simp [h, MonitorEffect.isNotifyParent]
    · simp [h, MonitorEffect.isNotifyParent]
  · simp [SafeGuardServiceWorker.takeAction]

/-- C27: in passive mode `handleThreat` never shows the warning popup, and it
sends one `notifyParent` request when the level is at least 9 or `critical`
is set, and none otherwise. -/
theorem ConversationMonitor.handleThreat_passive (platform : String) (threat : MonitorThreat)
    (content type : String) :
    (ConversationMonitor.handleThreat "passive" platform threat content type).any
        MonitorEffect.isPopup = false ∧
    ((ConversationMonitor.handleThreat "passive" platform threat content type).filter
        MonitorEffect.isNotifyParent).length =
      (if threat.level ≥ 9 ∨ threat.critical = true then 1 else 0) ∧
    ((ConversationMonitor.handleThreat "passive" platform threat content type).any
        MonitorEffect.isNotifyParent = true ↔ (threat.level ≥ 9 ∨ threat.critical = true)) ∧
    ConversationMonitor.handleThreat "passive" platform threat content type =
      MonitorEffect.logThreat threat content type ::
        (if threat.level ≥ 9 ∨ threat.critical = true then
          [MonitorEffect.notifyParent threat content type platform] else []) := by
  unfold ConversationMonitor.handleThreat
  by_cases h : threat.level ≥ 9 ∨ threat.critical = true
  · simp [h, MonitorEffect.isPopup, MonitorEffect.isNotifyParent]
  · simp [h, MonitorEffect.isPopup, MonitorEffect.isNotifyParent]

/-- The result of a keyword matcher: detected exactly when a pattern
matches, and the severity graded by the number of patterns that match. -/
theorem runMatcher_grades_by_count (patterns : List (String × Rx)) (message : String) :
    ((runMatcher patterns message).detected = true ↔
      ∃ p ∈ patterns, p.2.test message = true) ∧
    (runMatcher patterns message).names =
      (patterns.filter fun p => p.2.test message).map (fun p => p.1) ∧
    ((patterns.filter fun p => p.2.test message).length = 0 →
      (runMatcher patterns message).severity = "none") ∧
    ((patterns.filter fun p => p.2.test message).length = 1 →
      (runMatcher patterns message).severity = "medium") ∧
    ((patterns.filter fun p => p.2.test message).length ≥ 2 →
      (runMatcher patterns message).severity = "high") := by
  refine ⟨?_, rfl, ?_, ?_, ?_⟩
  · simp only [runMatcher, List.length_map, decide_eq_true_eq, List.length_pos]
    constructor
    · intro h
      obtain ⟨p, hp⟩ := List.exists_mem_of_ne_nil _ h
      exact ⟨p, (List.mem_filter.mp hp).1, (List.mem_filter.mp hp).2⟩
    · rintro ⟨p, hp, ht⟩
      exact List.ne_nil_of_mem (List.mem_filter.mpr ⟨hp, ht⟩)
  · intro h
    simp [runMatcher, h]
  · intro h
    simp [runMatcher, h]
  · intro h
    simp only [runMatcher, List.length_map]
    rw [if_pos h]

/-- C28: for every message, `checkGroomingPattern` and `analyzeSentiment`
report detection exactly when at least one of their patterns matches, and
the severity `none` for no matching pattern, `medium` for exactly one and
`high` for two or more; for the text of the spec's grooming scenario the
stages of `checkGroomingPattern` are trustBuilding, isolation and
sexualization and the severity is `high`. -/
theorem keyword_matchers_grade_by_count (message : String) :
    (((checkGroomingPattern.execute message).detected = true ↔
        ∃ p ∈ checkGroomingPattern.patterns, p.2.test message = true) ∧
      ((checkGroomingPattern.patterns.filter fun p => p.2.test message).length = 0 →
        (checkGroomingPattern.execute message).severity = "none") ∧
      ((checkGroomingPattern.patterns.filter fun p => p.2.test message).length = 1 →
        (checkGroomingPattern.execute message).severity = "medium") ∧
      ((checkGroomingPattern.patterns.filter fun p => p.2.test message).length ≥ 2 →
        (checkGroomingPattern.execute message).severity = "high")) ∧
    (((analyzeSentiment.execute message).detected = true ↔
        ∃ p ∈ analyzeSentiment.manipulationPatterns, p.2.test message = true) ∧
      ((analyzeSentiment.manipulationPatterns.filter fun p => p.2.test message).length = 0 →
        (analyzeSentiment.execute message).severity = "none") ∧
      ((analyzeSentiment.manipulationPatterns.filter fun p => p.2.test message).length = 1 →
        (analyzeSentiment.execute message).severity = "medium") ∧
      ((analyzeSentiment.manipulationPatterns.filter fun p => p.2.test message).length ≥ 2 →
        (analyzeSentiment.execute message).severity = "high")) ∧
    (checkGroomingPattern.execute
        "Don't tell your parents, this is our secret, I'll pick you up after school").names =
      ["trustBuilding", "isolation", "sexualization"] ∧
    "isolation" ∈ (checkGroomingPattern.execute
        "Don't tell your parents, this is our secret, I'll pick you up after school").names ∧
    "sexualization" ∈ (checkGroomingPattern.execute
        "Don't tell your parents, this is our secret, I'll pick you up after school").names ∧
    (checkGroomingPattern.execute
        "Don't tell your parents, this is our secret, I'll pick you up after school").severity =
      "high" ∧
    (checkGroomingPattern.execute
        "Don't tell your parents, this is our secret, I'll pick you up after school").detected =
      true := by
  have hg := runMatcher_grades_by_count checkGroomingPattern.patterns message
  have hs := runMatcher_grades_by_count analyzeSentiment.manipulationPatterns message
  refine ⟨⟨hg.1, hg.2.2.1, hg.2.2.2.1, hg.2.2.2.2⟩, ⟨hs.1, hs.2.2.1, hs.2.2.2.1, hs.2.2.2.2⟩,
    by decide, by decide, by decide, by decide, by decide⟩

/-- The word boundaries and the flag `i` at work: a phrase inside a longer
word does not match, an upper-case phrase does, and `nudes?` matches both
forms. -/
theorem Rx.test_examples :
    (checkGroomingPattern.execute "He is not naked").names = ["sexualization"] ∧
    (checkGroomingPattern.execute "SEND PHOTO please").names = ["sexualization"] ∧
    (checkGroomingPattern.execute "send photos please").names = [] ∧
    (checkGroomingPattern.execute "no nudes").names = ["sexualization"] ∧
    (checkGroomingPattern.execute "a nude").names = ["sexualization"] ∧
    (checkGroomingPattern.execute "see you tomorrow").severity = "none" ∧
    (checkGroomingPattern.execute "trust me").severity = "medium" ∧
    (analyzeSentiment.execute "you let me down, send it now").severity = "high" := by
  decide

/-- A fresh `ConversationMemory` accepts `add` and then holds one message;
so does a memory emptied by `clear`. -/
theorem MemoryRef.add_fresh (now : Nat) (message : Message) (m : ConversationMemory) :
    (MemoryRef.ofClass ConversationMemory.new).add now message =
      .ok (MemoryRef.ofClass (ConversationMemory.new.add now message)) ∧
    (ConversationMemory.new.add now message).messages.length = 1 ∧
    (MemoryRef.ofClass m.clear).add now message =
      .ok (MemoryRef.ofClass (m.clear.add now message)) := by
  refine ⟨rfl, ?_, rfl⟩
  simp [ConversationMemory.add, ConversationMemory.new, jsSlice]

/-- C29: the `clearAllData` action answers `success: true` and leaves an
empty `messages` list, but what it assigns to `safeguard.conversationMemory`
is an object literal, not a `ConversationMemory`: the next
`handleTextAnalysis` appends nothing (the memory still has size 0), calls no
reporter, and responds with the error
`this.conversationMemory.add is not a function`. -/
theorem clearAllData_leaves_memory_without_methods (h : Hosts) (lh : ListenerHost)
    (safeguard : SafeGuardServiceWorker World) (data : RequestData) (d : TextData) :
    onMessage h lh safeguard { action := "clearAllData", data := data } =
      some (ListenerRun.reply { safeguard with conversationMemory := MemoryRef.literal [] }
        Reply.cleared) ∧
    (MemoryRef.literal []).messages = [] ∧
    MemoryRef.literal [] ≠ MemoryRef.ofClass ConversationMemory.new ∧
    handleTextAnalysis (SafeGuardServiceWorker.ops h)
        { safeguard with conversationMemory := MemoryRef.literal [] } (some d) =
      { worker := { safeguard with conversationMemory := MemoryRef.literal [] }
        calls := [Call.sendResponse (Response.error "this.conversationMemory.add is not a function")]
        threw := none } ∧
    onMessage h lh { safeguard with conversationMemory := MemoryRef.literal [] }
        { action := "analyzeText", data := RequestData.text d } =
      some
        { worker := { safeguard with conversationMemory := MemoryRef.literal [] }
          calls :=
            [Call.sendResponse (Response.error "this.conversationMemory.add is not a function")]
          notifications := []
          replies :=
            [Reply.ofHandler (Response.error "this.conversationMemory.add is not a function")]
          keepsChannelOpen := true
          threw := none } ∧
    (handleTextAnalysis (SafeGuardServiceWorker.ops h)
        { safeguard with conversationMemory := MemoryRef.literal [] }
        (some d)).worker.conversationMemory.messages.length = 0 := by
  have hrun : handleTextAnalysis (SafeGuardServiceWorker.ops h)
        { safeguard with conversationMemory := MemoryRef.literal [] } (some d) =
      { worker := { safeguard with conversationMemory := MemoryRef.literal [] }
        calls := [Call.sendResponse (Response.error "this.conversationMemory.add is not a function")]
        threw := none } := by
    simp [handleTextAnalysis, MemoryRef.add]
  refine ⟨?_, rfl, ?_, hrun, ?_, ?_⟩
  · simp [onMessage]
  · intro hne
    cases hne
  · simp [onMessage, hrun, ListenerRun.ofHandler]
  · rw [hrun]
    rfl

/-- The scenario of C29 on a freshly constructed worker: after `clearAllData`
the grooming text of the spec is answered with the error, whereas without
`clearAllData` the same text is added to the memory. -/
theorem clearAllData_example :
    ((onMessage Examples.quotaHosts Examples.listenerHost Examples.freshWorld
        { action := "clearAllData", data := RequestData.absent }).bind fun run =>
      (onMessage Examples.quotaHosts Examples.listenerHost run.worker
        { action := "analyzeText", data := RequestData.text Examples.groomingText }).map fun run2 =>
        (run.replies, run2.replies, run2.worker.conversationMemory.messages.length)) =
      some ([Reply.cleared],
        [Reply.ofHandler (Response.error "this.conversationMemory.add is not a function")], 0) ∧
    ((onMessage Examples.quotaHosts Examples.listenerHost Examples.freshWorld
        { action := "analyzeText", data := RequestData.text Examples.groomingText }).map fun run =>
      run.worker.conversationMemory.messages.length) = some 1 := by
  constructor <;> decide

/-- C30: the listener has no branch for the actions `notifyParent` and
`notifyParentPorn`: every message that `handleThreat` sends (action
`notifyParent`) and every message that `PageMonitor.handlePornDetection`
sends (action `notifyParentPorn`) is answered with
`{ error: 'Unknown action' }`, the listener returns `false`, and no parent
notification is sent; in passive mode a threat of level 9 makes
`handleThreat` send such a message. -/
theorem notifyParent_requests_are_unknown_actions (h : Hosts) (lh : ListenerHost)
    (safeguard : SafeGuardServiceWorker World) (data : RequestData)
    (mode platform : String) (threat : MonitorThreat) (content type href title : String)
    (level : Int) (category : String) (now : Nat) :
    onMessage h lh safeguard { action := "notifyParent", data := data } =
      some
        { worker := safeguard, calls := [], notifications := [], replies := [Reply.unknownAction],
          keepsChannelOpen := false, threw := none } ∧
    onMessage h lh safeguard { action := "notifyParentPorn", data := data } =
      some
        { worker := safeguard, calls := [], notifications := [], replies := [Reply.unknownAction],
          keepsChannelOpen := false, threw := none } ∧
    ((ConversationMonitor.handleThreat mode platform threat content type).filterMap
        MonitorEffect.request).map (fun request => (request.action, onMessage h lh safeguard request)) =
      ((ConversationMonitor.handleThreat mode platform threat content type).filter
        MonitorEffect.isNotifyParent).map (fun _ =>
          ("notifyParent",
            some
              { worker := safeguard, calls := [], notifications := [],
                replies := [Reply.unknownAction], keepsChannelOpen := false, threw := none })) ∧
    (PageMonitor.handlePornDetection mode href title level category now).1.map
        (fun request => (request.action, onMessage h lh safeguard request)) =
      [("notifyParentPorn",
        some
          { worker := safeguard, calls := [], notifications := [],
            replies := [Reply.unknownAction], keepsChannelOpen := false, threw := none })] ∧
    (ConversationMonitor.handleThreat "passive" "WhatsApp" Examples.criticalThreat "meet me alone"
        "received").filterMap MonitorEffect.request =
      [{ action := "notifyParent"
         data := RequestData.notifyParent Examples.criticalThreat "meet me alone" "received"
           "WhatsApp" }] := by
  have hunknown : ∀ data2 : RequestData,
      onMessage h lh safeguard { action := "notifyParent", data := data2 } =
        some
          { worker := safeguard, calls := [], notifications := [],
            replies := [Reply.unknownAction], keepsChannelOpen := false, threw := none } := by
    intro data2
    simp [onMessage]
  refine ⟨hunknown data, by simp [onMessage], ?_, by simp [PageMonitor.handlePornDetection,
    PageMonitor.notifyParent, onMessage], by decide⟩
  unfold ConversationMonitor.handleThreat
  split_ifs <;>
    simp [MonitorEffect.request, MonitorEffect.isNotifyParent, hunknown]

/-- The regular expression is greedy: it matches from the first `{` to the
last `}`, and only when a `}` follows a `{`. -/
theorem matchBraces_examples :
    matchBraces "Sure! \x7b\"a\": \x7b\"b\": 1\x7d\x7d done \x7d x" = some "\x7b\"a\": \x7b\"b\": 1\x7d\x7d done \x7d" ∧
    matchBraces "no braces" = none ∧
    matchBraces "\x7d then \x7b" = none := by
  decide

/-- The reference reader on an object, and on two texts that are not JSON. -/
theorem JSON.parse_examples :
    ((JSON.parse "\x7b\"level\": 9, \"isInappropriate\": true, \"redFlags\": [\"a\", \"b\"]\x7d").bind
        fun j => JSON.asInt (j.get "level")) = some 9 ∧
    ((JSON.parse "\x7b\"level\": 9, \"isInappropriate\": true, \"redFlags\": [\"a\", \"b\"]\x7d").bind
        fun j => JSON.asStrList (j.get "redFlags")) = some ["a", "b"] ∧
    (JSON.parse "{oops}").isNone = true ∧
    (JSON.parse "\x7b\"level\": 9\x7d trailing \x7d").isNone = true := by
  decide

end SafeGuard
